import Mathlib

/-!
# Context hub runtime environment: host client manager and CHPP transaction tracker

A shallow embedding of the host-side client identity and transaction manager
(`HalClientManager`, exercised by `host/test/hal_generic/common/hal_client_manager_test.cc`)
and of the CHPP app-layer transaction tracker (exercised by
`chpp/test/app_req_resp_test.cpp`), followed by the properties proved about them.

The implementation files of both components (`hal_client_manager.{h,cc}`, `chpp/app.c`)
are not among the sources; their definitions below follow the specification and the
constants and calls visible in the tests.
-/

namespace Chre

/-! ## Host client manager: data model -/

/-! Client ids (`HalClientId`) and host endpoint ids (`HostEndpointId`, `uint16_t` in the
tests) are natural numbers; the one computation that can leave 16 bits, the mutation of
an endpoint id, reduces its result modulo `2 ^ 16`. -/

/-- The uuid assigned to ContextHubService (`kSystemServerUuid` of the test). -/
def kSystemServerUuid : String := "9a17008d6bf1445a90116d21bd985b6c"

/-- The uuid of the vendor client of the test (`kVendorUuid`). -/
def kVendorUuid : String := "6e406b36cf4f4c0d8183db3708f45d8f"

/-- Pid of the system server in the test (`kSystemServerPid`). -/
def kSystemServerPid : Int := 1000

/-- Pid of the vendor client in the test (`kVendorPid`). -/
def kVendorPid : Int := 1001

/-- Modelled from the spec: the high bit that tags a mutated endpoint id
(`highBit`; `0x8000` in `EndpointIdMutationForVendorClient`). The header
`hal_client_manager.h` that declares it is missing. -/
def kVendorEndpointIdBitMask : Nat := 0x8000

/-- Modelled from the spec: the fixed shift of the client id inside a mutated
endpoint id (`clientIdShift`; `6` in `EndpointIdMutationForVendorClient`), which
is also the number of low bits that keep the original endpoint id. -/
def kNumOfBitsForEndpointId : Nat := 6

/-- Modelled from the spec: the largest endpoint id an ordinary client may use
(ordinary clients are restricted to ids < 64). -/
def kMaxVendorEndpointId : Nat := 2 ^ kNumOfBitsForEndpointId - 1

/-- Modelled from the spec: the upper end of the fixed, bounded client-id space of
non-system clients. A mutated endpoint id is 16 bits wide with the high bit as tag
and the low 6 bits as endpoint id, which leaves 9 bits for the client id. -/
def kMaxHalClientId : Nat := 2 ^ (16 - 1 - kNumOfBitsForEndpointId) - 1

/-- Modelled from the spec: the constants of the missing `hal_client_manager.h`
whose values neither the spec nor the tests fix: the id that stands for
"no client id assigned" (`kDefaultHalClientId`), the single reserved id of the
trusted system client, and the fixed timeout threshold of a pending transaction
(`kTransactionTimeoutThresholdMs`). -/
structure HalClientManagerConfig where
  kDefaultHalClientId : Nat
  kSystemServerClientId : Nat
  kTransactionTimeoutThresholdMs : Int
deriving DecidableEq

/-- Modelled from the spec: the kind of a pending transaction, kind ∈ {Load, Unload}. -/
inductive TransactionKind where
  | load
  | unload
deriving DecidableEq

/-- Modelled from the spec: PendingTransaction,
{transactionId, kind ∈ {Load, Unload}, registrationTimestamp}. -/
structure PendingTransaction where
  transactionId : Nat
  kind : TransactionKind
  registeredTimeMs : Int
deriving DecidableEq

/-- The arguments `createLoadTransaction` of the test passes to the constructor of
`FragmentedLoadTransaction`. -/
structure FragmentedLoadTransaction where
  transactionId : Nat
  appId : Nat
  appVersion : Nat
  appFlags : Nat
  targetApiVersion : Nat
  binary : List Nat
  fragmentSize : Nat
deriving DecidableEq

/-- Modelled from the spec: HalClient, the host-side logical client. `pid = none`
is the unset sentinel `HalClient::PID_UNSET`, `callback = none` the null callback;
a callback is identified by a handle. -/
structure HalClient where
  uuid : String
  clientId : Nat
  pid : Option Int
  callback : Option Nat
  endpointIds : List Nat
  pendingTransaction : Option PendingTransaction
deriving DecidableEq

/-- Modelled from the spec: the state of `HalClientManager`: the client table
`mClients` and the content of the persisted client mapping file (uuid → clientId). -/
structure HalClientManager where
  mClients : List HalClient
  mappingFile : List (String × Nat)
deriving DecidableEq

/-- Applies `f` to the first element of the list that satisfies `p`. -/
def modifyFirst {α : Type} (p : α → Bool) (f : α → α) : List α → List α
  | [] => []
  | x :: xs => if p x then f x :: xs else x :: modifyFirst p f xs

/-! ## Host client manager: operations -/

namespace HalClientManager

/-- Modelled from the spec: construction of the manager from the persisted mapping
file: every persisted uuid → clientId pair is restored as a disconnected client. -/
def create (mappings : List (String × Nat)) : HalClientManager :=
  { mClients := mappings.map fun m =>
      { uuid := m.1, clientId := m.2, pid := none, callback := none,
        endpointIds := [], pendingTransaction := none }
    mappingFile := mappings }

/-- Modelled from the spec: "locates the client by pid". -/
def getClientByProcessId (s : HalClientManager) (pid : Int) : Option HalClient :=
  s.mClients.find? fun c => c.pid == some pid

/-- Modelled from the spec: lookup of a client by its uuid. -/
def getClientByUuid (s : HalClientManager) (uuid : String) : Option HalClient :=
  s.mClients.find? fun c => c.uuid == uuid

/-- Modelled from the spec: lookup of a client by its client id. -/
def getClientByClientId (s : HalClientManager) (clientId : Nat) : Option HalClient :=
  s.mClients.find? fun c => c.clientId == clientId

/-- Modelled from the spec: an id is free when it is neither the unassigned id, nor
the reserved system id, nor held by a client or a persisted mapping. -/
def isClientIdFree (cfg : HalClientManagerConfig) (s : HalClientManager)
    (clientId : Nat) : Bool :=
  clientId != cfg.kDefaultHalClientId && clientId != cfg.kSystemServerClientId &&
    s.mClients.all (fun c => c.clientId != clientId) &&
    s.mappingFile.all (fun m => m.2 != clientId)

/-- Modelled from the spec: "allocates the next free id from the non-system id space
(or the single reserved system id if the caller identifies itself as the trusted
system client)"; `none` on exhaustion. -/
def allocateClientId (cfg : HalClientManagerConfig) (s : HalClientManager)
    (uuid : String) : Option Nat :=
  if uuid == kSystemServerUuid then some cfg.kSystemServerClientId
  else (List.range (kMaxHalClientId + 1)).find? (isClientIdFree cfg s)

/-- Modelled from the spec: "If a HalClient entry with this pid already exists under a
different uuid/callback, the old callback is detached"; the spec names no other field
of the old entry, so nothing else of it changes. -/
def detachOldCallback (pid : Int) (uuid : String) (clients : List HalClient) :
    List HalClient :=
  modifyFirst (fun c => c.pid == some pid)
    (fun c => if c.uuid != uuid then { c with callback := none } else c) clients

/-- Modelled from the spec: "re-registration by the same client (same uuid) simply
replaces its callback/pid — no duplicate entries"; a uuid seen for the first time
gets a new entry. -/
def attachClient (uuid : String) (clientId : Nat) (pid : Int) (callback : Nat)
    (clients : List HalClient) : List HalClient :=
  if clients.any (fun c => c.uuid == uuid) then
    modifyFirst (fun c => c.uuid == uuid)
      (fun c => { c with pid := some pid, callback := some callback }) clients
  else
    clients ++ [{ uuid := uuid, clientId := clientId, pid := some pid,
                  callback := some callback, endpointIds := [],
                  pendingTransaction := none }]

/-- Modelled from the spec: `registerCallback(pid, callback, uuid) -> bool`.
`persistOk` is the outcome of writing the mapping file, should a write be needed.
Returns false, committing nothing, only on allocation exhaustion or persistence
failure. -/
def registerCallback (cfg : HalClientManagerConfig) (s : HalClientManager) (pid : Int)
    (callback : Nat) (uuid : String) (persistOk : Bool) : Bool × HalClientManager :=
  let detached := detachOldCallback pid uuid s.mClients
  match s.mappingFile.find? (fun m => m.1 == uuid) with
  | some m =>
    (true, { s with mClients := attachClient uuid m.2 pid callback detached })
  | none =>
    match allocateClientId cfg s uuid with
    | none => (false, s)
    | some clientId =>
      if persistOk then
        (true, { mClients := attachClient uuid clientId pid callback detached
                 mappingFile := s.mappingFile ++ [(uuid, clientId)] })
      else (false, s)

/-- Modelled from the spec: `handleClientDeath(pid)`: "locates the client by pid,
detaches callback, sets pid to the unset sentinel, clears its registered endpoint
ids. The clientId/uuid entry remains". -/
def handleClientDeath (s : HalClientManager) (pid : Int) : HalClientManager :=
  let clients := modifyFirst (fun c => c.pid == some pid)
    (fun c => { c with callback := none, pid := none, endpointIds := [] }) s.mClients
  { s with mClients := clients }

/-- Modelled from the spec: `handleChreRestart()`: the callbacks that receive the
"restarted" async event, one entry per delivery: those of the clients with a
currently live callback. -/
def handleChreRestart (s : HalClientManager) : List Nat :=
  s.mClients.filterMap fun c => c.callback

/-- Modelled from the spec: `registerEndpointId(pid, endpointId)`: ordinary clients
are "restricted to ids < 64 and rejected with failure if they attempt to register
one ≥ 64"; the system client is exempt. -/
def registerEndpointId (s : HalClientManager) (pid : Int) (endpointId : Nat) :
    Bool × HalClientManager :=
  match s.getClientByProcessId pid with
  | none => (false, s)
  | some c =>
    if c.uuid != kSystemServerUuid && endpointId > kMaxVendorEndpointId then (false, s)
    else
      let clients := modifyFirst (fun c => c.pid == some pid)
        (fun c => if c.endpointIds.contains endpointId then c
          else { c with endpointIds := c.endpointIds ++ [endpointId] }) s.mClients
      (true, { s with mClients := clients })

/-- Modelled from the spec: `mutateEndpointIdFromHostIfNeeded(pid, endpointId)`:
rewrites the (16-bit) endpoint id to `highBit | (clientId << clientIdShift) | originalId`;
the ids of the trusted system client pass through unmutated. The result is the
returned flag and the endpoint id after the call (it is passed by reference). -/
def mutateEndpointIdFromHostIfNeeded (s : HalClientManager) (pid : Int)
    (endpointId : Nat) : Bool × Nat :=
  match s.getClientByProcessId pid with
  | none => (false, endpointId)
  | some c =>
    if c.uuid != kSystemServerUuid then
      (true, (kVendorEndpointIdBitMask ||| c.clientId <<< kNumOfBitsForEndpointId
                ||| endpointId) % 2 ^ 16)
    else (true, endpointId)

/-- Modelled from the spec: `convertToOriginalEndpointId`: "the inverse transform
strips the tag bits to recover the id the originating process understands". -/
def convertToOriginalEndpointId (endpointId : Nat) : Nat :=
  if endpointId &&& kVendorEndpointIdBitMask != 0 then endpointId &&& kMaxVendorEndpointId
  else endpointId

/-- Modelled from the spec: a new registration is allowed when "(a) no transaction is
pending, or (b) the pending one has exceeded a fixed timeout threshold". The test
`TransactionRegistryAndOverridden` expects a registration made after sleeping for
exactly the threshold to succeed, so the threshold counts as exceeded once the
elapsed time has reached it. -/
def isNewTransactionAllowed (cfg : HalClientManagerConfig) (c : HalClient) (nowMs : Int) :
    Bool :=
  match c.pendingTransaction with
  | none => true
  | some t => !decide (nowMs - t.registeredTimeMs < cfg.kTransactionTimeoutThresholdMs)

/-- Modelled from the spec: registration of a pending transaction of the given kind
for the client at `pid`, at time `nowMs`; a superseded transaction is replaced. -/
def registerPendingTransaction (cfg : HalClientManagerConfig) (s : HalClientManager)
    (pid : Int) (transactionId : Nat) (kind : TransactionKind) (nowMs : Int) :
    Bool × HalClientManager :=
  match s.getClientByProcessId pid with
  | none => (false, s)
  | some c =>
    if isNewTransactionAllowed cfg c nowMs then
      let pending : PendingTransaction :=
        { transactionId := transactionId, kind := kind, registeredTimeMs := nowMs }
      let clients := modifyFirst (fun c => c.pid == some pid)
        (fun c => { c with pendingTransaction := some pending }) s.mClients
      (true, { s with mClients := clients })
    else (false, s)

/-- Modelled from the spec: `registerPendingLoad(clientId, transaction) -> bool`, called
with the pid of the client as in the test. -/
def registerPendingLoadTransaction (cfg : HalClientManagerConfig) (s : HalClientManager)
    (pid : Int) (transaction : FragmentedLoadTransaction) (nowMs : Int) :
    Bool × HalClientManager :=
  registerPendingTransaction cfg s pid transaction.transactionId TransactionKind.load nowMs

/-- Modelled from the spec: `registerPendingUnload(clientId, transactionId) -> bool`,
called with the pid of the client as in the test. -/
def registerPendingUnloadTransaction (cfg : HalClientManagerConfig) (s : HalClientManager)
    (pid : Int) (transactionId : Nat) (nowMs : Int) : Bool × HalClientManager :=
  registerPendingTransaction cfg s pid transactionId TransactionKind.unload nowMs

/-- Modelled from the spec: `resetPending(clientId, transactionId)`: "explicitly clears
a matching pending transaction". -/
def resetPending (s : HalClientManager) (clientId : Nat) (transactionId : Nat) :
    HalClientManager :=
  let clients := modifyFirst (fun c => c.clientId == clientId)
    (fun c => match c.pendingTransaction with
      | some t =>
        if t.transactionId == transactionId then { c with pendingTransaction := none } else c
      | none => c) s.mClients
  { s with mClients := clients }

/-- Modelled from the spec: `resetPendingUnloadTransaction(clientId, transactionId)` of
the test: `resetPending` for a pending unload transaction. -/
def resetPendingUnloadTransaction (s : HalClientManager) (clientId : Nat)
    (transactionId : Nat) : HalClientManager :=
  let clients := modifyFirst (fun c => c.clientId == clientId)
    (fun c => match c.pendingTransaction with
      | some t =>
        if t.kind == TransactionKind.unload && t.transactionId == transactionId then
          { c with pendingTransaction := none }
        else c
      | none => c) s.mClients
  { s with mClients := clients }

/-- Modelled from the spec: the invariants the data model states for the client table
and the persisted mapping: the table and the file hold the same uuid → clientId
pairs, client ids and uuids are unique, the ids of non-system clients are drawn from
the bounded id space and differ from the reserved system id, and the endpoint ids of
non-system clients stay in the range reserved for ordinary clients. -/
abbrev WellFormed (cfg : HalClientManagerConfig) (s : HalClientManager) : Prop :=
  s.mClients.map (fun c => (c.uuid, c.clientId)) = s.mappingFile ∧
  (s.mClients.map fun c => c.clientId).Nodup ∧
  (s.mClients.map fun c => c.uuid).Nodup ∧
  (∀ c ∈ s.mClients, c.uuid ≠ kSystemServerUuid →
    c.clientId ≤ kMaxHalClientId ∧ c.clientId ≠ cfg.kSystemServerClientId) ∧
  (∀ c ∈ s.mClients, c.uuid ≠ kSystemServerUuid →
    ∀ e ∈ c.endpointIds, e ≤ kMaxVendorEndpointId)

/-- One call of the manager, with the inputs the environment supplies (the current
time and whether the mapping file can be written). -/
inductive Call where
  | registerCallback (pid : Int) (callback : Nat) (uuid : String) (persistOk : Bool)
  | handleClientDeath (pid : Int)
  | registerEndpointId (pid : Int) (endpointId : Nat)
  | registerPendingLoadTransaction (pid : Int) (transaction : FragmentedLoadTransaction)
      (nowMs : Int)
  | registerPendingUnloadTransaction (pid : Int) (transactionId : Nat) (nowMs : Int)
  | resetPending (clientId : Nat) (transactionId : Nat)
  | resetPendingUnloadTransaction (clientId : Nat) (transactionId : Nat)

/-- The state after one call. -/
def step (cfg : HalClientManagerConfig) (s : HalClientManager) : Call → HalClientManager
  | Call.registerCallback pid callback uuid persistOk =>
    (s.registerCallback cfg pid callback uuid persistOk).2
  | Call.handleClientDeath pid => s.handleClientDeath pid
  | Call.registerEndpointId pid endpointId => (s.registerEndpointId pid endpointId).2
  | Call.registerPendingLoadTransaction pid transaction nowMs =>
    (s.registerPendingLoadTransaction cfg pid transaction nowMs).2
  | Call.registerPendingUnloadTransaction pid transactionId nowMs =>
    (s.registerPendingUnloadTransaction cfg pid transactionId nowMs).2
  | Call.resetPending clientId transactionId => s.resetPending clientId transactionId
  | Call.resetPendingUnloadTransaction clientId transactionId =>
    s.resetPendingUnloadTransaction clientId transactionId

/-- The state after a sequence of calls. -/
def run (cfg : HalClientManagerConfig) (s : HalClientManager) (calls : List Call) :
    HalClientManager :=
  calls.foldl (step cfg) s

end HalClientManager

/-! ## CHPP app layer: transaction tracker -/

/-- Modelled from the spec: the app-layer error codes (`enum ChppAppErrorCode` of the
missing `chpp/app.h`), as far as the sources name them. -/
inductive ChppAppErrorCode where
  | CHPP_APP_ERROR_NONE
  | CHPP_APP_ERROR_INVALID_COMMAND
  | CHPP_APP_ERROR_OOM
  | CHPP_APP_ERROR_BEYOND_CHPP
  | CHPP_APP_ERROR_CONVERSION_FAILED
  | CHPP_APP_ERROR_TIMEOUT
  | CHPP_APP_ERROR_UNSPECIFIED
deriving DecidableEq

/-- Modelled from the spec: the message types of the app layer (`enum ChppMessageType` of
the missing `chpp/app.h`). -/
inductive ChppMessageType where
  | CHPP_MESSAGE_TYPE_CLIENT_REQUEST
  | CHPP_MESSAGE_TYPE_SERVICE_RESPONSE
  | CHPP_MESSAGE_TYPE_CLIENT_NOTIFICATION
  | CHPP_MESSAGE_TYPE_SERVICE_NOTIFICATION
  | CHPP_MESSAGE_TYPE_SERVICE_REQUEST
  | CHPP_MESSAGE_TYPE_CLIENT_RESPONSE
deriving DecidableEq

/-- Modelled from the spec: the app header of a frame (`struct ChppAppHeader` of the
missing `chpp/app.h`): handle, message type, transaction id, error code, command. -/
structure ChppAppHeader where
  handle : Nat
  type : ChppMessageType
  transaction : Nat
  error : ChppAppErrorCode
  command : Nat
deriving DecidableEq

/-- Modelled from the spec: an endpoint is "a registered Client or Service". -/
inductive EndpointKind where
  | client
  | service
deriving DecidableEq

/-- Modelled from the spec: an (endpoint, command) slot; the endpoint is a client or a
service, identified by its handle. -/
structure Slot where
  kind : EndpointKind
  handle : Nat
  command : Nat
deriving DecidableEq

/-- Modelled from the spec: OutgoingRequestState, "one per (endpoint, command slot):
transaction id (monotonically assigned per send), send timestamp, pending/idle flag",
together with the timeout configured for the request. -/
structure OutgoingRequestState where
  transaction : Nat
  requestTimeNs : Nat
  timeoutNs : Nat
  pending : Bool
deriving DecidableEq

/-- A response handed to the response-dispatch handler of an endpoint, with the result of
correlating it against the outgoing request state (`chppTimestampIncomingResponse`). -/
structure Delivery where
  response : ChppAppHeader
  correlated : Bool
deriving DecidableEq

/-- Modelled from the spec: the failure of `sendRequest`, `Result<TransactionId, Busy>`. -/
inductive SendError where
  | busy
deriving DecidableEq

/-- Modelled from the spec: the state of the transaction tracker: the slots of the
registered endpoints, the outgoing request state of every slot, the requests handed to
the transport, the responses delivered to response-dispatch handlers and the slots whose
pending request a reset discarded (oldest first). -/
structure TransactionTracker where
  registered : List Slot
  outReqStates : Slot → OutgoingRequestState
  txQueue : List ChppAppHeader
  delivered : List Delivery
  dropped : List Slot

namespace TransactionTracker

/-- Modelled from the spec: the tracker after registration of the given slots: every slot
idle, nothing sent or delivered. -/
def init (registered : List Slot) : TransactionTracker :=
  { registered := registered
    outReqStates := fun _ =>
      { transaction := 0, requestTimeNs := 0, timeoutNs := 0, pending := false }
    txQueue := []
    delivered := []
    dropped := [] }

/-- Modelled from the spec: the message type of a request sent by an endpoint of the given
kind (ClientRequest, ServiceRequest). -/
def requestType : EndpointKind → ChppMessageType
  | EndpointKind.client => ChppMessageType.CHPP_MESSAGE_TYPE_CLIENT_REQUEST
  | EndpointKind.service => ChppMessageType.CHPP_MESSAGE_TYPE_SERVICE_REQUEST

/-- Modelled from the spec: the message type of a response received by an endpoint of the
given kind (ServiceResponse for a client, ClientResponse for a service). -/
def responseType : EndpointKind → ChppMessageType
  | EndpointKind.client => ChppMessageType.CHPP_MESSAGE_TYPE_SERVICE_RESPONSE
  | EndpointKind.service => ChppMessageType.CHPP_MESSAGE_TYPE_CLIENT_RESPONSE

/-- Modelled from the spec: the slot a response frame belongs to, by its handle, message
type and command; `none` when the frame is not a response. -/
def slotOfResponse (response : ChppAppHeader) : Option Slot :=
  match response.type with
  | ChppMessageType.CHPP_MESSAGE_TYPE_SERVICE_RESPONSE =>
    some { kind := EndpointKind.client, handle := response.handle, command := response.command }
  | ChppMessageType.CHPP_MESSAGE_TYPE_CLIENT_RESPONSE =>
    some { kind := EndpointKind.service, handle := response.handle, command := response.command }
  | _ => none

/-- Modelled from the spec: `sendRequest(endpoint, command, payload)`: "if the command's
OutgoingRequestState is already pending, fails with Busy. On success, allocates the next
transaction id for that (endpoint, command) pair, stamps the send time, marks pending,
and hands the framed request to the transport." `timeoutNs` is the timeout configured
for the request and `nowNs` the time of the call. -/
def sendRequest (s : TransactionTracker) (slot : Slot) (timeoutNs nowNs : Nat) :
    Except SendError Nat × TransactionTracker :=
  if (s.outReqStates slot).pending then (Except.error SendError.busy, s)
  else
    let transaction := (s.outReqStates slot).transaction + 1
    let request : ChppAppHeader :=
      { handle := slot.handle, type := requestType slot.kind, transaction := transaction,
        error := ChppAppErrorCode.CHPP_APP_ERROR_NONE, command := slot.command }
    let state : OutgoingRequestState :=
      { transaction := transaction, requestTimeNs := nowNs, timeoutNs := timeoutNs,
        pending := true }
    (Except.ok transaction,
      { s with outReqStates := Function.update s.outReqStates slot state
               txQueue := s.txQueue ++ [request] })

/-- Modelled from the spec: `onResponseReceived` (`chppTimestampIncomingResponse` of the
test): "clears pending state only if the transaction id matches the one recorded;
mismatches are logged and ignored". Returns whether the response was correlated. -/
def chppTimestampIncomingResponse (state : OutgoingRequestState) (response : ChppAppHeader) :
    Bool × OutgoingRequestState :=
  if state.pending && response.transaction == state.transaction then
    (true, { state with pending := false })
  else (false, state)

/-- Modelled from the spec: dispatch of a response frame: "invoke the endpoint's
response-dispatch handler, which must correlate against the matching
OutgoingRequestState by transaction id; if no pending request matches (stale/duplicate),
the response is dropped". Frames that are not responses are not handled here. -/
def dispatchResponse (s : TransactionTracker) (response : ChppAppHeader) :
    TransactionTracker :=
  match slotOfResponse response with
  | none => s
  | some slot =>
    let r := chppTimestampIncomingResponse (s.outReqStates slot) response
    { s with outReqStates := Function.update s.outReqStates slot r.2
             delivered := s.delivered ++ [{ response := response, correlated := r.1 }] }

/-- Modelled from the spec: the "local response with a timeout error code" the app layer
synthesizes for a request that timed out. -/
def timeoutResponse (slot : Slot) (transaction : Nat) : ChppAppHeader :=
  { handle := slot.handle, type := responseType slot.kind, transaction := transaction,
    error := ChppAppErrorCode.CHPP_APP_ERROR_TIMEOUT, command := slot.command }

/-- Modelled from the spec: the timeout check of one slot at time `nowNs`: for a "pending
OutgoingRequestState whose age exceeds its configured timeout, synthesizes a local
response with a timeout error code and delivers it to the endpoint's response handler
exactly as if it had arrived from the peer, then clears pending state". -/
def scanSlot (nowNs : Nat) (s : TransactionTracker) (slot : Slot) : TransactionTracker :=
  let state := s.outReqStates slot
  if state.pending && decide (nowNs - state.requestTimeNs > state.timeoutNs) then
    let s1 := dispatchResponse s (timeoutResponse slot state.transaction)
    let cleared : OutgoingRequestState := { s1.outReqStates slot with pending := false }
    { s1 with outReqStates := Function.update s1.outReqStates slot cleared }
  else s

/-- Modelled from the spec: `scanForTimeouts(now)`: the timeout check of every slot. -/
def scanForTimeouts (s : TransactionTracker) (nowNs : Nat) : TransactionTracker :=
  s.registered.foldl (scanSlot nowNs) s

/-- Modelled from the spec: the effect of a transport reset on one slot: the reset
coordinator "clears all OutgoingRequestState/IncomingRequestState entries without
sending synthesized responses". -/
def resetSlot (s : TransactionTracker) (slot : Slot) : TransactionTracker :=
  if (s.outReqStates slot).pending then
    let cleared : OutgoingRequestState := { s.outReqStates slot with pending := false }
    { s with outReqStates := Function.update s.outReqStates slot cleared
             dropped := s.dropped ++ [slot] }
  else s

/-- Modelled from the spec: a transport reset: the outgoing request state of every slot
is cleared. -/
def reset (s : TransactionTracker) : TransactionTracker :=
  s.registered.foldl resetSlot s

/-- One event of the tracker. -/
inductive Event where
  | sendRequest (slot : Slot) (timeoutNs nowNs : Nat)
  | responseReceived (response : ChppAppHeader)
  | scanForTimeouts (nowNs : Nat)
  | reset

/-- The tracker after one event. -/
def step (s : TransactionTracker) : Event → TransactionTracker
  | Event.sendRequest slot timeoutNs nowNs => (s.sendRequest slot timeoutNs nowNs).2
  | Event.responseReceived response => s.dispatchResponse response
  | Event.scanForTimeouts nowNs => s.scanForTimeouts nowNs
  | Event.reset => s.reset

/-- The tracker after a sequence of events. -/
def run (s : TransactionTracker) (events : List Event) : TransactionTracker :=
  events.foldl step s

/-- The requests of a slot handed to the transport so far. -/
def requestsOf (s : TransactionTracker) (slot : Slot) : List ChppAppHeader :=
  s.txQueue.filter fun request =>
    request.handle == slot.handle && request.type == requestType slot.kind &&
      request.command == slot.command

/-- The responses of a slot delivered to its response-dispatch handler so far. -/
def deliveriesOf (s : TransactionTracker) (slot : Slot) : List Delivery :=
  s.delivered.filter fun d => slotOfResponse d.response == some slot

/-- The number of requests of a slot that were accepted and have neither been completed
by a correlated response nor discarded by a reset. -/
def outstanding (s : TransactionTracker) (slot : Slot) : Nat :=
  (s.requestsOf slot).length - ((s.deliveriesOf slot).filter fun d => d.correlated).length -
    (s.dropped.filter fun j => j == slot).length

end TransactionTracker

/-- The accepted requests of a slot are its completed requests, its requests discarded
by a reset, and the pending one. -/
def Balanced (s : TransactionTracker) (k : Slot) : Prop :=
  (s.requestsOf k).length =
    ((s.deliveriesOf k).filter fun d => d.correlated).length +
      (s.dropped.filter fun j => j == k).length +
      (if (s.outReqStates k).pending then 1 else 0)

namespace AppReqRespTest

/-- Command `Commands::kOk`. -/
def kOk : Nat := 0

/-- Command `Commands::kError`. -/
def kError : Nat := 1

/-- Command `Commands::kTimeout`. -/
def kTimeout : Nat := 2

/-- The state `CommonState` of the test endpoints; the notifier is the number of times
it was signalled. -/
structure CommonState where
  okResponseStatus : Bool
  errorResponseStatus : Bool
  timeoutResponseStatus : Bool
  notifier : Nat
deriving DecidableEq

/-- The response handler `dispatchResponse` of the test, on the outgoing request states
of its endpoint (indexed by command); `headerSize` is `sizeof(ChppAppHeader)`. Returns
the states after the call; the handler itself always returns `CHPP_APP_ERROR_NONE`. -/
def dispatchResponse (headerSize : Nat) (outReqStates : Nat → OutgoingRequestState)
    (common : CommonState) (response : ChppAppHeader) (len : Nat) :
    (Nat → OutgoingRequestState) × CommonState :=
  if len != headerSize then (outReqStates, common)
  else if response.command == kOk then
    let r := TransactionTracker.chppTimestampIncomingResponse (outReqStates kOk) response
    (Function.update outReqStates kOk r.2,
      { common with okResponseStatus :=
          r.1 && response.error == ChppAppErrorCode.CHPP_APP_ERROR_NONE })
  else if response.command == kError then
    let r := TransactionTracker.chppTimestampIncomingResponse (outReqStates kError) response
    (Function.update outReqStates kError r.2,
      { common with errorResponseStatus :=
          r.1 && response.error == ChppAppErrorCode.CHPP_APP_ERROR_UNSPECIFIED })
  else if response.command == kTimeout then
    let r := TransactionTracker.chppTimestampIncomingResponse (outReqStates kTimeout) response
    (Function.update outReqStates kTimeout r.2,
      { common with
        timeoutResponseStatus :=
          r.1 && response.error == ChppAppErrorCode.CHPP_APP_ERROR_TIMEOUT
        notifier := common.notifier + 1 })
  else (outReqStates, common)

/-- The slot of a command of the test client (its handle is 16 here). -/
def clientSlot (command : Nat) : Slot :=
  { kind := EndpointKind.client, handle := 16, command := command }

/-- The slot of a command of the test service (its handle is 16 here). -/
def serviceSlot (command : Nat) : Slot :=
  { kind := EndpointKind.service, handle := 16, command := command }

/-- The tracker of the test after registration of the client and the service, each with
`kNumCommands` outgoing request states. -/
def testTracker : TransactionTracker :=
  TransactionTracker.init
    [clientSlot kOk, clientSlot kError, clientSlot kTimeout,
      serviceSlot kOk, serviceSlot kError, serviceSlot kTimeout]

/-- The timeout of the request of `sendsRequestAndReceiveTimeoutResponse`:
`10 * kOneMicrosecondInNanoseconds`. -/
def kTestTimeoutNs : Nat := 10 * 1000

end AppReqRespTest

/-! ## WWAN cell info conversion (`chpp/common/wwan_convert.c`)

The structures are declared in `chre_api/chre/wwan.h` and `chpp/common/wwan_types.h`,
which are not among the sources; their fields are the ones `wwan_convert.c` copies. A
CHRE structure and the CHPP structure it is converted to have the same fields, and one
definition stands for both up to the cell info. The integer type of a field is the same
on both sides, so a copy keeps the value. -/

/-- The fields of `chreWwanCellIdentityCdma` and `ChppWwanCellIdentityCdma`. -/
structure WwanCellIdentityCdma where
  networkId : Int
  systemId : Int
  basestationId : Int
  longitude : Int
  latitude : Int
deriving DecidableEq

/-- The fields of `chreWwanSignalStrengthCdma` and `ChppWwanSignalStrengthCdma`. -/
structure WwanSignalStrengthCdma where
  dbm : Int
  ecio : Int
deriving DecidableEq

/-- The fields of `chreWwanSignalStrengthEvdo` and `ChppWwanSignalStrengthEvdo`. -/
structure WwanSignalStrengthEvdo where
  dbm : Int
  ecio : Int
  signalNoiseRatio : Int
deriving DecidableEq

/-- The fields of `chreWwanCellInfoCdma` and `ChppWwanCellInfoCdma`. -/
structure WwanCellInfoCdma where
  cellIdentityCdma : WwanCellIdentityCdma
  signalStrengthCdma : WwanSignalStrengthCdma
  signalStrengthEvdo : WwanSignalStrengthEvdo
deriving DecidableEq

/-- The fields of `chreWwanCellIdentityGsm` and `ChppWwanCellIdentityGsm`; `reserved` is
the value of the reserved bytes, 0 when they are all zero. -/
structure WwanCellIdentityGsm where
  mcc : Int
  mnc : Int
  lac : Int
  cid : Int
  arfcn : Int
  bsic : Int
  reserved : Nat
deriving DecidableEq

/-- The fields of `chreWwanSignalStrengthGsm` and `ChppWwanSignalStrengthGsm`. -/
structure WwanSignalStrengthGsm where
  signalStrength : Int
  bitErrorRate : Int
  timingAdvance : Int
deriving DecidableEq

/-- The fields of `chreWwanCellInfoGsm` and `ChppWwanCellInfoGsm`. -/
structure WwanCellInfoGsm where
  cellIdentityGsm : WwanCellIdentityGsm
  signalStrengthGsm : WwanSignalStrengthGsm
deriving DecidableEq

/-- The fields of `chreWwanCellIdentityLte` and `ChppWwanCellIdentityLte`. -/
structure WwanCellIdentityLte where
  mcc : Int
  mnc : Int
  ci : Int
  pci : Int
  tac : Int
  earfcn : Int
deriving DecidableEq

/-- The fields of `chreWwanSignalStrengthLte` and `ChppWwanSignalStrengthLte`. -/
structure WwanSignalStrengthLte where
  signalStrength : Int
  rsrp : Int
  rsrq : Int
  rssnr : Int
  cqi : Int
  timingAdvance : Int
deriving DecidableEq

/-- The fields of `chreWwanCellInfoLte` and `ChppWwanCellInfoLte`. -/
structure WwanCellInfoLte where
  cellIdentityLte : WwanCellIdentityLte
  signalStrengthLte : WwanSignalStrengthLte
deriving DecidableEq

/-- The fields of `chreWwanCellIdentityNr` and `ChppWwanCellIdentityNr`. -/
structure WwanCellIdentityNr where
  mcc : Int
  mnc : Int
  nci0 : Int
  nci1 : Int
  pci : Int
  tac : Int
  nrarfcn : Int
deriving DecidableEq

/-- The fields of `chreWwanSignalStrengthNr` and `ChppWwanSignalStrengthNr`. -/
structure WwanSignalStrengthNr where
  ssRsrp : Int
  ssRsrq : Int
  ssSinr : Int
  csiRsrp : Int
  csiRsrq : Int
  csiSinr : Int
deriving DecidableEq

/-- The fields of `chreWwanCellInfoNr` and `ChppWwanCellInfoNr`. -/
structure WwanCellInfoNr where
  cellIdentityNr : WwanCellIdentityNr
  signalStrengthNr : WwanSignalStrengthNr
deriving DecidableEq

/-- The fields of `chreWwanCellIdentityTdscdma` and `ChppWwanCellIdentityTdscdma`. -/
structure WwanCellIdentityTdscdma where
  mcc : Int
  mnc : Int
  lac : Int
  cid : Int
  cpid : Int
deriving DecidableEq

/-- The fields of `chreWwanSignalStrengthTdscdma` and `ChppWwanSignalStrengthTdscdma`. -/
structure WwanSignalStrengthTdscdma where
  rscp : Int
deriving DecidableEq

/-- The fields of `chreWwanCellInfoTdscdma` and `ChppWwanCellInfoTdscdma`. -/
structure WwanCellInfoTdscdma where
  cellIdentityTdscdma : WwanCellIdentityTdscdma
  signalStrengthTdscdma : WwanSignalStrengthTdscdma
deriving DecidableEq

/-- The fields of `chreWwanCellIdentityWcdma` and `ChppWwanCellIdentityWcdma`. -/
structure WwanCellIdentityWcdma where
  mcc : Int
  mnc : Int
  lac : Int
  cid : Int
  psc : Int
  uarfcn : Int
deriving DecidableEq

/-- The fields of `chreWwanSignalStrengthWcdma` and `ChppWwanSignalStrengthWcdma`. -/
structure WwanSignalStrengthWcdma where
  signalStrength : Int
  bitErrorRate : Int
deriving DecidableEq

/-- The fields of `chreWwanCellInfoWcdma` and `ChppWwanCellInfoWcdma`. -/
structure WwanCellInfoWcdma where
  cellIdentityWcdma : WwanCellIdentityWcdma
  signalStrengthWcdma : WwanSignalStrengthWcdma
deriving DecidableEq

/-- The union member `CellInfo` of a cell info, on either side, given by its six views.
A conversion reads and writes the view that `cellInfoType` selects; the other views of
a union are not meaningful, and after a conversion they are the views of the zeroed
union here. -/
structure WwanCellInfoPerRat where
  gsm : WwanCellInfoGsm
  cdma : WwanCellInfoCdma
  lte : WwanCellInfoLte
  wcdma : WwanCellInfoWcdma
  tdscdma : WwanCellInfoTdscdma
  nr : WwanCellInfoNr
deriving DecidableEq

/-- The union after `memset(&out->CellInfo, 0, sizeof(out->CellInfo))`. -/
def WwanCellInfoPerRat.zero : WwanCellInfoPerRat :=
  { gsm := ⟨⟨0, 0, 0, 0, 0, 0, 0⟩, ⟨0, 0, 0⟩⟩
    cdma := ⟨⟨0, 0, 0, 0, 0⟩, ⟨0, 0⟩, ⟨0, 0, 0⟩⟩
    lte := ⟨⟨0, 0, 0, 0, 0, 0⟩, ⟨0, 0, 0, 0, 0, 0⟩⟩
    wcdma := ⟨⟨0, 0, 0, 0, 0, 0⟩, ⟨0, 0⟩⟩
    tdscdma := ⟨⟨0, 0, 0, 0, 0⟩, ⟨0⟩⟩
    nr := ⟨⟨0, 0, 0, 0, 0, 0, 0⟩, ⟨0, 0, 0, 0, 0, 0⟩⟩ }

/-- The fields of `struct chreWwanCellInfo`. -/
structure chreWwanCellInfo where
  timeStamp : Nat
  cellInfoType : Nat
  timeStampType : Nat
  registered : Nat
  reserved : Nat
  CellInfo : WwanCellInfoPerRat
deriving DecidableEq

/-- The fields of `struct ChppWwanCellInfo`. -/
structure ChppWwanCellInfo where
  timeStamp : Nat
  cellInfoType : Nat
  timeStampType : Nat
  registered : Nat
  reserved : Nat
  CellInfo : WwanCellInfoPerRat
deriving DecidableEq

/-- The fields of `struct chreWwanCellInfoResult`; `cells` is `none` for a null pointer,
else the array it points to. -/
structure chreWwanCellInfoResult where
  version : Nat
  errorCode : Nat
  cellInfoCount : Nat
  reserved : Nat
  cookie : Nat
  cells : Option (List chreWwanCellInfo)
deriving DecidableEq

/-- The fields `offset` and `length` of a `struct ChppOffset`, both `uint16_t`. -/
structure ChppOffset where
  offset : Nat
  length : Nat
deriving DecidableEq

/-- The fields of `struct ChppWwanCellInfoResult`. -/
structure ChppWwanCellInfoResult where
  version : Nat
  errorCode : Nat
  cellInfoCount : Nat
  reserved : Nat
  cookie : Nat
  cells : ChppOffset
deriving DecidableEq

/-- The constants and structure sizes that `wwan_convert.c` takes from the missing
headers, as parameters: the six cell info types (distinct, being the case labels of one
`switch`), the result version, and `sizeof` of the structures named. -/
structure WwanTypes where
  CHRE_WWAN_CELL_INFO_TYPE_GSM : Nat
  CHRE_WWAN_CELL_INFO_TYPE_CDMA : Nat
  CHRE_WWAN_CELL_INFO_TYPE_LTE : Nat
  CHRE_WWAN_CELL_INFO_TYPE_WCDMA : Nat
  CHRE_WWAN_CELL_INFO_TYPE_TD_SCDMA : Nat
  CHRE_WWAN_CELL_INFO_TYPE_NR : Nat
  distinct : [CHRE_WWAN_CELL_INFO_TYPE_GSM, CHRE_WWAN_CELL_INFO_TYPE_CDMA,
    CHRE_WWAN_CELL_INFO_TYPE_LTE, CHRE_WWAN_CELL_INFO_TYPE_WCDMA,
    CHRE_WWAN_CELL_INFO_TYPE_TD_SCDMA, CHRE_WWAN_CELL_INFO_TYPE_NR].Nodup
  CHRE_WWAN_CELL_INFO_RESULT_VERSION : Nat
  sizeofChppWwanCellInfoResultWithHeader : Nat
  sizeofChppWwanCellInfoResult : Nat
  sizeofChppWwanCellInfo : Nat
  sizeofChreWwanCellInfo : Nat

/-- The function `chppWwanConvertCellIdentityCdmaFromChre`: the structure written to `out`. -/
def chppWwanConvertCellIdentityCdmaFromChre (in_ : WwanCellIdentityCdma) : WwanCellIdentityCdma :=
  { networkId := in_.networkId, systemId := in_.systemId, basestationId := in_.basestationId,
    longitude := in_.longitude, latitude := in_.latitude }

/-- The function `chppWwanConvertSignalStrengthCdmaFromChre`: the structure written to `out`. -/
def chppWwanConvertSignalStrengthCdmaFromChre (in_ : WwanSignalStrengthCdma) :
    WwanSignalStrengthCdma :=
  { dbm := in_.dbm, ecio := in_.ecio }

/-- The function `chppWwanConvertSignalStrengthEvdoFromChre`: the structure written to `out`. -/
def chppWwanConvertSignalStrengthEvdoFromChre (in_ : WwanSignalStrengthEvdo) :
    WwanSignalStrengthEvdo :=
  { dbm := in_.dbm, ecio := in_.ecio, signalNoiseRatio := in_.signalNoiseRatio }

/-- The function `chppWwanConvertCellInfoCdmaFromChre`: the structure written to `out`. -/
def chppWwanConvertCellInfoCdmaFromChre (in_ : WwanCellInfoCdma) : WwanCellInfoCdma :=
  { cellIdentityCdma := chppWwanConvertCellIdentityCdmaFromChre in_.cellIdentityCdma
    signalStrengthCdma := chppWwanConvertSignalStrengthCdmaFromChre in_.signalStrengthCdma
    signalStrengthEvdo := chppWwanConvertSignalStrengthEvdoFromChre in_.signalStrengthEvdo }

/-- The function `chppWwanConvertCellIdentityGsmFromChre`: the structure written to `out`. -/
def chppWwanConvertCellIdentityGsmFromChre (in_ : WwanCellIdentityGsm) : WwanCellIdentityGsm :=
  { mcc := in_.mcc, mnc := in_.mnc, lac := in_.lac, cid := in_.cid, arfcn := in_.arfcn,
    bsic := in_.bsic, reserved := 0 }

/-- The function `chppWwanConvertSignalStrengthGsmFromChre`: the structure written to `out`. -/
def chppWwanConvertSignalStrengthGsmFromChre (in_ : WwanSignalStrengthGsm) :
    WwanSignalStrengthGsm :=
  { signalStrength := in_.signalStrength, bitErrorRate := in_.bitErrorRate,
    timingAdvance := in_.timingAdvance }

/-- The function `chppWwanConvertCellInfoGsmFromChre`: the structure written to `out`. -/
def chppWwanConvertCellInfoGsmFromChre (in_ : WwanCellInfoGsm) : WwanCellInfoGsm :=
  { cellIdentityGsm := chppWwanConvertCellIdentityGsmFromChre in_.cellIdentityGsm
    signalStrengthGsm := chppWwanConvertSignalStrengthGsmFromChre in_.signalStrengthGsm }

/-- The function `chppWwanConvertCellIdentityLteFromChre`: the structure written to `out`. -/
def chppWwanConvertCellIdentityLteFromChre (in_ : WwanCellIdentityLte) : WwanCellIdentityLte :=
  { mcc := in_.mcc, mnc := in_.mnc, ci := in_.ci, pci := in_.pci, tac := in_.tac,
    earfcn := in_.earfcn }

/-- The function `chppWwanConvertSignalStrengthLteFromChre`: the structure written to `out`. -/
def chppWwanConvertSignalStrengthLteFromChre (in_ : WwanSignalStrengthLte) :
    WwanSignalStrengthLte :=
  { signalStrength := in_.signalStrength, rsrp := in_.rsrp, rsrq := in_.rsrq,
    rssnr := in_.rssnr, cqi := in_.cqi, timingAdvance := in_.timingAdvance }

/-- The function `chppWwanConvertCellInfoLteFromChre`: the structure written to `out`. -/
def chppWwanConvertCellInfoLteFromChre (in_ : WwanCellInfoLte) : WwanCellInfoLte :=
  { cellIdentityLte := chppWwanConvertCellIdentityLteFromChre in_.cellIdentityLte
    signalStrengthLte := chppWwanConvertSignalStrengthLteFromChre in_.signalStrengthLte }

/-- The function `chppWwanConvertCellIdentityNrFromChre`: the structure written to `out`. -/
def chppWwanConvertCellIdentityNrFromChre (in_ : WwanCellIdentityNr) : WwanCellIdentityNr :=
  { mcc := in_.mcc, mnc := in_.mnc, nci0 := in_.nci0, nci1 := in_.nci1, pci := in_.pci,
    tac := in_.tac, nrarfcn := in_.nrarfcn }

/-- The function `chppWwanConvertSignalStrengthNrFromChre`: the structure written to `out`. -/
def chppWwanConvertSignalStrengthNrFromChre (in_ : WwanSignalStrengthNr) : WwanSignalStrengthNr :=
  { ssRsrp := in_.ssRsrp, ssRsrq := in_.ssRsrq, ssSinr := in_.ssSinr, csiRsrp := in_.csiRsrp,
    csiRsrq := in_.csiRsrq, csiSinr := in_.csiSinr }

/-- The function `chppWwanConvertCellInfoNrFromChre`: the structure written to `out`. -/
def chppWwanConvertCellInfoNrFromChre (in_ : WwanCellInfoNr) : WwanCellInfoNr :=
  { cellIdentityNr := chppWwanConvertCellIdentityNrFromChre in_.cellIdentityNr
    signalStrengthNr := chppWwanConvertSignalStrengthNrFromChre in_.signalStrengthNr }

/-- The function `chppWwanConvertCellIdentityTdscdmaFromChre`: the structure written to `out`. -/
def chppWwanConvertCellIdentityTdscdmaFromChre (in_ : WwanCellIdentityTdscdma) :
    WwanCellIdentityTdscdma :=
  { mcc := in_.mcc, mnc := in_.mnc, lac := in_.lac, cid := in_.cid, cpid := in_.cpid }

/-- The function `chppWwanConvertSignalStrengthTdscdmaFromChre`: the structure written to `out`.
-/
def chppWwanConvertSignalStrengthTdscdmaFromChre (in_ : WwanSignalStrengthTdscdma) :
    WwanSignalStrengthTdscdma :=
  { rscp := in_.rscp }

/-- The function `chppWwanConvertCellInfoTdscdmaFromChre`: the structure written to `out`. -/
def chppWwanConvertCellInfoTdscdmaFromChre (in_ : WwanCellInfoTdscdma) : WwanCellInfoTdscdma :=
  { cellIdentityTdscdma := chppWwanConvertCellIdentityTdscdmaFromChre in_.cellIdentityTdscdma
    signalStrengthTdscdma := chppWwanConvertSignalStrengthTdscdmaFromChre in_.signalStrengthTdscdma }

/-- The function `chppWwanConvertCellIdentityWcdmaFromChre`: the structure written to `out`. -/
def chppWwanConvertCellIdentityWcdmaFromChre (in_ : WwanCellIdentityWcdma) :
    WwanCellIdentityWcdma :=
  { mcc := in_.mcc, mnc := in_.mnc, lac := in_.lac, cid := in_.cid, psc := in_.psc,
    uarfcn := in_.uarfcn }

/-- The function `chppWwanConvertSignalStrengthWcdmaFromChre`: the structure written to `out`. -/
def chppWwanConvertSignalStrengthWcdmaFromChre (in_ : WwanSignalStrengthWcdma) :
    WwanSignalStrengthWcdma :=
  { signalStrength := in_.signalStrength, bitErrorRate := in_.bitErrorRate }

/-- The function `chppWwanConvertCellInfoWcdmaFromChre`: the structure written to `out`. -/
def chppWwanConvertCellInfoWcdmaFromChre (in_ : WwanCellInfoWcdma) : WwanCellInfoWcdma :=
  { cellIdentityWcdma := chppWwanConvertCellIdentityWcdmaFromChre in_.cellIdentityWcdma
    signalStrengthWcdma := chppWwanConvertSignalStrengthWcdmaFromChre in_.signalStrengthWcdma }

/-- The function `chppWwanConvertCellInfoFromChre`: the structure written to `out`. The
assertion of the default case is not checked here. -/
def chppWwanConvertCellInfoFromChre (T : WwanTypes) (in_ : chreWwanCellInfo) :
    ChppWwanCellInfo :=
  let zero := WwanCellInfoPerRat.zero
  { timeStamp := in_.timeStamp
    cellInfoType := in_.cellInfoType
    timeStampType := in_.timeStampType
    registered := in_.registered
    reserved := 0
    CellInfo :=
      if in_.cellInfoType = T.CHRE_WWAN_CELL_INFO_TYPE_GSM then
        { zero with gsm := chppWwanConvertCellInfoGsmFromChre in_.CellInfo.gsm }
      else if in_.cellInfoType = T.CHRE_WWAN_CELL_INFO_TYPE_CDMA then
        { zero with cdma := chppWwanConvertCellInfoCdmaFromChre in_.CellInfo.cdma }
      else if in_.cellInfoType = T.CHRE_WWAN_CELL_INFO_TYPE_LTE then
        { zero with lte := chppWwanConvertCellInfoLteFromChre in_.CellInfo.lte }
      else if in_.cellInfoType = T.CHRE_WWAN_CELL_INFO_TYPE_WCDMA then
        { zero with wcdma := chppWwanConvertCellInfoWcdmaFromChre in_.CellInfo.wcdma }
      else if in_.cellInfoType = T.CHRE_WWAN_CELL_INFO_TYPE_TD_SCDMA then
        { zero with tdscdma := chppWwanConvertCellInfoTdscdmaFromChre in_.CellInfo.tdscdma }
      else if in_.cellInfoType = T.CHRE_WWAN_CELL_INFO_TYPE_NR then
        { zero with nr := chppWwanConvertCellInfoNrFromChre in_.CellInfo.nr }
      else zero }

/-- The function `chppWwanSizeOfCellInfoResultFromChre`. -/
def chppWwanSizeOfCellInfoResultFromChre (T : WwanTypes)
    (cellInfoResult : chreWwanCellInfoResult) : Nat :=
  T.sizeofChppWwanCellInfoResultWithHeader +
    cellInfoResult.cellInfoCount * T.sizeofChppWwanCellInfo

/-- What `chppWwanConvertCellInfoResultFromChre` writes: the structure `*out`, the cells
written into the payload, each with the byte offset in the payload at which it starts,
and the value of `*vlaOffset` after the call. -/
structure CellInfoResultFromChre where
  out : ChppWwanCellInfoResult
  cells : List (Nat × ChppWwanCellInfo)
  vlaOffset : Nat
deriving DecidableEq

/-- The function `chppWwanConvertCellInfoResultFromChre`. The fields of a `ChppOffset`
and `*vlaOffset` are `uint16_t`; cell `i` of the payload starts `i` times the size of a
`ChppWwanCellInfo` after `&payload[*vlaOffset]`. The loop reads `in->cells[i]` for every
`i < cellInfoCount`: the definition covers a result whose array holds at least
`cellInfoCount` cells, as a PAL hands it over; for a null or shorter array the C loop
reads outside the array, which is not represented (the cells present are taken). The
assertion on the payload size is not checked here. -/
def chppWwanConvertCellInfoResultFromChre (T : WwanTypes) (in_ : chreWwanCellInfoResult)
    (payloadSize vlaOffset : Nat) : CellInfoResultFromChre :=
  let length := (in_.cellInfoCount * T.sizeofChppWwanCellInfo) % 2 ^ 16
  if length > 0 ∧ vlaOffset + length ≤ payloadSize then
    { out :=
        { version := T.CHRE_WWAN_CELL_INFO_RESULT_VERSION
          errorCode := in_.errorCode
          cellInfoCount := in_.cellInfoCount
          reserved := 0
          cookie := 0
          cells := { offset := vlaOffset, length := length } }
      cells := (((in_.cells.getD []).take in_.cellInfoCount).enum).map fun ic =>
        (vlaOffset + ic.1 * T.sizeofChppWwanCellInfo, chppWwanConvertCellInfoFromChre T ic.2)
      vlaOffset := (vlaOffset + length) % 2 ^ 16 }
  else
    { out :=
        { version := T.CHRE_WWAN_CELL_INFO_RESULT_VERSION
          errorCode := in_.errorCode
          cellInfoCount := in_.cellInfoCount
          reserved := 0
          cookie := 0
          cells := { offset := 0, length := length } }
      cells := []
      vlaOffset := vlaOffset }

/-- What a successful `chppWwanCellInfoResultFromChre` hands back: the payload member of
`**out`, the cells written behind it with their byte offsets in the payload, and
`*outSize`. The header member of `**out` is left to the caller. -/
structure ChppWwanCellInfoResultWithHeader where
  payload : ChppWwanCellInfoResult
  cells : List (Nat × ChppWwanCellInfo)
  outSize : Nat
deriving DecidableEq

/-- The function `chppWwanCellInfoResultFromChre`; `chppMalloc` tells whether an
allocation of the given size succeeds. The result is `none` when the function returns
false (then `*out` is null). -/
def chppWwanCellInfoResultFromChre (T : WwanTypes) (chppMalloc : Nat → Bool)
    (in_ : chreWwanCellInfoResult) : Option ChppWwanCellInfoResultWithHeader :=
  let payloadSize := chppWwanSizeOfCellInfoResultFromChre T in_
  if chppMalloc payloadSize then
    let vlaOffset := T.sizeofChppWwanCellInfoResult % 2 ^ 16
    let r := chppWwanConvertCellInfoResultFromChre T in_ payloadSize vlaOffset
    some { payload := r.out, cells := r.cells, outSize := payloadSize }
  else none

/-- The function `chppWwanConvertCellIdentityCdmaToChre`: the structure written to `out`. It
returns true in every case. -/
def chppWwanConvertCellIdentityCdmaToChre (in_ : WwanCellIdentityCdma) : WwanCellIdentityCdma :=
  { networkId := in_.networkId, systemId := in_.systemId, basestationId := in_.basestationId,
    longitude := in_.longitude, latitude := in_.latitude }

/-- The function `chppWwanConvertSignalStrengthCdmaToChre`: the structure written to `out`. It
returns true in every case. -/
def chppWwanConvertSignalStrengthCdmaToChre (in_ : WwanSignalStrengthCdma) :
    WwanSignalStrengthCdma :=
  { dbm := in_.dbm, ecio := in_.ecio }

/-- The function `chppWwanConvertSignalStrengthEvdoToChre`: the structure written to `out`. It
returns true in every case. -/
def chppWwanConvertSignalStrengthEvdoToChre (in_ : WwanSignalStrengthEvdo) :
    WwanSignalStrengthEvdo :=
  { dbm := in_.dbm, ecio := in_.ecio, signalNoiseRatio := in_.signalNoiseRatio }

/-- The function `chppWwanConvertCellInfoCdmaToChre`: the structure written to `out`. It returns
true in every case. -/
def chppWwanConvertCellInfoCdmaToChre (in_ : WwanCellInfoCdma) : WwanCellInfoCdma :=
  { cellIdentityCdma := chppWwanConvertCellIdentityCdmaToChre in_.cellIdentityCdma
    signalStrengthCdma := chppWwanConvertSignalStrengthCdmaToChre in_.signalStrengthCdma
    signalStrengthEvdo := chppWwanConvertSignalStrengthEvdoToChre in_.signalStrengthEvdo }

/-- The function `chppWwanConvertCellIdentityGsmToChre`: the structure written to `out`. It
returns true in every case. -/
def chppWwanConvertCellIdentityGsmToChre (in_ : WwanCellIdentityGsm) : WwanCellIdentityGsm :=
  { mcc := in_.mcc, mnc := in_.mnc, lac := in_.lac, cid := in_.cid, arfcn := in_.arfcn,
    bsic := in_.bsic, reserved := 0 }

/-- The function `chppWwanConvertSignalStrengthGsmToChre`: the structure written to `out`. It
returns true in every case. -/
def chppWwanConvertSignalStrengthGsmToChre (in_ : WwanSignalStrengthGsm) :
    WwanSignalStrengthGsm :=
  { signalStrength := in_.signalStrength, bitErrorRate := in_.bitErrorRate,
    timingAdvance := in_.timingAdvance }

/-- The function `chppWwanConvertCellInfoGsmToChre`: the structure written to `out`. It returns
true in every case. -/
def chppWwanConvertCellInfoGsmToChre (in_ : WwanCellInfoGsm) : WwanCellInfoGsm :=
  { cellIdentityGsm := chppWwanConvertCellIdentityGsmToChre in_.cellIdentityGsm
    signalStrengthGsm := chppWwanConvertSignalStrengthGsmToChre in_.signalStrengthGsm }

/-- The function `chppWwanConvertCellIdentityLteToChre`: the structure written to `out`. It
returns true in every case. -/
def chppWwanConvertCellIdentityLteToChre (in_ : WwanCellIdentityLte) : WwanCellIdentityLte :=
  { mcc := in_.mcc, mnc := in_.mnc, ci := in_.ci, pci := in_.pci, tac := in_.tac,
    earfcn := in_.earfcn }

/-- The function `chppWwanConvertSignalStrengthLteToChre`: the structure written to `out`. It
returns true in every case. -/
def chppWwanConvertSignalStrengthLteToChre (in_ : WwanSignalStrengthLte) :
    WwanSignalStrengthLte :=
  { signalStrength := in_.signalStrength, rsrp := in_.rsrp, rsrq := in_.rsrq,
    rssnr := in_.rssnr, cqi := in_.cqi, timingAdvance := in_.timingAdvance }

/-- The function `chppWwanConvertCellInfoLteToChre`: the structure written to `out`. It returns
true in every case. -/
def chppWwanConvertCellInfoLteToChre (in_ : WwanCellInfoLte) : WwanCellInfoLte :=
  { cellIdentityLte := chppWwanConvertCellIdentityLteToChre in_.cellIdentityLte
    signalStrengthLte := chppWwanConvertSignalStrengthLteToChre in_.signalStrengthLte }

/-- The function `chppWwanConvertCellIdentityNrToChre`: the structure written to `out`. It
returns true in every case. -/
def chppWwanConvertCellIdentityNrToChre (in_ : WwanCellIdentityNr) : WwanCellIdentityNr :=
  { mcc := in_.mcc, mnc := in_.mnc, nci0 := in_.nci0, nci1 := in_.nci1, pci := in_.pci,
    tac := in_.tac, nrarfcn := in_.nrarfcn }

/-- The function `chppWwanConvertSignalStrengthNrToChre`: the structure written to `out`. It
returns true in every case. -/
def chppWwanConvertSignalStrengthNrToChre (in_ : WwanSignalStrengthNr) : WwanSignalStrengthNr :=
  { ssRsrp := in_.ssRsrp, ssRsrq := in_.ssRsrq, ssSinr := in_.ssSinr, csiRsrp := in_.csiRsrp,
    csiRsrq := in_.csiRsrq, csiSinr := in_.csiSinr }

/-- The function `chppWwanConvertCellInfoNrToChre`: the structure written to `out`. It returns
true in every case. -/
def chppWwanConvertCellInfoNrToChre (in_ : WwanCellInfoNr) : WwanCellInfoNr :=
  { cellIdentityNr := chppWwanConvertCellIdentityNrToChre in_.cellIdentityNr
    signalStrengthNr := chppWwanConvertSignalStrengthNrToChre in_.signalStrengthNr }

/-- The function `chppWwanConvertCellIdentityTdscdmaToChre`: the structure written to `out`. It
returns true in every case. -/
def chppWwanConvertCellIdentityTdscdmaToChre (in_ : WwanCellIdentityTdscdma) :
    WwanCellIdentityTdscdma :=
  { mcc := in_.mcc, mnc := in_.mnc, lac := in_.lac, cid := in_.cid, cpid := in_.cpid }

/-- The function `chppWwanConvertSignalStrengthTdscdmaToChre`: the structure written to `out`.
It returns true in every case. -/
def chppWwanConvertSignalStrengthTdscdmaToChre (in_ : WwanSignalStrengthTdscdma) :
    WwanSignalStrengthTdscdma :=
  { rscp := in_.rscp }

/-- The function `chppWwanConvertCellInfoTdscdmaToChre`: the structure written to `out`. It
returns true in every case. -/
def chppWwanConvertCellInfoTdscdmaToChre (in_ : WwanCellInfoTdscdma) : WwanCellInfoTdscdma :=
  { cellIdentityTdscdma := chppWwanConvertCellIdentityTdscdmaToChre in_.cellIdentityTdscdma
    signalStrengthTdscdma := chppWwanConvertSignalStrengthTdscdmaToChre in_.signalStrengthTdscdma }

/-- The function `chppWwanConvertCellIdentityWcdmaToChre`: the structure written to `out`. It
returns true in every case. -/
def chppWwanConvertCellIdentityWcdmaToChre (in_ : WwanCellIdentityWcdma) :
    WwanCellIdentityWcdma :=
  { mcc := in_.mcc, mnc := in_.mnc, lac := in_.lac, cid := in_.cid, psc := in_.psc,
    uarfcn := in_.uarfcn }

/-- The function `chppWwanConvertSignalStrengthWcdmaToChre`: the structure written to `out`. It
returns true in every case. -/
def chppWwanConvertSignalStrengthWcdmaToChre (in_ : WwanSignalStrengthWcdma) :
    WwanSignalStrengthWcdma :=
  { signalStrength := in_.signalStrength, bitErrorRate := in_.bitErrorRate }

/-- The function `chppWwanConvertCellInfoWcdmaToChre`: the structure written to `out`. It
returns true in every case. -/
def chppWwanConvertCellInfoWcdmaToChre (in_ : WwanCellInfoWcdma) : WwanCellInfoWcdma :=
  { cellIdentityWcdma := chppWwanConvertCellIdentityWcdmaToChre in_.cellIdentityWcdma
    signalStrengthWcdma := chppWwanConvertSignalStrengthWcdmaToChre in_.signalStrengthWcdma }

/-- The function `chppWwanConvertCellInfoToChre`: the structure written to `out`. It
returns true in every case. The assertion of the default case is not checked here. -/
def chppWwanConvertCellInfoToChre (T : WwanTypes) (in_ : ChppWwanCellInfo) :
    chreWwanCellInfo :=
  let zero := WwanCellInfoPerRat.zero
  { timeStamp := in_.timeStamp
    cellInfoType := in_.cellInfoType
    timeStampType := in_.timeStampType
    registered := in_.registered
    reserved := 0
    CellInfo :=
      if in_.cellInfoType = T.CHRE_WWAN_CELL_INFO_TYPE_GSM then
        { zero with gsm := chppWwanConvertCellInfoGsmToChre in_.CellInfo.gsm }
      else if in_.cellInfoType = T.CHRE_WWAN_CELL_INFO_TYPE_CDMA then
        { zero with cdma := chppWwanConvertCellInfoCdmaToChre in_.CellInfo.cdma }
      else if in_.cellInfoType = T.CHRE_WWAN_CELL_INFO_TYPE_LTE then
        { zero with lte := chppWwanConvertCellInfoLteToChre in_.CellInfo.lte }
      else if in_.cellInfoType = T.CHRE_WWAN_CELL_INFO_TYPE_WCDMA then
        { zero with wcdma := chppWwanConvertCellInfoWcdmaToChre in_.CellInfo.wcdma }
      else if in_.cellInfoType = T.CHRE_WWAN_CELL_INFO_TYPE_TD_SCDMA then
        { zero with tdscdma := chppWwanConvertCellInfoTdscdmaToChre in_.CellInfo.tdscdma }
      else if in_.cellInfoType = T.CHRE_WWAN_CELL_INFO_TYPE_NR then
        { zero with nr := chppWwanConvertCellInfoNrToChre in_.CellInfo.nr }
      else zero }

/-- The input of the decoding: the structure `*in`, the memory it starts (`mem o` is the
`ChppWwanCellInfo` whose bytes start at byte offset `o` of the input) and `inSize`. -/
structure CellInfoResultInput where
  in_ : ChppWwanCellInfoResult
  mem : Nat → ChppWwanCellInfo
  inSize : Nat

/-- What a decoding does: the result (`none` for false, respectively for a null pointer)
and the byte offsets of the input at which it read a `ChppWwanCellInfo`, in order. -/
structure CellInfoResultToChre where
  out : Option chreWwanCellInfoResult
  reads : List Nat
deriving DecidableEq

/-- The function `chppWwanConvertCellInfoResultToChre`; `chppMalloc` tells whether an
allocation of the given size succeeds. Cell `i` of the input starts `i` times the size
of a `ChppWwanCellInfo` after the byte offset `in->cells.offset`. -/
def chppWwanConvertCellInfoResultToChre (T : WwanTypes) (chppMalloc : Nat → Bool)
    (input : CellInfoResultInput) : CellInfoResultToChre :=
  let in_ := input.in_
  let out : chreWwanCellInfoResult :=
    { version := T.CHRE_WWAN_CELL_INFO_RESULT_VERSION
      errorCode := in_.errorCode
      cellInfoCount := in_.cellInfoCount
      reserved := 0
      cookie := 0
      cells := none }
  if in_.cells.length = 0 then { out := some out, reads := [] }
  else if in_.cells.offset + in_.cells.length > input.inSize ∨
      in_.cells.length ≠ in_.cellInfoCount * T.sizeofChreWwanCellInfo then
    { out := none, reads := [] }
  else if !chppMalloc (in_.cellInfoCount * T.sizeofChreWwanCellInfo) then
    { out := none, reads := [] }
  else
    let reads := (List.range in_.cellInfoCount).map fun i =>
      in_.cells.offset + i * T.sizeofChppWwanCellInfo
    let cellsOut := reads.map fun o => chppWwanConvertCellInfoToChre T (input.mem o)
    { out := some { out with cells := some cellsOut }, reads := reads }

/-- The function `chppWwanCellInfoResultToChre`; `sizeofChreWwanCellInfoResult` is the
size of the structure it allocates for the result. -/
def chppWwanCellInfoResultToChre (T : WwanTypes) (chppMalloc : Nat → Bool)
    (sizeofChreWwanCellInfoResult : Nat) (input : CellInfoResultInput) :
    CellInfoResultToChre :=
  if input.inSize ≥ T.sizeofChppWwanCellInfoResult then
    if chppMalloc sizeofChreWwanCellInfoResult then
      chppWwanConvertCellInfoResultToChre T chppMalloc input
    else { out := none, reads := [] }
  else { out := none, reads := [] }

/-! ## CHPP WWAN service (`chpp/services/wwan.c`) -/

/-- The commands of the WWAN service (`CHPP_WWAN_OPEN`, ... of the missing
`chpp/common/wwan.h`), taken as parameters: four distinct values of the `uint16_t`
command field (they label the cases of one `switch`). -/
structure ChppWwanCommands where
  CHPP_WWAN_OPEN : Nat
  CHPP_WWAN_CLOSE : Nat
  CHPP_WWAN_GET_CAPABILITIES : Nat
  CHPP_WWAN_GET_CELLINFO_ASYNC : Nat
  distinct : [CHPP_WWAN_OPEN, CHPP_WWAN_CLOSE, CHPP_WWAN_GET_CAPABILITIES,
    CHPP_WWAN_GET_CELLINFO_ASYNC].Nodup

/-- The open state of an endpoint (`enum ChppOpenState` of the missing `chpp/app.h`):
the two enumerators the sources name and the remaining ones. -/
inductive ChppOpenState where
  | CHPP_OPEN_STATE_CLOSED
  | CHPP_OPEN_STATE_OPENED
  | CHPP_OPEN_STATE_OTHER (value : Nat)
deriving DecidableEq

/-- Modelled from the spec: IncomingRequestState, which "records the transaction id and
arrival timestamp so a response can later be correlated" and is "cleared when the
corresponding response is sent" (`struct ChppIncomingRequestState` of the missing
`chpp/app.h`). -/
structure ChppIncomingRequestState where
  transaction : Nat
  requestTimeNs : Nat
  pending : Bool
deriving DecidableEq

/-- The fields of `struct ChppEndpointState` that `wwan.c` uses, the app context
apart. -/
structure ChppEndpointState where
  handle : Nat
  openState : ChppOpenState
deriving DecidableEq

/-- The state `struct ChppWwanServiceState` of the WWAN service (its field `open` is
`open_` here); the PAL API it points to is part of the environment. -/
structure ChppWwanServiceState where
  service : ChppEndpointState
  open_ : ChppIncomingRequestState
  close : ChppIncomingRequestState
  getCapabilities : ChppIncomingRequestState
  getCellInfoAsync : ChppIncomingRequestState
deriving DecidableEq

/-- The incoming request state a pointer `inReqState` of `wwan.c` refers to. -/
inductive WwanRequestState where
  | open_
  | close
  | getCapabilities
  | getCellInfoAsync
deriving DecidableEq

/-- A response handed to `chppSendTimestampedResponseOrFail`: its app header and what
follows the header, the parameters of a fixed-size response or the converted cell info
result of a `ChppWwanCellInfoResultWithHeader`. -/
structure WwanResponse where
  header : ChppAppHeader
  params : List Nat
  cellInfoResult : Option ChppWwanCellInfoResultWithHeader := none
deriving DecidableEq

/-- A call `wwan.c` makes into the app layer or the PAL, in the order of the calls. -/
inductive WwanCall where
  | chppTimestampIncomingRequest (inReqState : WwanRequestState) (rxHeader : ChppAppHeader)
  | chppTimestampOutgoingResponse (inReqState : Option WwanRequestState)
  | chppSendTimestampedResponseOrFail (inReqState : WwanRequestState)
      (response : WwanResponse) (len : Nat)
  | palOpen
  | palClose
  | palGetCapabilities
  | palRequestCellInfo
  | palReleaseCellInfoResult
deriving DecidableEq

/-- What the environment of the WWAN service supplies during one call: the command
values, the results of the PAL functions, the result of `chppAllocResponseFixed` for a
request (`none` is `NULL`), the current time and the sizes of the response structures. -/
structure WwanEnv where
  commands : ChppWwanCommands
  palOpen : Bool
  palGetCapabilities : Nat
  palRequestCellInfo : Bool
  chppAllocResponseFixed : ChppAppHeader → Option ChppAppHeader
  nowNs : Nat
  sizeofChppAppHeader : Nat
  sizeofChppWwanGetCapabilitiesResponse : Nat

/-- The service state together with the calls made so far (oldest first). -/
structure WwanContext where
  state : ChppWwanServiceState
  calls : List WwanCall
deriving DecidableEq

namespace WwanContext

/-- The incoming request state a pointer refers to. -/
def get (ctx : WwanContext) : WwanRequestState → ChppIncomingRequestState
  | WwanRequestState.open_ => ctx.state.open_
  | WwanRequestState.close => ctx.state.close
  | WwanRequestState.getCapabilities => ctx.state.getCapabilities
  | WwanRequestState.getCellInfoAsync => ctx.state.getCellInfoAsync

/-- Assignment through a pointer to an incoming request state. -/
def set (ctx : WwanContext) (inReqState : WwanRequestState)
    (value : ChppIncomingRequestState) : WwanContext :=
  match inReqState with
  | WwanRequestState.open_ => { ctx with state := { ctx.state with open_ := value } }
  | WwanRequestState.close => { ctx with state := { ctx.state with close := value } }
  | WwanRequestState.getCapabilities =>
    { ctx with state := { ctx.state with getCapabilities := value } }
  | WwanRequestState.getCellInfoAsync =>
    { ctx with state := { ctx.state with getCellInfoAsync := value } }

/-- Appends a call to the calls made so far. -/
def call (ctx : WwanContext) (c : WwanCall) : WwanContext :=
  { ctx with calls := ctx.calls ++ [c] }

end WwanContext

/-- Modelled from the spec: `chppTimestampIncomingRequest` of the missing `chpp/app.c`:
records the transaction id and the arrival timestamp of the request. -/
def chppTimestampIncomingRequest (env : WwanEnv) (ctx : WwanContext)
    (inReqState : WwanRequestState) (rxHeader : ChppAppHeader) : WwanContext :=
  (ctx.set inReqState
    { transaction := rxHeader.transaction, requestTimeNs := env.nowNs, pending := true }).call
    (WwanCall.chppTimestampIncomingRequest inReqState rxHeader)

/-- Modelled from the spec: `chppTimestampOutgoingResponse` of the missing `chpp/app.c`:
closes out the incoming request the state records. A null pointer cannot be followed;
the model only records such a call. -/
def chppTimestampOutgoingResponse (ctx : WwanContext) (inReqState : Option WwanRequestState) :
    WwanContext :=
  match inReqState with
  | some r =>
    (ctx.set r { ctx.get r with pending := false }).call
      (WwanCall.chppTimestampOutgoingResponse (some r))
  | none => ctx.call (WwanCall.chppTimestampOutgoingResponse none)

/-- Modelled from the spec: `chppSendTimestampedResponseOrFail` of the missing
`chpp/app.c`: hands the response to the transport; the incoming request state is
"cleared when the corresponding response is sent". -/
def chppSendTimestampedResponseOrFail (ctx : WwanContext) (inReqState : WwanRequestState)
    (response : WwanResponse) (len : Nat) : WwanContext :=
  (ctx.set inReqState { ctx.get inReqState with pending := false }).call
    (WwanCall.chppSendTimestampedResponseOrFail inReqState response len)

/-- The function `chppWwanServiceOpen`. -/
def chppWwanServiceOpen (env : WwanEnv) (ctx : WwanContext) (requestHeader : ChppAppHeader) :
    ChppAppErrorCode × WwanContext :=
  if ctx.state.service.openState = ChppOpenState.CHPP_OPEN_STATE_OPENED then
    (ChppAppErrorCode.CHPP_APP_ERROR_INVALID_COMMAND, ctx)
  else
    let ctx1 := ctx.call WwanCall.palOpen
    if !env.palOpen then (ChppAppErrorCode.CHPP_APP_ERROR_BEYOND_CHPP, ctx1)
    else
      let ctx2 : WwanContext :=
        { ctx1 with state := { ctx1.state with service :=
            { ctx1.state.service with openState := ChppOpenState.CHPP_OPEN_STATE_OPENED } } }
      match env.chppAllocResponseFixed requestHeader with
      | none => (ChppAppErrorCode.CHPP_APP_ERROR_OOM, ctx2)
      | some response =>
        (ChppAppErrorCode.CHPP_APP_ERROR_NONE,
          chppSendTimestampedResponseOrFail ctx2 WwanRequestState.open_
            { header := response, params := [] } env.sizeofChppAppHeader)

/-- The function `chppWwanServiceClose`. -/
def chppWwanServiceClose (env : WwanEnv) (ctx : WwanContext) (requestHeader : ChppAppHeader) :
    ChppAppErrorCode × WwanContext :=
  let ctx1 := ctx.call WwanCall.palClose
  let ctx2 : WwanContext :=
    { ctx1 with state := { ctx1.state with service :=
        { ctx1.state.service with openState := ChppOpenState.CHPP_OPEN_STATE_CLOSED } } }
  match env.chppAllocResponseFixed requestHeader with
  | none => (ChppAppErrorCode.CHPP_APP_ERROR_OOM, ctx2)
  | some response =>
    (ChppAppErrorCode.CHPP_APP_ERROR_NONE,
      chppSendTimestampedResponseOrFail ctx2 WwanRequestState.close
        { header := response, params := [] } env.sizeofChppAppHeader)

/-- The function `chppWwanServiceNotifyReset`. -/
def chppWwanServiceNotifyReset (ctx : WwanContext) : WwanContext :=
  if ctx.state.service.openState ≠ ChppOpenState.CHPP_OPEN_STATE_OPENED then ctx
  else
    let ctx1 : WwanContext :=
      { ctx with state := { ctx.state with service :=
          { ctx.state.service with openState := ChppOpenState.CHPP_OPEN_STATE_CLOSED } } }
    ctx1.call WwanCall.palClose

/-- The function `chppWwanServiceGetCapabilities`. -/
def chppWwanServiceGetCapabilities (env : WwanEnv) (ctx : WwanContext)
    (requestHeader : ChppAppHeader) : ChppAppErrorCode × WwanContext :=
  match env.chppAllocResponseFixed requestHeader with
  | none => (ChppAppErrorCode.CHPP_APP_ERROR_OOM, ctx)
  | some response =>
    let ctx1 := ctx.call WwanCall.palGetCapabilities
    (ChppAppErrorCode.CHPP_APP_ERROR_NONE,
      chppSendTimestampedResponseOrFail ctx1 WwanRequestState.getCapabilities
        { header := response, params := [env.palGetCapabilities] }
        env.sizeofChppWwanGetCapabilitiesResponse)

/-- The function `chppWwanServiceGetCellInfoAsync`. -/
def chppWwanServiceGetCellInfoAsync (env : WwanEnv) (ctx : WwanContext)
    (_requestHeader : ChppAppHeader) : ChppAppErrorCode × WwanContext :=
  let ctx1 := ctx.call WwanCall.palRequestCellInfo
  if !env.palRequestCellInfo then (ChppAppErrorCode.CHPP_APP_ERROR_UNSPECIFIED, ctx1)
  else (ChppAppErrorCode.CHPP_APP_ERROR_NONE, ctx1)

/-- The local variables of `chppDispatchWwanRequest` after its `switch`. -/
structure WwanDispatch where
  inReqState : Option WwanRequestState
  error : ChppAppErrorCode
  dispatched : Bool
  ctx : WwanContext

/-- The `switch (rxHeader->command)` of `chppDispatchWwanRequest`. -/
def chppDispatchWwanRequestSwitch (env : WwanEnv) (ctx : WwanContext)
    (rxHeader : ChppAppHeader) : WwanDispatch :=
  if rxHeader.command = env.commands.CHPP_WWAN_OPEN then
    let r := chppWwanServiceOpen env
      (chppTimestampIncomingRequest env ctx WwanRequestState.open_ rxHeader) rxHeader
    { inReqState := some WwanRequestState.open_, error := r.1, dispatched := true, ctx := r.2 }
  else if rxHeader.command = env.commands.CHPP_WWAN_CLOSE then
    let r := chppWwanServiceClose env
      (chppTimestampIncomingRequest env ctx WwanRequestState.close rxHeader) rxHeader
    { inReqState := some WwanRequestState.close, error := r.1, dispatched := true, ctx := r.2 }
  else if rxHeader.command = env.commands.CHPP_WWAN_GET_CAPABILITIES then
    let r := chppWwanServiceGetCapabilities env
      (chppTimestampIncomingRequest env ctx WwanRequestState.getCapabilities rxHeader) rxHeader
    { inReqState := some WwanRequestState.getCapabilities, error := r.1, dispatched := true,
      ctx := r.2 }
  else if rxHeader.command = env.commands.CHPP_WWAN_GET_CELLINFO_ASYNC then
    let r := chppWwanServiceGetCellInfoAsync env
      (chppTimestampIncomingRequest env ctx WwanRequestState.getCellInfoAsync rxHeader) rxHeader
    { inReqState := some WwanRequestState.getCellInfoAsync, error := r.1, dispatched := true,
      ctx := r.2 }
  else
    { inReqState := none, error := ChppAppErrorCode.CHPP_APP_ERROR_INVALID_COMMAND,
      dispatched := false, ctx := ctx }

/-- The function `chppDispatchWwanRequest`: the returned error code and the context
after the call. -/
def chppDispatchWwanRequest (env : WwanEnv) (ctx : WwanContext) (rxHeader : ChppAppHeader) :
    ChppAppErrorCode × WwanContext :=
  let d := chppDispatchWwanRequestSwitch env ctx rxHeader
  if d.dispatched == true && d.error != ChppAppErrorCode.CHPP_APP_ERROR_NONE then
    (d.error, chppTimestampOutgoingResponse d.ctx d.inReqState)
  else (d.error, d.ctx)

/-- The incoming request state and the handler `chppDispatchWwanRequest` selects for a
command; `none` for a command that is not one of the four WWAN commands. -/
def wwanRequestStateOfCommand (commands : ChppWwanCommands) (command : Nat) :
    Option WwanRequestState :=
  if command = commands.CHPP_WWAN_OPEN then some WwanRequestState.open_
  else if command = commands.CHPP_WWAN_CLOSE then some WwanRequestState.close
  else if command = commands.CHPP_WWAN_GET_CAPABILITIES then
    some WwanRequestState.getCapabilities
  else if command = commands.CHPP_WWAN_GET_CELLINFO_ASYNC then
    some WwanRequestState.getCellInfoAsync
  else none

/-- The command whose case of the `switch` uses the given incoming request state. -/
def wwanCommandOf (commands : ChppWwanCommands) : WwanRequestState → Nat
  | WwanRequestState.open_ => commands.CHPP_WWAN_OPEN
  | WwanRequestState.close => commands.CHPP_WWAN_CLOSE
  | WwanRequestState.getCapabilities => commands.CHPP_WWAN_GET_CAPABILITIES
  | WwanRequestState.getCellInfoAsync => commands.CHPP_WWAN_GET_CELLINFO_ASYNC

/-- The handler of a command, by the incoming request state of the command. -/
def wwanHandler (env : WwanEnv) (ctx : WwanContext) (requestHeader : ChppAppHeader) :
    WwanRequestState → ChppAppErrorCode × WwanContext
  | WwanRequestState.open_ => chppWwanServiceOpen env ctx requestHeader
  | WwanRequestState.close => chppWwanServiceClose env ctx requestHeader
  | WwanRequestState.getCapabilities => chppWwanServiceGetCapabilities env ctx requestHeader
  | WwanRequestState.getCellInfoAsync => chppWwanServiceGetCellInfoAsync env ctx requestHeader

/-- A call into the PAL. -/
def WwanCall.isPal : WwanCall → Bool
  | WwanCall.palOpen => true
  | WwanCall.palClose => true
  | WwanCall.palGetCapabilities => true
  | WwanCall.palRequestCellInfo => true
  | WwanCall.palReleaseCellInfoResult => true
  | _ => false

/-- The function `chppWwanServiceCellInfoResultCallback`, on the service context of
`gWwanServiceContext`; `chppMalloc` tells whether an allocation of the given size
succeeds. A response that could not be converted is a freshly allocated app header
alone. -/
def chppWwanServiceCellInfoResultCallback (T : WwanTypes) (env : WwanEnv)
    (chppMalloc : Nat → Bool) (ctx : WwanContext) (result : chreWwanCellInfoResult) :
    WwanContext :=
  let inReqState := WwanRequestState.getCellInfoAsync
  let response : Option (Option ChppWwanCellInfoResultWithHeader × Nat) :=
    match chppWwanCellInfoResultFromChre T chppMalloc result with
    | some converted => some (some converted, converted.outSize)
    | none =>
      if chppMalloc env.sizeofChppAppHeader then some (none, env.sizeofChppAppHeader)
      else none
  let ctx1 :=
    match response with
    | some (payload, responseLen) =>
      let header : ChppAppHeader :=
        { handle := ctx.state.service.handle
          type := ChppMessageType.CHPP_MESSAGE_TYPE_SERVICE_RESPONSE
          transaction := (ctx.get inReqState).transaction
          error :=
            if responseLen > env.sizeofChppAppHeader then ChppAppErrorCode.CHPP_APP_ERROR_NONE
            else ChppAppErrorCode.CHPP_APP_ERROR_CONVERSION_FAILED
          command := env.commands.CHPP_WWAN_GET_CELLINFO_ASYNC }
      chppSendTimestampedResponseOrFail ctx inReqState
        { header := header, params := [], cellInfoResult := payload } responseLen
    | none => ctx
  ctx1.call WwanCall.palReleaseCellInfoResult

/-! ## Generic AIDL context hub (`host/hal_generic/aidl/generic_context_hub_aidl.cc`) -/

/-- The context hub id `kDefaultHubId`. -/
def kDefaultHubId : Int := 0

/-- The settings of the AIDL interface that `generic_context_hub_aidl.cc` names
(`enum Setting`). -/
inductive Setting where
  | LOCATION
  | WIFI_MAIN
  | WIFI_SCANNING
  | AIRPLANE_MODE
  | MICROPHONE
  | BT_MAIN
  | BT_SCANNING
deriving DecidableEq

/-- The asynchronous events of the AIDL interface that the sources name
(`enum AsyncEventType`). -/
inductive AsyncEventType where
  | RESTARTED
deriving DecidableEq

/-- The fields of `fbs::NanoappMessageT` that `onNanoappMessage` reads. -/
structure NanoappMessageT where
  app_id : Nat
  host_endpoint : Nat
  message_type : Nat
  message : List Nat
  permissions : Nat
  message_permissions : Nat
deriving DecidableEq

/-- The fields of the AIDL `ContextHubMessage` that `onNanoappMessage` writes:
`nanoappId` is an AIDL `long` (`int64_t`), `hostEndPoint` a `char` (`char16_t`) and
`messageType` an `int` (`int32_t`). -/
structure ContextHubMessage where
  nanoappId : Int
  hostEndPoint : Nat
  messageType : Int
  messageBody : List Nat
  permissions : List String
deriving DecidableEq

/-- The fields of `fbs::NanoappRpcServiceT`: a `uint64_t` id and a `uint32_t` version. -/
structure NanoappRpcServiceT where
  id : Nat
  version : Nat
deriving DecidableEq

/-- The AIDL `NanoappRpcService`: `id` is a `long` (`int64_t`) and `version` an `int`
(`int32_t`). -/
structure NanoappRpcService where
  id : Int
  version : Int
deriving DecidableEq

/-- The fields of `fbs::NanoappListEntryT` that `onNanoappListResponse` reads. -/
structure NanoappListEntryT where
  app_id : Nat
  version : Nat
  enabled : Bool
  is_system : Bool
  permissions : Nat
  rpc_services : List NanoappRpcServiceT
deriving DecidableEq

/-- The fields of the AIDL `NanoappInfo` that `onNanoappListResponse` writes:
`nanoappId` is a `long` (`int64_t`) and `nanoappVersion` an `int` (`int32_t`). -/
structure NanoappInfo where
  nanoappId : Int
  nanoappVersion : Int
  enabled : Bool
  permissions : List String
  rpcServices : List NanoappRpcService
deriving DecidableEq

/-- A call of a method of `IContextHubCallback` on the callback with the given handle. -/
inductive CallbackCall where
  | handleContextHubMessage (callback : Nat) (message : ContextHubMessage)
      (msgContentPerms : List String)
  | handleNanoappInfo (callback : Nat) (appInfo : List NanoappInfo)
  | handleTransactionResult (callback : Nat) (transactionId : Int) (success : Bool)
  | handleContextHubAsyncEvent (callback : Nat) (event : AsyncEventType)
deriving DecidableEq

/-- The members of `ContextHub` that the callback-boundary methods and the setting
handling use: the registered callback (`none` is the null pointer), the setting map
(`none` for a setting that has no entry), the cached WiFi and BLE availability and the
connected host endpoints. -/
structure ContextHub where
  mCallback : Option Nat
  mSettingEnabled : Setting → Option Bool
  mIsWifiAvailable : Option Bool
  mIsBleAvailable : Option Bool
  mConnectedHostEndpoints : List Nat

/-- The status a binder method returns. -/
inductive ScopedAStatus where
  | ok
  | EX_ILLEGAL_ARGUMENT
deriving DecidableEq

namespace ContextHub

/-- A newly constructed `ContextHub`: its members are default-constructed, so no callback
is registered. -/
def initial : ContextHub :=
  { mCallback := none
    mSettingEnabled := fun _ => none
    mIsWifiAvailable := none
    mIsBleAvailable := none
    mConnectedHostEndpoints := [] }

/-- The method `ContextHub::registerCallback`; linking to and unlinking from the death of
the binder only logs on failure and is left out. -/
def registerCallback (s : ContextHub) (contextHubId : Int) (cb : Option Nat) :
    ScopedAStatus × ContextHub :=
  if contextHubId ≠ kDefaultHubId then (ScopedAStatus.EX_ILLEGAL_ARGUMENT, s)
  else (ScopedAStatus.ok, { s with mCallback := cb })

/-- The conversion of a `uint32_t` to an `int32_t`, as in the assignment to an AIDL `int`
field and to the parameter of `handleTransactionResult`. -/
def toInt32 (x : Nat) : Int :=
  if x % 2 ^ 32 < 2 ^ 31 then (x % 2 ^ 32 : Nat) else ((x % 2 ^ 32 : Nat) : Int) - 2 ^ 32

/-- The conversion of a `uint64_t` to an `int64_t`, as in the assignment to an AIDL `long`
field. -/
def toInt64 (x : Nat) : Int :=
  if x % 2 ^ 64 < 2 ^ 63 then (x % 2 ^ 64 : Nat) else ((x % 2 ^ 64 : Nat) : Int) - 2 ^ 64

/-- The method `ContextHub::onNanoappMessage`: the state after the call and the calls made
on the callback. `chreToAndroidPermissions` is the function of that name, which is not
among the sources. The `uint64_t` app id and the `uint32_t` message type are converted to
the signed AIDL fields they are assigned to. -/
def onNanoappMessage (chreToAndroidPermissions : Nat → List String) (s : ContextHub)
    (message : NanoappMessageT) : ContextHub × List CallbackCall :=
  match s.mCallback with
  | some callback =>
    let outMessage : ContextHubMessage :=
      { nanoappId := toInt64 message.app_id
        hostEndPoint := message.host_endpoint
        messageType := toInt32 message.message_type
        messageBody := message.message
        permissions := chreToAndroidPermissions message.permissions }
    let messageContentPerms := chreToAndroidPermissions message.message_permissions
    (s, [CallbackCall.handleContextHubMessage callback outMessage messageContentPerms])
  | none => (s, [])

/-- The `NanoappInfo` that `onNanoappListResponse` builds for an entry of the response;
the unsigned ids and versions are converted to the signed AIDL fields. -/
def toNanoappInfo (chreToAndroidPermissions : Nat → List String)
    (nanoapp : NanoappListEntryT) : NanoappInfo :=
  { nanoappId := toInt64 nanoapp.app_id
    nanoappVersion := toInt32 nanoapp.version
    enabled := nanoapp.enabled
    permissions := chreToAndroidPermissions nanoapp.permissions
    rpcServices := nanoapp.rpc_services.map fun service =>
      { id := toInt64 service.id, version := toInt32 service.version } }

/-- The method `ContextHub::onNanoappListResponse`; an entry of the response may be null
(`none`), and null and system nanoapps are skipped. -/
def onNanoappListResponse (chreToAndroidPermissions : Nat → List String) (s : ContextHub)
    (nanoapps : List (Option NanoappListEntryT)) : ContextHub × List CallbackCall :=
  match s.mCallback with
  | none => (s, [])
  | some callback =>
    let appInfoList := nanoapps.filterMap fun entry =>
      match entry with
      | none => none
      | some nanoapp =>
        if !nanoapp.is_system then some (toNanoappInfo chreToAndroidPermissions nanoapp)
        else none
    (s, [CallbackCall.handleNanoappInfo callback appInfoList])

/-- The method `ContextHub::onTransactionResult`. -/
def onTransactionResult (s : ContextHub) (transactionId : Nat) (success : Bool) :
    ContextHub × List CallbackCall :=
  match s.mCallback with
  | some callback =>
    (s, [CallbackCall.handleTransactionResult callback (toInt32 transactionId) success])
  | none => (s, [])

/-- The method `ContextHub::onContextHubRestarted`. -/
def onContextHubRestarted (s : ContextHub) : ContextHub × List CallbackCall :=
  let s1 : ContextHub := { s with mIsWifiAvailable := none, mConnectedHostEndpoints := [] }
  match s1.mCallback with
  | some callback =>
    (s1, [CallbackCall.handleContextHubAsyncEvent callback AsyncEventType.RESTARTED])
  | none => (s1, [])

/-- The method `ContextHub::handleServiceDeath`. -/
def handleServiceDeath (s : ContextHub) : ContextHub :=
  { s with mCallback := none, mConnectedHostEndpoints := [] }

end ContextHub

/-! ## Settings of the generic AIDL context hub -/

/-- The settings of the CHRE side that `generic_context_hub_aidl.cc` names
(`enum fbs::Setting`). -/
inductive FbsSetting where
  | LOCATION
  | AIRPLANE_MODE
  | MICROPHONE
  | WIFI_AVAILABLE
  | BLE_AVAILABLE
deriving DecidableEq

/-- A call `mConnection.sendSettingChangedNotification(fbsSetting,
toFbsSettingState(enabled))`, recorded with the boolean handed to `toFbsSettingState`
(a function that is not among the sources). -/
structure SettingChangedNotification where
  fbsSetting : FbsSetting
  enabled : Bool
deriving DecidableEq

/-- The function `getFbsSetting`: `none` stands for the result false, `some` for true
with the setting written to `*fbsSetting`. -/
def getFbsSetting : Setting → Option FbsSetting
  | Setting.LOCATION => some FbsSetting.LOCATION
  | Setting.AIRPLANE_MODE => some FbsSetting.AIRPLANE_MODE
  | Setting.MICROPHONE => some FbsSetting.MICROPHONE
  | _ => none

namespace ContextHub

/-- The method `ContextHub::isSettingEnabled` (as declared in
`qmi_context_hub_aidl.h`): false for a setting without an entry. -/
def isSettingEnabled (s : ContextHub) (setting : Setting) : Bool :=
  match s.mSettingEnabled setting with
  | some enabled => enabled
  | none => false

/-- The first statement of `onSettingChanged`, `mSettingEnabled[setting] = enabled`. -/
def setSettingEnabled (s : ContextHub) (setting : Setting) (enabled : Bool) : ContextHub :=
  { s with mSettingEnabled := fun x => if x = setting then some enabled
      else s.mSettingEnabled x }

/-- The block of `onSettingChanged` that forwards a setting other than the WiFi and BT
ones to CHRE, when `getFbsSetting` knows it. -/
def forwardSetting (setting : Setting) (enabled : Bool) : List SettingChangedNotification :=
  let isWifiOrBtSetting : Bool :=
    setting = Setting.WIFI_MAIN || setting = Setting.WIFI_SCANNING ||
      setting = Setting.BT_MAIN || setting = Setting.BT_SCANNING
  if isWifiOrBtSetting then []
  else
    match getFbsSetting setting with
    | some fbsSetting => [{ fbsSetting := fbsSetting, enabled := enabled }]
    | none => []

/-- The block of `onSettingChanged` that computes `isWifiAvailable` and, when no value is
cached or the cached value differs, sends it and caches it. -/
def updateWifiAvailable (s : ContextHub) : ContextHub × List SettingChangedNotification :=
  let isWifiMainEnabled := s.isSettingEnabled Setting.WIFI_MAIN
  let isWifiScanEnabled := s.isSettingEnabled Setting.WIFI_SCANNING
  let isAirplaneModeEnabled := s.isSettingEnabled Setting.AIRPLANE_MODE
  let isWifiAvailable : Bool :=
    if isAirplaneModeEnabled then isWifiMainEnabled
    else (isWifiMainEnabled || isWifiScanEnabled)
  if s.mIsWifiAvailable.isNone || s.mIsWifiAvailable != some isWifiAvailable then
    ({ s with mIsWifiAvailable := some isWifiAvailable },
      [{ fbsSetting := FbsSetting.WIFI_AVAILABLE, enabled := isWifiAvailable }])
  else (s, [])

/-- The block of `onSettingChanged` that computes `isBleAvailable` and, when no value is
cached or the cached value differs, sends it and caches it. -/
def updateBleAvailable (s : ContextHub) : ContextHub × List SettingChangedNotification :=
  let isBtMainEnabled := s.isSettingEnabled Setting.BT_MAIN
  let isBtScanEnabled := s.isSettingEnabled Setting.BT_SCANNING
  let isBleAvailable : Bool := isBtMainEnabled || isBtScanEnabled
  if s.mIsBleAvailable.isNone || s.mIsBleAvailable != some isBleAvailable then
    ({ s with mIsBleAvailable := some isBleAvailable },
      [{ fbsSetting := FbsSetting.BLE_AVAILABLE, enabled := isBleAvailable }])
  else (s, [])

/-- The method `ContextHub::onSettingChanged`: the state after the call and the
notifications sent over the connection, in order. It returns `ScopedAStatus::ok()` in
every case. -/
def onSettingChanged (s : ContextHub) (setting : Setting) (enabled : Bool) :
    ContextHub × List SettingChangedNotification :=
  let s1 := s.setSettingEnabled setting enabled
  let sent := forwardSetting setting enabled
  let wifi := s1.updateWifiAvailable
  let ble := wifi.1.updateBleAvailable
  (ble.1, sent ++ wifi.2 ++ ble.2)

end ContextHub

/-! ## CHRE API version of a nanoapp binary -/

/-- The 32-bit two's complement pattern of an `int`, which is also its conversion to
`uint32_t`. -/
def int32Bits (x : Int) : Nat := (x % 2 ^ 32).toNat

/-- The conversion `static_cast<int8_t>` of an unsigned value. -/
def toInt8 (x : Nat) : Int :=
  if x % 2 ^ 8 < 2 ^ 7 then ((x % 2 ^ 8 : Nat) : Int) else ((x % 2 ^ 8 : Nat) : Int) - 2 ^ 8

/-- The function `extractChreApiMajorVersion`. -/
def extractChreApiMajorVersion (chreVersion : Nat) : Int := toInt8 (chreVersion >>> 24)

/-- The function `extractChreApiMinorVersion`. -/
def extractChreApiMinorVersion (chreVersion : Nat) : Int := toInt8 (chreVersion >>> 16)

/-- The function `extractChrePatchVersion`. -/
def extractChrePatchVersion (chreVersion : Nat) : Nat := chreVersion % 2 ^ 16

/-- The local variable `targetApiVersion` of `ContextHub::loadNanoapp`. The two version
fields of the AIDL parcelable `NanoappBinary` are `byte` fields, `int8_t` in C++ (its
declaration is not among the sources; the extraction functions return the same type).
Each field is promoted to `int` and shifted, the two `int` values are combined by a
bitwise or, which acts on their two's complement patterns, and the result is converted
to `uint32_t`. -/
def targetApiVersion (targetChreApiMajorVersion targetChreApiMinorVersion : Int) : Nat :=
  int32Bits (targetChreApiMajorVersion * 2 ^ 24) |||
    int32Bits (targetChreApiMinorVersion * 2 ^ 16)

/-! ## Sensor API (`chre_api/include/chre_api/chre/sensor.h`) -/

/-- The constant `CHRE_SENSOR_LATENCY_ASAP`, `UINT64_C(0)`. -/
def CHRE_SENSOR_LATENCY_ASAP : Nat := 0

/-- The constant `CHRE_SENSOR_INTERVAL_DEFAULT`, `UINT64_C(-1)`. -/
def CHRE_SENSOR_INTERVAL_DEFAULT : Nat := 2 ^ 64 - 1

/-- The constant `CHRE_SENSOR_LATENCY_DEFAULT`, `UINT64_C(-1)`. -/
def CHRE_SENSOR_LATENCY_DEFAULT : Nat := 2 ^ 64 - 1

/-- The constant `CHRE_SENSOR_BATCH_INTERVAL_DEFAULT`, `UINT64_C(-1)`. -/
def CHRE_SENSOR_BATCH_INTERVAL_DEFAULT : Nat := 2 ^ 64 - 1

/-- The arguments of one call of `chreSensorConfigure`. -/
structure SensorConfigureCall where
  sensorHandle : Nat
  mode : Nat
  interval : Nat
  latency : Nat
deriving DecidableEq

/-- The inline function `chreSensorConfigureWithBatchInterval`, over `uint64_t` intervals
(numbers below `2 ^ 64`): its result and the calls of `chreSensorConfigure` it makes.
`chreSensorConfigure` is implemented by the runtime and taken as a parameter. -/
def chreSensorConfigureWithBatchInterval (chreSensorConfigure : SensorConfigureCall → Bool)
    (sensorHandle mode sampleInterval batchInterval : Nat) :
    Bool × List SensorConfigureCall :=
  if sampleInterval ≠ CHRE_SENSOR_INTERVAL_DEFAULT then
    let latency :=
      if batchInterval = CHRE_SENSOR_BATCH_INTERVAL_DEFAULT then CHRE_SENSOR_LATENCY_DEFAULT
      else if batchInterval > sampleInterval then
        (batchInterval + 2 ^ 64 - sampleInterval) % 2 ^ 64
      else CHRE_SENSOR_LATENCY_ASAP
    let call : SensorConfigureCall :=
      { sensorHandle := sensorHandle, mode := mode, interval := sampleInterval,
        latency := latency }
    (chreSensorConfigure call, [call])
  else (false, [])

/-! ## Nanoapp binary buffer (`platform/slpi/platform_nanoapp.cc`) -/

/-- The constant `kMaxAppSize` of `reserveBuffer`, 2 MiB. -/
def kMaxAppSize : Nat := 2 * 1024 * 1024

/-- The members of `PlatformNanoappBase` that `reserveBuffer`, `copyNanoappFragment` and
`isLoaded` use (a pointer is `none` when null, else a handle), together with the
`memcpy` calls made into the buffer so far, each as destination offset and length. -/
structure PlatformNanoappBase where
  mAppBinary : Option Nat
  mExpectedAppId : Nat
  mExpectedAppVersion : Nat
  mAppBinaryLen : Nat
  mBytesLoaded : Nat
  mIsStatic : Bool
  mDsoHandle : Option Nat
  memcpys : List (Nat × Nat)
deriving DecidableEq

namespace PlatformNanoappBase

/-- A freshly constructed `PlatformNanoappBase`. The member initialisers are in the
header `platform_nanoapp_base.h`, which is not among the sources: pointers are null,
lengths are zero, the nanoapp is not static. -/
def fresh : PlatformNanoappBase :=
  { mAppBinary := none
    mExpectedAppId := 0
    mExpectedAppVersion := 0
    mAppBinaryLen := 0
    mBytesLoaded := 0
    mIsStatic := false
    mDsoHandle := none
    memcpys := [] }

/-- The method `PlatformNanoappBase::isLoaded`. -/
def isLoaded (s : PlatformNanoappBase) : Bool :=
  s.mIsStatic || (s.mAppBinary.isSome && s.mBytesLoaded == s.mAppBinaryLen) ||
    s.mDsoHandle.isSome

/-- The method `PlatformNanoappBase::reserveBuffer`; `memoryAllocBigImage` is the result
of the allocation in this call (`none` is null). The assertion `!isLoaded()` is not
checked here. -/
def reserveBuffer (memoryAllocBigImage : Option Nat) (s : PlatformNanoappBase)
    (appId appVersion appBinaryLen : Nat) : Bool × PlatformNanoappBase :=
  if appBinaryLen > kMaxAppSize then (false, s)
  else
    let s1 : PlatformNanoappBase := { s with mAppBinary := memoryAllocBigImage }
    if s1.mAppBinary.isNone then (false, s1)
    else
      (true, { s1 with mExpectedAppId := appId, mExpectedAppVersion := appVersion,
                       mAppBinaryLen := appBinaryLen })

/-- The method `PlatformNanoappBase::copyNanoappFragment` for a `size_t` of `w` bits
(sums of `size_t` values are taken modulo `2 ^ w`). The assertion `!isLoaded()` is not
checked here. -/
def copyNanoappFragment (w : Nat) (s : PlatformNanoappBase) (bufferLen : Nat) :
    Bool × PlatformNanoappBase :=
  if (s.mBytesLoaded + bufferLen) % 2 ^ w > s.mAppBinaryLen then (false, s)
  else
    (true, { s with memcpys := s.memcpys ++ [(s.mBytesLoaded, bufferLen)],
                    mBytesLoaded := (s.mBytesLoaded + bufferLen) % 2 ^ w })

/-- A call of `reserveBuffer` or `copyNanoappFragment`. -/
inductive Call where
  | reserveBuffer (memoryAllocBigImage : Option Nat) (appId appVersion appBinaryLen : Nat)
  | copyNanoappFragment (bufferLen : Nat)
deriving DecidableEq

/-- The state after a call. -/
def step (w : Nat) (s : PlatformNanoappBase) : Call → PlatformNanoappBase
  | Call.reserveBuffer memoryAllocBigImage appId appVersion appBinaryLen =>
    (s.reserveBuffer memoryAllocBigImage appId appVersion appBinaryLen).2
  | Call.copyNanoappFragment bufferLen => (s.copyNanoappFragment w bufferLen).2

/-- The state after a sequence of calls. -/
def run (w : Nat) (s : PlatformNanoappBase) (calls : List Call) : PlatformNanoappBase :=
  calls.foldl (step w) s

/-- A call made in the intended order: `reserveBuffer` while no byte is loaded, and
`copyNanoappFragment` with a length whose sum with `mBytesLoaded` is a `size_t` value. -/
def Call.inOrder (w : Nat) (s : PlatformNanoappBase) : Call → Bool
  | Call.reserveBuffer _ _ _ _ => s.mBytesLoaded == 0
  | Call.copyNanoappFragment bufferLen => decide (s.mBytesLoaded + bufferLen < 2 ^ w)

/-- A sequence of calls each of which is made in the intended order. -/
def runInOrder (w : Nat) (s : PlatformNanoappBase) : List Call → Bool
  | [] => true
  | c :: cs => c.inOrder w s && runInOrder w (step w s c) cs

/-- The asserted precondition `!isLoaded()` holds at each call of a sequence. -/
def runNotLoaded (w : Nat) (s : PlatformNanoappBase) : List Call → Bool
  | [] => true
  | c :: cs => !s.isLoaded && runNotLoaded w (step w s c) cs

end PlatformNanoappBase

/-! ## Linux audio PAL (`platform/linux/pal_audio.cc`) -/

/-- A call the audio PAL makes on the task manager. -/
inductive TaskManagerCall where
  | cancelTask (taskId : Nat)
  | addTask (numSamples : Nat) (eventDelayNs : Nat)
deriving DecidableEq

/-- The globals `gHandle0TaskId` and `gIsHandle0Enabled` of `pal_audio.cc`, together with
the calls made on the task manager so far (oldest first). -/
structure PalAudio where
  gHandle0TaskId : Option Nat
  gIsHandle0Enabled : Bool
  calls : List TaskManagerCall
deriving DecidableEq

namespace PalAudio

/-- The initial values of the globals: no task, handle 0 not enabled. -/
def initial : PalAudio :=
  { gHandle0TaskId := none, gIsHandle0Enabled := false, calls := [] }

/-- The function `stopHandle0Task`. -/
def stopHandle0Task (s : PalAudio) : PalAudio :=
  match s.gHandle0TaskId with
  | some taskId =>
    { s with gHandle0TaskId := none, calls := s.calls ++ [TaskManagerCall.cancelTask taskId] }
  | none => s

/-- The function `chrePalAudioApiRequestAudioDataEvent`. `addTask` is the result of
`TaskManagerSingleton::get()->addTask(...)` in this call: the id of the new task, or
`none` when the task could not be scheduled. -/
def chrePalAudioApiRequestAudioDataEvent (addTask : Option Nat) (s : PalAudio)
    (handle numSamples eventDelayNs : Nat) : Bool × PalAudio :=
  if handle ≠ 0 then (false, s)
  else
    let s1 := s.stopHandle0Task
    if numSamples > 0 then
      let s2 : PalAudio :=
        { s1 with gIsHandle0Enabled := true, gHandle0TaskId := addTask,
                  calls := s1.calls ++ [TaskManagerCall.addTask numSamples eventDelayNs] }
      if s2.gHandle0TaskId.isNone then (false, s2)
      else (true, s2)
    else (true, s1)

/-- The function `chrePalAudioApiCancelAudioDataEvent`. -/
def chrePalAudioApiCancelAudioDataEvent (s : PalAudio) (handle : Nat) : PalAudio :=
  if handle = 0 then ({ s with gIsHandle0Enabled := false } : PalAudio).stopHandle0Task
  else s

/-- The function `chrePalAudioIsHandle0Enabled`. -/
def chrePalAudioIsHandle0Enabled (s : PalAudio) : Bool := s.gIsHandle0Enabled

end PalAudio

/-! ## Scenarios of the tests -/

/-- A configuration for the scenarios: unassigned id 0, reserved system id 1, timeout
threshold 5000 ms. -/
def testConfig : HalClientManagerConfig :=
  { kDefaultHalClientId := 0, kSystemServerClientId := 1,
    kTransactionTimeoutThresholdMs := 5000 }

/-- The manager of the tests: created from an empty mapping file. -/
def freshManager : HalClientManager := HalClientManager.create []

/-- The manager after the system server (callback 7) registered at `kSystemServerPid`. -/
def systemManager : HalClientManager :=
  (freshManager.registerCallback testConfig kSystemServerPid 7 kSystemServerUuid true).2

/-- The manager after the system server (callback 7) and then the vendor client
(callback 8) registered, as in `EndpointIdMutationForVendorClient`. -/
def twoClientManager : HalClientManager :=
  (systemManager.registerCallback testConfig kVendorPid 8 kVendorUuid true).2

/-- The vendor client entry of `twoClientManager`. -/
def vendorClient : HalClient :=
  { uuid := kVendorUuid, clientId := 2, pid := some kVendorPid, callback := some 8,
    endpointIds := [], pendingTransaction := none }

/-- The system server entry of `twoClientManager`. -/
def systemClient : HalClient :=
  { uuid := kSystemServerUuid, clientId := 1, pid := some kSystemServerPid,
    callback := some 7, endpointIds := [], pendingTransaction := none }

/-- The manager of `ClientIdMappingFile`: created from a mapping file that maps the
system server uuid to client id 100. -/
def mappedManager : HalClientManager := HalClientManager.create [(kSystemServerUuid, 100)]

/-- The load transaction `createLoadTransaction(transactionId)` of the test. -/
def createLoadTransaction (transactionId : Nat) : FragmentedLoadTransaction :=
  { transactionId := transactionId, appId := 0x476f6f676cabcdef, appVersion := 2,
    appFlags := 3, targetApiVersion := 4, binary := [0xf0, 0xf1], fragmentSize := 2048 }

/-- The manager of `TransactionRegistryLoadAndUnload` after the system server registered
the pending unload transaction 1 at time 0. -/
def unloadPendingManager : HalClientManager :=
  (systemManager.registerPendingUnloadTransaction testConfig kSystemServerPid 1 0).2

/-- The manager of `TransactionRegistryAndOverridden` after the system server registered
the pending load transaction 1 at time 0. -/
def loadPendingManager : HalClientManager :=
  (systemManager.registerPendingLoadTransaction testConfig kSystemServerPid
    (createLoadTransaction 1) 0).2

/-- Four distinct command values. -/
def wwanCommands : ChppWwanCommands :=
  { CHPP_WWAN_OPEN := 0
    CHPP_WWAN_CLOSE := 1
    CHPP_WWAN_GET_CAPABILITIES := 0x2010
    CHPP_WWAN_GET_CELLINFO_ASYNC := 0x2020
    distinct := by decide }

/-- An allocation of a response that succeeds: the response header answers the request. -/
def allocResponse (requestHeader : ChppAppHeader) : Option ChppAppHeader :=
  some { handle := requestHeader.handle
         type := ChppMessageType.CHPP_MESSAGE_TYPE_SERVICE_RESPONSE
         transaction := requestHeader.transaction
         error := ChppAppErrorCode.CHPP_APP_ERROR_NONE
         command := requestHeader.command }

/-- An environment in which the PAL fails to open. -/
def palOpenFailsEnv : WwanEnv :=
  { commands := wwanCommands
    palOpen := false
    palGetCapabilities := 0
    palRequestCellInfo := true
    chppAllocResponseFixed := allocResponse
    nowNs := 1000
    sizeofChppAppHeader := 6
    sizeofChppWwanGetCapabilitiesResponse := 10 }

/-- An incoming request state that has recorded no request. -/
def idleRequestState : ChppIncomingRequestState :=
  { transaction := 0, requestTimeNs := 0, pending := false }

/-- The WWAN service with the given open state, before any call. -/
def wwanContext (openState : ChppOpenState) : WwanContext :=
  { state :=
      { service := { handle := 16, openState := openState }
        open_ := idleRequestState
        close := idleRequestState
        getCapabilities := idleRequestState
        getCellInfoAsync := idleRequestState }
    calls := [] }

/-- A client request to the WWAN service with the given command. -/
def wwanRequest (command : Nat) : ChppAppHeader :=
  { handle := 16
    type := ChppMessageType.CHPP_MESSAGE_TYPE_CLIENT_REQUEST
    transaction := 5
    error := ChppAppErrorCode.CHPP_APP_ERROR_NONE
    command := command }

/-- A context hub on which the callback with handle 7 is registered. -/
def registeredContextHub : ContextHub :=
  (ContextHub.initial.registerCallback kDefaultHubId (some 7)).2

/-- A message from a nanoapp. -/
def nanoappMessage : NanoappMessageT :=
  { app_id := 0x476f6f676c001000
    host_endpoint := 10
    message_type := 1
    message := [1, 2, 3]
    permissions := 0
    message_permissions := 0 }

/-- A `chreSensorConfigure` that accepts every request. -/
def acceptingSensorConfigure (_call : SensorConfigureCall) : Bool := true

/-! ## Scenarios of the conversion, the callback, the settings and the nanoapp buffer -/

/-- An environment in which the PAL opens and the allocation of a response fails. -/
def allocFailsEnv : WwanEnv :=
  { palOpenFailsEnv with palOpen := true, chppAllocResponseFixed := fun _ => none }

/-- An environment in which the PAL opens and responses can be allocated. -/
def palOpensEnv : WwanEnv :=
  { palOpenFailsEnv with palOpen := true }

/-- The cell info types and structure sizes of a build in which a cell info takes 64
bytes on both sides, a `ChppWwanCellInfoResult` 12 bytes and an app header 6 bytes. -/
def wwanTypes : WwanTypes :=
  { CHRE_WWAN_CELL_INFO_TYPE_GSM := 1
    CHRE_WWAN_CELL_INFO_TYPE_CDMA := 2
    CHRE_WWAN_CELL_INFO_TYPE_LTE := 3
    CHRE_WWAN_CELL_INFO_TYPE_WCDMA := 4
    CHRE_WWAN_CELL_INFO_TYPE_TD_SCDMA := 5
    CHRE_WWAN_CELL_INFO_TYPE_NR := 6
    distinct := by decide
    CHRE_WWAN_CELL_INFO_RESULT_VERSION := 1
    sizeofChppWwanCellInfoResultWithHeader := 18
    sizeofChppWwanCellInfoResult := 12
    sizeofChppWwanCellInfo := 64
    sizeofChreWwanCellInfo := 64 }

/-- A cell info of the given type whose union holds the given LTE view and zeroes
elsewhere. -/
def lteCell (cellInfoType : Nat) : chreWwanCellInfo :=
  { timeStamp := 123456
    cellInfoType := cellInfoType
    timeStampType := 2
    registered := 1
    reserved := 0
    CellInfo := { WwanCellInfoPerRat.zero with
      lte := ⟨⟨310, 260, 1234567, 21, 5001, 66986⟩, ⟨20, 95, 10, 120, 9, 3⟩⟩ } }

/-- A GSM cell info. -/
def gsmCell : chreWwanCellInfo :=
  { timeStamp := 123999
    cellInfoType := 1
    timeStampType := 2
    registered := 0
    reserved := 0
    CellInfo := { WwanCellInfoPerRat.zero with
      gsm := ⟨⟨310, 260, 77, 4001, 512, 9, 0⟩, ⟨17, 2, 1⟩⟩ } }

/-- A result with an LTE cell and a GSM cell. -/
def twoCellResult : chreWwanCellInfoResult :=
  { version := 1, errorCode := 0, cellInfoCount := 2, reserved := 0, cookie := 0
    cells := some [lteCell 3, gsmCell] }

/-- An allocator that never fails. -/
def mallocSucceeds (_size : Nat) : Bool := true

/-- An allocator that always fails. -/
def mallocFails (_size : Nat) : Bool := false

/-- The memory of an input that holds the given cells at their byte offsets, and zeroed
cells elsewhere. -/
def memOfCells (cells : List (Nat × ChppWwanCellInfo)) (o : Nat) : ChppWwanCellInfo :=
  match cells.find? (fun p => p.1 == o) with
  | some p => p.2
  | none => ⟨0, 0, 0, 0, 0, WwanCellInfoPerRat.zero⟩

/-- An input that announces one cell and carries none: `cellInfoCount = 1` with
`cells.length = 0`, in a buffer of 12 bytes. -/
def countWithoutCells : CellInfoResultInput :=
  { in_ := { version := 1, errorCode := 0, cellInfoCount := 1, reserved := 0, cookie := 0
             cells := { offset := 0, length := 0 } }
    mem := memOfCells []
    inSize := 12 }

/-- The payload of `twoCellResult` as an input of the decoding, in a buffer of the given
size: two cells of 64 bytes behind the 12 bytes of the result structure. -/
def twoCellInput (inSize : Nat) : CellInfoResultInput :=
  { in_ := { version := 1, errorCode := 0, cellInfoCount := 2, reserved := 0, cookie := 0
             cells := { offset := 12, length := 128 } }
    mem := memOfCells
      [(12, chppWwanConvertCellInfoFromChre wwanTypes (lteCell 3)),
        (76, chppWwanConvertCellInfoFromChre wwanTypes gsmCell)]
    inSize := inSize }

/-- The WWAN service, opened, with a cell info request of transaction 9 recorded. -/
def cellInfoRequestedContext : WwanContext :=
  (wwanContext ChppOpenState.CHPP_OPEN_STATE_OPENED).set WwanRequestState.getCellInfoAsync
    { transaction := 9, requestTimeNs := 500, pending := true }

/-- The context hub after airplane mode was switched on. -/
def airplaneModeContextHub : ContextHub :=
  (ContextHub.initial.onSettingChanged Setting.AIRPLANE_MODE true).1

/-- A load in which `reserveBuffer` is called again after a fragment was copied. -/
def reserveTwiceCalls : List PlatformNanoappBase.Call :=
  [PlatformNanoappBase.Call.reserveBuffer (some 1) 7 1 100,
    PlatformNanoappBase.Call.copyNanoappFragment 50,
    PlatformNanoappBase.Call.reserveBuffer (some 2) 7 1 10]

/-- A load of 100 bytes in fragments of 50 bytes with an oversized fragment in between. -/
def loadCalls : List PlatformNanoappBase.Call :=
  [PlatformNanoappBase.Call.reserveBuffer (some 1) 7 1 100,
    PlatformNanoappBase.Call.copyNanoappFragment 50,
    PlatformNanoappBase.Call.copyNanoappFragment 60,
    PlatformNanoappBase.Call.copyNanoappFragment 50]

/-- The start of a load of 100 bytes: one byte copied. -/
def oneByteCalls : List PlatformNanoappBase.Call :=
  [PlatformNanoappBase.Call.reserveBuffer (some 1) 7 1 100,
    PlatformNanoappBase.Call.copyNanoappFragment 1]

/-! ## Scenarios with a process id carried by two entries -/

/-- The entry of the system server in `sharedPidManager`. -/
def sharedPidSystemClient : HalClient :=
  { uuid := kSystemServerUuid, clientId := 1, pid := some 5, callback := none,
    endpointIds := [], pendingTransaction := none }

theorem length_modifyFirst {α : Type} (p : α → Bool) (f : α → α) (l : List α) :
    (modifyFirst p f l).length = l.length := by
  induction l with
  | nil => rfl
  | cons x xs ih =>
    unfold modifyFirst
    split <;> simp [ih]

theorem map_modifyFirst {α β : Type} (p : α → Bool) (f : α → α) (g : α → β)
    (hg : ∀ x, g (f x) = g x) (l : List α) :
    (modifyFirst p f l).map g = l.map g := by
  induction l with
  | nil => rfl
  | cons x xs ih =>
    unfold modifyFirst
    split <;> simp [ih, hg]

theorem modifyFirst_of_find?_none {α : Type} (p : α → Bool) (f : α → α) (l : List α)
    (h : l.find? p = none) : modifyFirst p f l = l := by
  induction l with
  | nil => rfl
  | cons x xs ih =>
    unfold modifyFirst
    by_cases hp : p x = true
    · simp [List.find?, hp] at h
    · simp only [List.find?, hp] at h
      simp [hp, ih h]

theorem mem_modifyFirst {α : Type} (p : α → Bool) (f : α → α) (l : List α) (y : α)
    (h : y ∈ modifyFirst p f l) : y ∈ l ∨ ∃ c, l.find? p = some c ∧ y = f c := by
  induction l with
  | nil => simp [modifyFirst] at h
  | cons x xs ih =>
    unfold modifyFirst at h
    by_cases hp : p x = true
    · simp only [hp, if_true, List.mem_cons] at h
      rcases h with h | h
      · exact Or.inr ⟨x, by simp [List.find?, hp], h⟩
      · exact Or.inl (List.mem_cons_of_mem _ h)
    · rw [if_neg hp, List.mem_cons] at h
      rcases h with h | h
      · exact Or.inl (h ▸ List.mem_cons_self _ _)
      · rcases ih h with h1 | ⟨c, hc, hy⟩
        · exact Or.inl (List.mem_cons_of_mem _ h1)
        · exact Or.inr ⟨c, by simpa [List.find?, hp] using hc, hy⟩

theorem find?_modifyFirst {α : Type} (p q : α → Bool) (f : α → α) (l : List α) (c : α)
    (hp : l.find? p = some c) (hq : l.find? q = some c) (hqf : q (f c) = true) :
    (modifyFirst p f l).find? q = some (f c) := by
  induction l with
  | nil => simp at hp
  | cons x xs ih =>
    unfold modifyFirst
    by_cases hpx : p x = true
    · have hx : x = c := by simpa [List.find?, hpx] using hp
      subst hx
      simp [hpx, List.find?, hqf]
    · have hp2 : xs.find? p = some c := by simpa [List.find?, hpx] using hp
      have hpc : p c = true := List.find?_some hp2
      by_cases hqx : q x = true
      · have hx : x = c := by simpa [List.find?, hqx] using hq
        subst hx
        exact absurd hpc hpx
      · have hq2 : xs.find? q = some c := by simpa [List.find?, hqx] using hq
        simp [hpx, List.find?, hqx, ih hp2 hq2]

theorem map_find?_modifyFirst {α β : Type} (p q : α → Bool) (f : α → α) (g : α → β)
    (hq : ∀ x, q (f x) = q x) (hg : ∀ x, g (f x) = g x) (l : List α) :
    ((modifyFirst p f l).find? q).map g = (l.find? q).map g := by
  induction l with
  | nil => rfl
  | cons x xs ih =>
    unfold modifyFirst
    by_cases hpx : p x = true
    · by_cases hqx : q x = true
      · simp [hpx, List.find?, hq, hqx, hg]
      · simp [hpx, List.find?, hq, hqx]
    · by_cases hqx : q x = true
      · simp [hpx, List.find?, hqx]
      · simp [hpx, List.find?, hqx, ih]

theorem find?_of_nodup_map {α β : Type} [DecidableEq β] (key : α → β) (l : List α) (c : α)
    (hnd : (l.map key).Nodup) (hc : c ∈ l) :
    l.find? (fun x => key x == key c) = some c := by
  induction l with
  | nil => simp at hc
  | cons x xs ih =>
    rw [List.map_cons, List.nodup_cons] at hnd
    rcases List.mem_cons.mp hc with h | h
    · subst h; simp [List.find?]
    · have hne : key x ≠ key c := by
        intro he
        exact hnd.1 (he ▸ List.mem_map_of_mem key h)
      have hb : (key x == key c) = false := by simpa using hne
      simp only [List.find?, hb]
      exact ih hnd.2 h

theorem mutated_value (K e : Nat) (hK : K ≤ 511) (he : e < 64) :
    (0x8000 ||| K <<< 6 ||| e) = 32768 + 64 * K + e := by
  have h1 : (0x8000 : Nat) ||| K <<< 6 = 32768 + 64 * K := by
    have := Nat.mul_add_lt_is_or (i := 15) (b := 64 * K) (by omega) 1
    rw [Nat.shiftLeft_eq]
    norm_num at this ⊢
    rw [Nat.mul_comm K 64, ← this]
  have h2 : (32768 + 64 * K) ||| e = 32768 + 64 * K + e := by
    have := Nat.mul_add_lt_is_or (i := 6) (b := e) (by omega) (512 + K)
    have e1 : 2 ^ 6 * (512 + K) = 32768 + 64 * K := by ring
    rw [e1] at this
    exact this.symm
  rw [h1, h2]

theorem and_endpoint_mask (x : Nat) : x &&& 63 = x % 64 :=
  Nat.and_pow_two_sub_one_eq_mod x 6

theorem mutated_tag (K e : Nat) : (0x8000 ||| K <<< 6 ||| e) % 2 ^ 16 &&& 0x8000 = 0x8000 := by
  have h := Nat.and_two_pow ((0x8000 ||| K <<< 6 ||| e) % 2 ^ 16) 15
  have hb : ((0x8000 ||| K <<< 6 ||| e) % 2 ^ 16).testBit 15 = true := by
    rw [Nat.testBit_mod_two_pow, Nat.testBit_or, Nat.testBit_or]
    have : Nat.testBit 0x8000 15 = true := by decide
    simp [this]
  rw [hb] at h
  simpa using h

theorem mutated_low (K e : Nat) (he : e < 64) :
    (0x8000 ||| K <<< 6 ||| e) % 2 ^ 16 &&& 63 = e := by
  rw [and_endpoint_mask, Nat.mod_mod_of_dvd _ (by decide : 64 ∣ 2 ^ 16)]
  apply Nat.eq_of_testBit_eq
  intro i
  have h64 : (64 : Nat) = 2 ^ 6 := by norm_num
  rw [h64, Nat.testBit_mod_two_pow, Nat.testBit_or, Nat.testBit_or, Nat.testBit_shiftLeft]
  by_cases hi : i < 6
  · have h1 : Nat.testBit 0x8000 i = false := by
      have : (0x8000 : Nat) = 2 ^ 15 := by norm_num
      rw [this, Nat.testBit_two_pow]
      simp; omega
    have h2 : ¬ (6 ≤ i) := by omega
    simp [hi, h1, h2]
  · have h3 : e.testBit i = false := by
      apply Nat.testBit_lt_two_pow
      calc e < 64 := he
        _ = 2 ^ 6 := by norm_num
        _ ≤ 2 ^ i := Nat.pow_le_pow_right (by norm_num) (by omega)
    simp [hi, h3]

theorem kMaxHalClientId_eq : kMaxHalClientId = 511 := by decide

theorem kMaxVendorEndpointId_eq : kMaxVendorEndpointId = 63 := by decide

/-! ## Well-formedness is an invariant of the manager -/

theorem wellFormed_modifyFirst (cfg : HalClientManagerConfig) (l : List HalClient)
    (m : List (String × Nat)) (p : HalClient → Bool) (f : HalClient → HalClient)
    (hu : ∀ c, (f c).uuid = c.uuid) (hi : ∀ c, (f c).clientId = c.clientId)
    (hep : ∀ c, l.find? p = some c → c.uuid ≠ kSystemServerUuid →
      (∀ e ∈ c.endpointIds, e ≤ kMaxVendorEndpointId) →
      ∀ e ∈ (f c).endpointIds, e ≤ kMaxVendorEndpointId)
    (h : HalClientManager.WellFormed cfg { mClients := l, mappingFile := m }) :
    HalClientManager.WellFormed cfg { mClients := modifyFirst p f l, mappingFile := m } := by
  obtain ⟨h1, h2, h3, h4, h5⟩ := h
  refine ⟨?_, ?_, ?_, ?_, ?_⟩
  · show (modifyFirst p f l).map (fun c => (c.uuid, c.clientId)) = m
    rw [map_modifyFirst p f _ (fun x => by simp [hu, hi])]
    exact h1
  · show ((modifyFirst p f l).map fun c => c.clientId).Nodup
    rw [map_modifyFirst p f _ hi]
    exact h2
  · show ((modifyFirst p f l).map fun c => c.uuid).Nodup
    rw [map_modifyFirst p f _ hu]
    exact h3
  · intro y hy hys
    rcases mem_modifyFirst p f l y hy with hy | ⟨c, hc, rfl⟩
    · exact h4 y hy hys
    · rw [hi]
      rw [hu] at hys
      exact h4 c (List.mem_of_find?_eq_some hc) hys
  · intro y hy hys
    rcases mem_modifyFirst p f l y hy with hy | ⟨c, hc, rfl⟩
    · exact h5 y hy hys
    · rw [hu] at hys
      exact hep c hc hys (h5 c (List.mem_of_find?_eq_some hc) hys)

theorem any_uuid_eq (l : List HalClient) (uuid : String) :
    l.any (fun c => c.uuid == uuid) =
      ((l.map fun c => (c.uuid, c.clientId)).find? (fun m => m.1 == uuid)).isSome := by
  induction l with
  | nil => rfl
  | cons x xs ih =>
    by_cases hx : (x.uuid == uuid) = true
    · simp [List.find?, hx]
    · simp only [Bool.not_eq_true] at hx
      simp only [List.any_cons, hx, Bool.false_or, List.map_cons, List.find?]
      exact ih

theorem create_wellFormed (cfg : HalClientManagerConfig) (mappings : List (String × Nat))
    (hids : (mappings.map fun m => m.2).Nodup) (huuids : (mappings.map fun m => m.1).Nodup)
    (hv : ∀ m ∈ mappings, m.1 ≠ kSystemServerUuid →
      m.2 ≤ kMaxHalClientId ∧ m.2 ≠ cfg.kSystemServerClientId) :
    (HalClientManager.create mappings).WellFormed cfg := by
  refine ⟨?_, ?_, ?_, ?_, ?_⟩
  · simp [HalClientManager.create, Function.comp_def]
  · simpa [HalClientManager.create, Function.comp_def] using hids
  · simpa [HalClientManager.create, Function.comp_def] using huuids
  · intro c hc hs
    simp only [HalClientManager.create, List.mem_map] at hc
    obtain ⟨m, hm, rfl⟩ := hc
    exact hv m hm hs
  · intro c hc _ e he
    simp only [HalClientManager.create, List.mem_map] at hc
    obtain ⟨m, _, rfl⟩ := hc
    simp at he

theorem handleClientDeath_wellFormed (cfg : HalClientManagerConfig) (s : HalClientManager)
    (pid : Int) (h : s.WellFormed cfg) : (s.handleClientDeath pid).WellFormed cfg := by
  refine wellFormed_modifyFirst cfg s.mClients s.mappingFile _ _ ?_ ?_ ?_ h
  · intro _; rfl
  · intro _; rfl
  · intro c _ _ _ e he
    simp at he

theorem registerEndpointId_wellFormed (cfg : HalClientManagerConfig) (s : HalClientManager)
    (pid : Int) (endpointId : Nat) (h : s.WellFormed cfg) :
    (s.registerEndpointId pid endpointId).2.WellFormed cfg := by
  unfold HalClientManager.registerEndpointId
  cases hc : s.getClientByProcessId pid with
  | none => exact h
  | some c =>
    dsimp only
    split
    · exact h
    · rename_i hchk
      refine wellFormed_modifyFirst cfg s.mClients s.mappingFile _ _ ?_ ?_ ?_ h
      · intro x; split <;> rfl
      · intro x; split <;> rfl
      · intro x hx hxs hxe e he
        have hxc : x = c := by
          have : s.mClients.find? (fun c => c.pid == some pid) = some c := hc
          rw [this] at hx
          exact (Option.some.inj hx).symm
        subst hxc
        have hb : (x.uuid != kSystemServerUuid) = true := by simpa using hxs
        simp only [hb, Bool.true_and, decide_eq_true_eq, not_lt] at hchk
        split at he
        · exact hxe e he
        · rcases List.mem_append.mp he with h1 | h1
          · exact hxe e h1
          · simp at h1; omega

theorem registerPendingTransaction_wellFormed (cfg : HalClientManagerConfig)
    (s : HalClientManager) (pid : Int) (transactionId : Nat) (kind : TransactionKind)
    (nowMs : Int) (h : s.WellFormed cfg) :
    (s.registerPendingTransaction cfg pid transactionId kind nowMs).2.WellFormed cfg := by
  unfold HalClientManager.registerPendingTransaction
  cases s.getClientByProcessId pid with
  | none => exact h
  | some c =>
    dsimp only
    split
    · refine wellFormed_modifyFirst cfg s.mClients s.mappingFile _ _ ?_ ?_ ?_ h
      · intro _; rfl
      · intro _; rfl
      · intro _ _ _ hxe; exact hxe
    · exact h

theorem resetPending_wellFormed (cfg : HalClientManagerConfig) (s : HalClientManager)
    (clientId transactionId : Nat) (h : s.WellFormed cfg) :
    (s.resetPending clientId transactionId).WellFormed cfg := by
  refine wellFormed_modifyFirst cfg s.mClients s.mappingFile _ _ ?_ ?_ ?_ h
  · intro x; split
    · split <;> rfl
    · rfl
  · intro x; split
    · split <;> rfl
    · rfl
  · intro x _ _ hxe
    split
    · split
      · exact hxe
      · exact hxe
    · exact hxe

theorem resetPendingUnloadTransaction_wellFormed (cfg : HalClientManagerConfig)
    (s : HalClientManager) (clientId transactionId : Nat) (h : s.WellFormed cfg) :
    (s.resetPendingUnloadTransaction clientId transactionId).WellFormed cfg := by
  refine wellFormed_modifyFirst cfg s.mClients s.mappingFile _ _ ?_ ?_ ?_ h
  · intro x; split
    · split <;> rfl
    · rfl
  · intro x; split
    · split <;> rfl
    · rfl
  · intro x _ _ hxe
    split
    · split
      · exact hxe
      · exact hxe
    · exact hxe


theorem detachOldCallback_wellFormed (cfg : HalClientManagerConfig) (l : List HalClient)
    (m : List (String × Nat)) (pid : Int) (uuid : String)
    (h : HalClientManager.WellFormed cfg { mClients := l, mappingFile := m }) :
    HalClientManager.WellFormed cfg
      { mClients := HalClientManager.detachOldCallback pid uuid l, mappingFile := m } := by
  refine wellFormed_modifyFirst cfg l m _ _ ?_ ?_ ?_ h
  · intro x; split <;> rfl
  · intro x; split <;> rfl
  · intro x _ _ hxe
    split
    · exact hxe
    · exact hxe

theorem attachClient_of_known (uuid : String) (clientId : Nat) (pid : Int) (callback : Nat)
    (l : List HalClient) (h : l.any (fun c => c.uuid == uuid) = true) :
    HalClientManager.attachClient uuid clientId pid callback l =
      modifyFirst (fun c => c.uuid == uuid)
        (fun c => { c with pid := some pid, callback := some callback }) l := by
  simp only [HalClientManager.attachClient, h, if_true]

theorem attachClient_of_new (uuid : String) (clientId : Nat) (pid : Int) (callback : Nat)
    (l : List HalClient) (h : l.any (fun c => c.uuid == uuid) = false) :
    HalClientManager.attachClient uuid clientId pid callback l =
      l ++ [{ uuid := uuid, clientId := clientId, pid := some pid, callback := some callback,
              endpointIds := [], pendingTransaction := none }] := by
  simp only [HalClientManager.attachClient, h]
  rfl

theorem allocateClientId_fresh (cfg : HalClientManagerConfig) (s : HalClientManager)
    (uuid : String) (clientId : Nat) (h : s.WellFormed cfg)
    (hnew : s.mClients.any (fun c => c.uuid == uuid) = false)
    (ha : s.allocateClientId cfg uuid = some clientId) :
    (∀ c ∈ s.mClients, c.clientId ≠ clientId) ∧
    (uuid ≠ kSystemServerUuid →
      clientId ≤ kMaxHalClientId ∧ clientId ≠ cfg.kSystemServerClientId) := by
  obtain ⟨_, _, _, h4, _⟩ := h
  unfold HalClientManager.allocateClientId at ha
  by_cases hs : uuid = kSystemServerUuid
  · have hb : (uuid == kSystemServerUuid) = true := by simpa using hs
    rw [if_pos hb] at ha
    have hcid : cfg.kSystemServerClientId = clientId := Option.some.inj ha
    refine ⟨?_, fun hne => absurd hs hne⟩
    intro c hc
    have hcu : c.uuid ≠ kSystemServerUuid := by
      intro hcs
      have := List.any_eq_false.mp hnew c hc
      simp [hcs, hs] at this
    rw [← hcid]
    exact (h4 c hc hcu).2
  · have hb : ¬ ((uuid == kSystemServerUuid) = true) := by simpa using hs
    rw [if_neg hb] at ha
    have hfree := List.find?_some ha
    have hmem := List.mem_of_find?_eq_some ha
    simp only [HalClientManager.isClientIdFree, Bool.and_eq_true, bne_iff_ne, ne_eq,
      List.all_eq_true] at hfree
    refine ⟨fun c hc => hfree.1.2 c hc, fun _ => ⟨?_, hfree.1.1.2⟩⟩
    have := List.mem_range.mp hmem
    omega

theorem registerCallback_wellFormed (cfg : HalClientManagerConfig) (s : HalClientManager)
    (pid : Int) (callback : Nat) (uuid : String) (persistOk : Bool) (h : s.WellFormed cfg) :
    (s.registerCallback cfg pid callback uuid persistOk).2.WellFormed cfg := by
  have hdet := detachOldCallback_wellFormed cfg s.mClients s.mappingFile pid uuid h
  have hmap : (HalClientManager.detachOldCallback pid uuid s.mClients).map
      (fun c => (c.uuid, c.clientId)) = s.mappingFile := hdet.1
  have hany := any_uuid_eq (HalClientManager.detachOldCallback pid uuid s.mClients) uuid
  have hany0 := any_uuid_eq s.mClients uuid
  rw [hmap] at hany
  rw [h.1] at hany0
  unfold HalClientManager.registerCallback
  cases hf : s.mappingFile.find? (fun m => m.1 == uuid) with
  | some m =>
    rw [hf] at hany
    dsimp only
    rw [attachClient_of_known _ _ _ _ _ (by simpa using hany)]
    refine wellFormed_modifyFirst cfg _ s.mappingFile _ _ ?_ ?_ ?_ hdet
    · intro _; rfl
    · intro _; rfl
    · intro _ _ _ hxe; exact hxe
  | none =>
    rw [hf] at hany hany0
    dsimp only
    cases ha : s.allocateClientId cfg uuid with
    | none => exact h
    | some clientId =>
      dsimp only
      cases persistOk with
      | false => exact h
      | true =>
        rw [if_pos rfl, attachClient_of_new _ _ _ _ _ (by simpa using hany)]
        obtain ⟨hfresh, hrange⟩ :=
          allocateClientId_fresh cfg s uuid clientId h (by simpa using hany0) ha
        obtain ⟨d1, d2, d3, d4, d5⟩ := hdet
        have hids : (HalClientManager.detachOldCallback pid uuid s.mClients).map
            (fun c => c.clientId) = s.mClients.map (fun c => c.clientId) :=
          map_modifyFirst _ _ _ (fun x => by split <;> rfl) _
        have huu : (HalClientManager.detachOldCallback pid uuid s.mClients).map
            (fun c => c.uuid) = s.mClients.map (fun c => c.uuid) :=
          map_modifyFirst _ _ _ (fun x => by split <;> rfl) _
        refine ⟨?_, ?_, ?_, ?_, ?_⟩
        · show List.map _ (_ ++ _) = _
          rw [List.map_append, hmap]
          rfl
        · show (List.map _ (_ ++ _)).Nodup
          rw [List.map_append, List.nodup_append]
          refine ⟨d2, by simp, ?_⟩
          rw [hids]
          intro x hx hx2
          simp only [List.map_cons, List.map_nil, List.mem_singleton] at hx2
          obtain ⟨c, hc, hcx⟩ := List.mem_map.mp hx
          exact hfresh c hc (hcx.trans hx2)
        · show (List.map _ (_ ++ _)).Nodup
          rw [List.map_append, List.nodup_append]
          refine ⟨d3, by simp, ?_⟩
          rw [huu]
          intro x hx hx2
          simp only [List.map_cons, List.map_nil, List.mem_singleton] at hx2
          obtain ⟨c, hc, hcx⟩ := List.mem_map.mp hx
          have hn : ∀ x ∈ s.mClients, ¬x.uuid = uuid := by simpa using hany0
          exact hn c hc (hcx.trans hx2)
        · intro c hc hcs
          rcases List.mem_append.mp hc with hc | hc
          · exact d4 c hc hcs
          · simp only [List.mem_singleton] at hc
            subst hc
            exact hrange hcs
        · intro c hc hcs e he
          rcases List.mem_append.mp hc with hc | hc
          · exact d5 c hc hcs e he
          · simp only [List.mem_singleton] at hc
            subst hc
            simp at he

theorem step_wellFormed (cfg : HalClientManagerConfig) (s : HalClientManager)
    (call : HalClientManager.Call) (h : s.WellFormed cfg) : (s.step cfg call).WellFormed cfg := by
  cases call with
  | registerCallback pid callback uuid persistOk =>
    exact registerCallback_wellFormed cfg s pid callback uuid persistOk h
  | handleClientDeath pid => exact handleClientDeath_wellFormed cfg s pid h
  | registerEndpointId pid endpointId => exact registerEndpointId_wellFormed cfg s pid endpointId h
  | registerPendingLoadTransaction pid transaction nowMs =>
    exact registerPendingTransaction_wellFormed cfg s pid _ _ nowMs h
  | registerPendingUnloadTransaction pid transactionId nowMs =>
    exact registerPendingTransaction_wellFormed cfg s pid _ _ nowMs h
  | resetPending clientId transactionId =>
    exact resetPending_wellFormed cfg s clientId transactionId h
  | resetPendingUnloadTransaction clientId transactionId =>
    exact resetPendingUnloadTransaction_wellFormed cfg s clientId transactionId h

theorem run_wellFormed (cfg : HalClientManagerConfig) (calls : List HalClientManager.Call)
    (s : HalClientManager) (h : s.WellFormed cfg) : (s.run cfg calls).WellFormed cfg := by
  induction calls generalizing s with
  | nil => exact h
  | cons call rest ih => exact ih _ (step_wellFormed cfg s call h)

/-! ## Endpoint id mutation -/

theorem mutate_of_vendor (s : HalClientManager) (pid : Int) (c : HalClient)
    (e : Nat) (hc : s.getClientByProcessId pid = some c)
    (hv : c.uuid ≠ kSystemServerUuid) (hK : c.clientId ≤ kMaxHalClientId) (he : e < 64) :
    s.mutateEndpointIdFromHostIfNeeded pid e = (true, 32768 + 64 * c.clientId + e) := by
  rw [kMaxHalClientId_eq] at hK
  have hb : (c.uuid != kSystemServerUuid) = true := by simpa using hv
  simp only [HalClientManager.mutateEndpointIdFromHostIfNeeded, hc, hb, if_true,
    kVendorEndpointIdBitMask, kNumOfBitsForEndpointId]
  rw [mutated_value _ _ hK he]
  congr 1
  omega

theorem mutate_of_system (s : HalClientManager) (pid : Int) (c : HalClient)
    (e : Nat) (hc : s.getClientByProcessId pid = some c)
    (hv : c.uuid = kSystemServerUuid) :
    s.mutateEndpointIdFromHostIfNeeded pid e = (true, e) := by
  simp [HalClientManager.mutateEndpointIdFromHostIfNeeded, hc, hv]

theorem find?_of_unique {α : Type} (p : α → Bool) (l : List α) (c : α) (hc : c ∈ l)
    (hp : p c = true) (hu : ∀ d ∈ l, p d = true → d = c) : l.find? p = some c := by
  induction l with
  | nil => simp at hc
  | cons x xs ih =>
    by_cases hx : p x = true
    · have := hu x (List.mem_cons_self _ _) hx
      subst this
      simp [List.find?, hx]
    · have hxc : c ∈ xs := by
        rcases List.mem_cons.mp hc with h | h
        · exact absurd (h ▸ hp) hx
        · exact h
      simp only [List.find?, hx]
      exact ih hxc (fun d hd => hu d (List.mem_cons_of_mem _ hd))

theorem getClientByProcessId_of_unique (s : HalClientManager) (pid : Int) (c : HalClient)
    (hc : c ∈ s.mClients) (hp : c.pid = some pid)
    (hu : ∀ d ∈ s.mClients, d.pid = some pid → d = c) :
    s.getClientByProcessId pid = some c :=
  find?_of_unique (fun (d : HalClient) => d.pid == some pid) s.mClients c hc (by simp [hp])
    (fun d hd h => hu d hd (by simpa using h))

/-- C1: for a non-system client found by its pid (whatever its client id) and an
original endpoint id `e < 64`, `convertToOriginalEndpointId` applied to the id produced
by `mutateEndpointIdFromHostIfNeeded` returns `e`. -/
theorem convertToOriginalEndpointId_mutate (s : HalClientManager) (pid : Int)
    (c : HalClient) (e : Nat) (hc : s.getClientByProcessId pid = some c)
    (hv : c.uuid ≠ kSystemServerUuid) (he : e < 64) :
    HalClientManager.convertToOriginalEndpointId
      (s.mutateEndpointIdFromHostIfNeeded pid e).2 = e := by
  have hb : (c.uuid != kSystemServerUuid) = true := by simpa using hv
  simp only [HalClientManager.mutateEndpointIdFromHostIfNeeded, hc, hb, if_true,
    kVendorEndpointIdBitMask, kNumOfBitsForEndpointId,
    HalClientManager.convertToOriginalEndpointId, kMaxVendorEndpointId_eq]
  rw [mutated_tag, mutated_low _ _ he]
  rfl

/-- C2: two distinct clients (different uuids, different client ids, the ids of
non-system clients drawn from the client-id space) that hold the same original endpoint
id `e < 64` get different mutated endpoint ids. -/
theorem mutateEndpointIdFromHostIfNeeded_separates (s : HalClientManager) (pid1 pid2 : Int)
    (c1 c2 : HalClient) (e : Nat)
    (h1 : s.getClientByProcessId pid1 = some c1) (h2 : s.getClientByProcessId pid2 = some c2)
    (hu : c1.uuid ≠ c2.uuid) (hid : c1.clientId ≠ c2.clientId)
    (hK1 : c1.uuid ≠ kSystemServerUuid → c1.clientId ≤ kMaxHalClientId)
    (hK2 : c2.uuid ≠ kSystemServerUuid → c2.clientId ≤ kMaxHalClientId) (he : e < 64) :
    (s.mutateEndpointIdFromHostIfNeeded pid1 e).2 ≠
      (s.mutateEndpointIdFromHostIfNeeded pid2 e).2 := by
  by_cases hs1 : c1.uuid = kSystemServerUuid
  · have hs2 : c2.uuid ≠ kSystemServerUuid := fun h => hu (hs1.trans h.symm)
    rw [mutate_of_system s pid1 c1 e h1 hs1, mutate_of_vendor s pid2 c2 e h2 hs2 (hK2 hs2) he]
    show e ≠ 32768 + 64 * c2.clientId + e
    omega
  · by_cases hs2 : c2.uuid = kSystemServerUuid
    · rw [mutate_of_vendor s pid1 c1 e h1 hs1 (hK1 hs1) he, mutate_of_system s pid2 c2 e h2 hs2]
      show 32768 + 64 * c1.clientId + e ≠ e
      omega
    · rw [mutate_of_vendor s pid1 c1 e h1 hs1 (hK1 hs1) he,
        mutate_of_vendor s pid2 c2 e h2 hs2 (hK2 hs2) he]
      show 32768 + 64 * c1.clientId + e ≠ 32768 + 64 * c2.clientId + e
      omega

set_option maxRecDepth 100000 in
theorem convertToOriginalEndpointId_mutate_witness :
    twoClientManager.getClientByProcessId kVendorPid = some vendorClient ∧
    vendorClient.uuid ≠ kSystemServerUuid ∧ (10 : Nat) < 64 ∧
    HalClientManager.convertToOriginalEndpointId
      (twoClientManager.mutateEndpointIdFromHostIfNeeded kVendorPid 10).2 = 10 :=
  ⟨by decide, by decide, by decide,
    convertToOriginalEndpointId_mutate twoClientManager kVendorPid vendorClient 10
      (by decide) (by decide) (by decide)⟩

set_option maxRecDepth 100000 in
theorem mutateEndpointIdFromHostIfNeeded_separates_witness :
    twoClientManager.getClientByProcessId kSystemServerPid = some systemClient ∧
    twoClientManager.getClientByProcessId kVendorPid = some vendorClient ∧
    systemClient.uuid ≠ vendorClient.uuid ∧ systemClient.clientId ≠ vendorClient.clientId ∧
    vendorClient.clientId ≤ kMaxHalClientId ∧ (1 : Nat) < 64 ∧
    (twoClientManager.mutateEndpointIdFromHostIfNeeded kSystemServerPid 1).2 ≠
      (twoClientManager.mutateEndpointIdFromHostIfNeeded kVendorPid 1).2 :=
  ⟨by decide, by decide, by decide, by decide, by decide, by decide,
    mutateEndpointIdFromHostIfNeeded_separates twoClientManager kSystemServerPid kVendorPid
      systemClient vendorClient 1 (by decide) (by decide) (by decide) (by decide)
      (fun h => absurd rfl h) (fun _ => by decide) (by decide)⟩

/-! ## Callback lookup by endpoint id -/

theorem getClientByUuid_of_mem (cfg : HalClientManagerConfig) (s : HalClientManager)
    (c : HalClient) (h : s.WellFormed cfg) (hc : c ∈ s.mClients) :
    s.getClientByUuid c.uuid = some c :=
  find?_of_nodup_map (fun (x : HalClient) => x.uuid) s.mClients c h.2.2.1 hc

theorem getClientByClientId_of_mem (cfg : HalClientManagerConfig) (s : HalClientManager)
    (c : HalClient) (h : s.WellFormed cfg) (hc : c ∈ s.mClients) :
    s.getClientByClientId c.clientId = some c :=
  find?_of_nodup_map (fun (x : HalClient) => x.clientId) s.mClients c h.2.1 hc

theorem getClientByUuid_of_persisted (cfg : HalClientManagerConfig) (s : HalClientManager)
    (uuid : String) (clientId : Nat) (h : s.WellFormed cfg)
    (hm : (uuid, clientId) ∈ s.mappingFile) :
    ∃ c, s.getClientByUuid uuid = some c ∧ c.clientId = clientId := by
  rw [← h.1] at hm
  obtain ⟨c, hc, hcm⟩ := List.mem_map.mp hm
  have hu : c.uuid = uuid := congrArg Prod.fst hcm
  have hi : c.clientId = clientId := congrArg Prod.snd hcm
  exact ⟨c, hu ▸ getClientByUuid_of_mem cfg s c h hc, hi⟩

theorem find?_mappingFile (cfg : HalClientManagerConfig) (s : HalClientManager)
    (uuid : String) (clientId : Nat) (h : s.WellFormed cfg)
    (hm : (uuid, clientId) ∈ s.mappingFile) :
    s.mappingFile.find? (fun m => m.1 == uuid) = some (uuid, clientId) := by
  have hnd : (s.mappingFile.map fun (m : String × Nat) => m.1).Nodup := by
    rw [← h.1, List.map_map]
    exact h.2.2.1
  exact find?_of_nodup_map (fun (m : String × Nat) => m.1) s.mappingFile (uuid, clientId) hnd hm

theorem registerCallback_of_persisted (cfg : HalClientManagerConfig) (s : HalClientManager)
    (pid : Int) (callback : Nat) (uuid : String) (persistOk : Bool) (clientId : Nat)
    (h : s.WellFormed cfg) (hm : (uuid, clientId) ∈ s.mappingFile) :
    (s.registerCallback cfg pid callback uuid persistOk).1 = true ∧
    ∃ c, (s.registerCallback cfg pid callback uuid persistOk).2.getClientByUuid uuid = some c ∧
      c.clientId = clientId ∧ c.pid = some pid ∧ c.callback = some callback := by
  have hf := find?_mappingFile cfg s uuid clientId h hm
  have hdet := detachOldCallback_wellFormed cfg s.mClients s.mappingFile pid uuid h
  obtain ⟨x, hx, hxi⟩ := getClientByUuid_of_persisted cfg _ uuid clientId hdet hm
  have hx2 : (HalClientManager.detachOldCallback pid uuid s.mClients).find?
      (fun c => c.uuid == uuid) = some x := hx
  have hany : (HalClientManager.detachOldCallback pid uuid s.mClients).any
      (fun c => c.uuid == uuid) = true := by
    have hxu : (x.uuid == uuid) = true :=
      @List.find?_some _ (fun (c : HalClient) => c.uuid == uuid) _ _ hx2
    rw [List.any_eq_true]
    exact ⟨x, List.mem_of_find?_eq_some hx2, hxu⟩
  have hr : s.registerCallback cfg pid callback uuid persistOk =
      (true, HalClientManager.mk (modifyFirst (fun c => c.uuid == uuid)
        (fun c => { c with pid := some pid, callback := some callback })
        (HalClientManager.detachOldCallback pid uuid s.mClients)) s.mappingFile) := by
    simp only [HalClientManager.registerCallback, hf, attachClient_of_known _ _ _ _ _ hany]
  rw [hr]
  have hxu : (x.uuid == uuid) = true :=
    @List.find?_some _ (fun (c : HalClient) => c.uuid == uuid) _ _ hx2
  refine ⟨rfl, { x with pid := some pid, callback := some callback }, ?_, hxi, rfl, rfl⟩
  exact find?_modifyFirst _ _ _ _ x hx2 hx2 hxu

theorem registerCallback_persists (cfg : HalClientManagerConfig) (s : HalClientManager)
    (pid : Int) (callback : Nat) (uuid : String) (persistOk : Bool)
    (hr : (s.registerCallback cfg pid callback uuid persistOk).1 = true) :
    ∃ clientId,
      (uuid, clientId) ∈ (s.registerCallback cfg pid callback uuid persistOk).2.mappingFile := by
  unfold HalClientManager.registerCallback at hr ⊢
  cases hf : s.mappingFile.find? (fun m => m.1 == uuid) with
  | some m =>
    have hmem := List.mem_of_find?_eq_some hf
    have hb : (m.1 == uuid) = true :=
      @List.find?_some _ (fun (m : String × Nat) => m.1 == uuid) _ _ hf
    have hu : m.1 = uuid := by simpa using hb
    exact ⟨m.2, by rw [← hu]; exact hmem⟩
  | none =>
    rw [hf] at hr
    dsimp only at hr ⊢
    cases ha : s.allocateClientId cfg uuid with
    | none => rw [ha] at hr; simp at hr
    | some clientId =>
      rw [ha] at hr
      dsimp only at hr ⊢
      cases persistOk with
      | false => simp at hr
      | true => exact ⟨clientId, by simp⟩

theorem handleClientDeath_mappingFile (s : HalClientManager) (pid : Int) :
    (s.handleClientDeath pid).mappingFile = s.mappingFile := rfl

/-- C5: in a well-formed manager state, (a) a uuid present in the persisted mapping with
client id `c` is registered by `registerCallback` under client id `c` (the call succeeds
and attaches pid and callback), and (b) registering with a uuid, handling the death of
the pid, and registering again with the same uuid succeeds and yields the same client
id both times. -/
theorem registerCallback_clientId_stable (cfg : HalClientManagerConfig)
    (s : HalClientManager) (uuid : String) (h : s.WellFormed cfg) :
    (∀ (c : Nat) (pid : Int) (callback : Nat) (persistOk : Bool),
      (uuid, c) ∈ s.mappingFile →
      (s.registerCallback cfg pid callback uuid persistOk).1 = true ∧
      ∃ e, (s.registerCallback cfg pid callback uuid persistOk).2.getClientByUuid uuid = some e ∧
        e.clientId = c ∧ e.pid = some pid ∧ e.callback = some callback) ∧
    (∀ (pid : Int) (callback : Nat) (persistOk : Bool) (pid2 : Int) (callback2 : Nat)
      (persistOk2 : Bool),
      (s.registerCallback cfg pid callback uuid persistOk).1 = true →
      ((((s.registerCallback cfg pid callback uuid persistOk).2.handleClientDeath
          pid).registerCallback cfg pid2 callback2 uuid persistOk2).1 = true ∧
        ∃ K,
          ((s.registerCallback cfg pid callback uuid persistOk).2.getClientByUuid uuid).map
            (fun e => e.clientId) = some K ∧
          ((((s.registerCallback cfg pid callback uuid persistOk).2.handleClientDeath
            pid).registerCallback cfg pid2 callback2 uuid persistOk2).2.getClientByUuid
              uuid).map (fun e => e.clientId) = some K)) := by
  refine ⟨fun c pid callback persistOk hm =>
    registerCallback_of_persisted cfg s pid callback uuid persistOk c h hm, ?_⟩
  intro pid callback persistOk pid2 callback2 persistOk2 hr
  have hwf1 := registerCallback_wellFormed cfg s pid callback uuid persistOk h
  obtain ⟨K, hK⟩ := registerCallback_persists cfg s pid callback uuid persistOk hr
  obtain ⟨e1, he1, hi1⟩ := getClientByUuid_of_persisted cfg _ uuid K hwf1 hK
  have hwf2 := handleClientDeath_wellFormed cfg _ pid hwf1
  obtain ⟨h3, e3, he3, hi3, _, _⟩ :=
    registerCallback_of_persisted cfg _ pid2 callback2 uuid persistOk2 K hwf2 hK
  exact ⟨h3, K, by rw [he1, Option.map_some', hi1], by rw [he3, Option.map_some', hi3]⟩

set_option maxRecDepth 100000 in
theorem registerCallback_clientId_stable_witness :
    mappedManager.WellFormed testConfig ∧
    (kSystemServerUuid, 100) ∈ mappedManager.mappingFile ∧
    ((mappedManager.registerCallback testConfig kSystemServerPid 7 kSystemServerUuid true).1 =
        true ∧
      ∃ e, (mappedManager.registerCallback testConfig kSystemServerPid 7 kSystemServerUuid
          true).2.getClientByUuid kSystemServerUuid = some e ∧
        e.clientId = 100 ∧ e.pid = some kSystemServerPid ∧ e.callback = some 7) ∧
    ((((mappedManager.registerCallback testConfig kSystemServerPid 7 kSystemServerUuid
          true).2.handleClientDeath kSystemServerPid).registerCallback testConfig 2000 9
          kSystemServerUuid true).1 = true ∧
      ∃ K,
        ((mappedManager.registerCallback testConfig kSystemServerPid 7 kSystemServerUuid
          true).2.getClientByUuid kSystemServerUuid).map (fun e => e.clientId) = some K ∧
        ((((mappedManager.registerCallback testConfig kSystemServerPid 7 kSystemServerUuid
          true).2.handleClientDeath kSystemServerPid).registerCallback testConfig 2000 9
          kSystemServerUuid true).2.getClientByUuid kSystemServerUuid).map
            (fun e => e.clientId) = some K) :=
  ⟨by decide, by decide,
    (registerCallback_clientId_stable testConfig mappedManager kSystemServerUuid
      (by decide)).1 100 kSystemServerPid 7 true (by decide),
    (registerCallback_clientId_stable testConfig mappedManager kSystemServerUuid
      (by decide)).2 kSystemServerPid 7 true 2000 9 true (by decide)⟩

/-! ## Pending load and unload transactions -/

theorem registerPendingTransaction_of_not_allowed (cfg : HalClientManagerConfig)
    (s : HalClientManager) (pid : Int) (c : HalClient) (transactionId : Nat)
    (kind : TransactionKind) (nowMs : Int) (hc : s.getClientByProcessId pid = some c)
    (hn : HalClientManager.isNewTransactionAllowed cfg c nowMs = false) :
    s.registerPendingTransaction cfg pid transactionId kind nowMs = (false, s) := by
  simp [HalClientManager.registerPendingTransaction, hc, hn]

theorem registerPendingTransaction_of_allowed (cfg : HalClientManagerConfig)
    (s : HalClientManager) (pid : Int) (c : HalClient) (transactionId : Nat)
    (kind : TransactionKind) (nowMs : Int) (hc : s.getClientByProcessId pid = some c)
    (hn : HalClientManager.isNewTransactionAllowed cfg c nowMs = true) :
    (s.registerPendingTransaction cfg pid transactionId kind nowMs).1 = true ∧
    (s.registerPendingTransaction cfg pid transactionId kind nowMs).2.getClientByProcessId pid =
      some { c with
        pendingTransaction := some (PendingTransaction.mk transactionId kind nowMs) } := by
  have hpc : (c.pid == some pid) = true :=
    @List.find?_some _ (fun (c : HalClient) => c.pid == some pid) _ _ hc
  simp only [HalClientManager.registerPendingTransaction, hc, hn, if_true, true_and]
  exact find?_modifyFirst _ _ _ _ c hc hc hpc

/-- C6: while the client found by `pid` has a pending transaction (load or unload)
younger than the timeout threshold, `registerPendingLoadTransaction` and
`registerPendingUnloadTransaction` both return false and leave the whole manager state,
hence the pending transaction, unchanged. A client has a single pending-transaction
slot, so a load and an unload are never pending together. -/
theorem registerPending_rejected_while_pending (cfg : HalClientManagerConfig)
    (s : HalClientManager) (pid : Int) (c : HalClient) (t : PendingTransaction)
    (transaction : FragmentedLoadTransaction) (transactionId : Nat) (nowMs : Int)
    (hc : s.getClientByProcessId pid = some c) (ht : c.pendingTransaction = some t)
    (hy : nowMs - t.registeredTimeMs < cfg.kTransactionTimeoutThresholdMs) :
    s.registerPendingLoadTransaction cfg pid transaction nowMs = (false, s) ∧
    s.registerPendingUnloadTransaction cfg pid transactionId nowMs = (false, s) := by
  have hn : HalClientManager.isNewTransactionAllowed cfg c nowMs = false := by
    simp [HalClientManager.isNewTransactionAllowed, ht, hy]
  exact ⟨registerPendingTransaction_of_not_allowed cfg s pid c _ _ nowMs hc hn,
    registerPendingTransaction_of_not_allowed cfg s pid c _ _ nowMs hc hn⟩

set_option maxRecDepth 100000 in
theorem registerPending_rejected_while_pending_witness :
    unloadPendingManager.getClientByProcessId kSystemServerPid =
      some { systemClient with
        pendingTransaction := some (PendingTransaction.mk 1 TransactionKind.unload 0) } ∧
    (10 : Int) - 0 < testConfig.kTransactionTimeoutThresholdMs ∧
    unloadPendingManager.registerPendingLoadTransaction testConfig kSystemServerPid
      (createLoadTransaction 2) 10 = (false, unloadPendingManager) ∧
    unloadPendingManager.registerPendingUnloadTransaction testConfig kSystemServerPid 2 10 =
      (false, unloadPendingManager) :=
  ⟨by decide, by decide,
    registerPending_rejected_while_pending testConfig unloadPendingManager kSystemServerPid
      { systemClient with
        pendingTransaction := some (PendingTransaction.mk 1 TransactionKind.unload 0) }
      (PendingTransaction.mk 1 TransactionKind.unload 0) (createLoadTransaction 2) 2 10
      (by decide) rfl (by decide)⟩

/-- C7: when the pending transaction of the client found by `pid` was registered at
`t.registeredTimeMs` and a registration is made at a time `nowMs` with
`nowMs - t.registeredTimeMs` at least `kTransactionTimeoutThresholdMs`, the registration
(load or unload) returns true and the new transaction replaces the pending one. -/
theorem registerPending_supersedes_after_timeout (cfg : HalClientManagerConfig)
    (s : HalClientManager) (pid : Int) (c : HalClient) (t : PendingTransaction)
    (transaction : FragmentedLoadTransaction) (transactionId : Nat) (nowMs : Int)
    (hc : s.getClientByProcessId pid = some c) (ht : c.pendingTransaction = some t)
    (hto : cfg.kTransactionTimeoutThresholdMs ≤ nowMs - t.registeredTimeMs) :
    ((s.registerPendingLoadTransaction cfg pid transaction nowMs).1 = true ∧
      (s.registerPendingLoadTransaction cfg pid transaction nowMs).2.getClientByProcessId pid =
        some { c with
          pendingTransaction := some
            (PendingTransaction.mk transaction.transactionId TransactionKind.load nowMs) }) ∧
    ((s.registerPendingUnloadTransaction cfg pid transactionId nowMs).1 = true ∧
      (s.registerPendingUnloadTransaction cfg pid transactionId nowMs).2.getClientByProcessId
        pid = some { c with
          pendingTransaction := some
            (PendingTransaction.mk transactionId TransactionKind.unload nowMs) }) := by
  have hn : HalClientManager.isNewTransactionAllowed cfg c nowMs = true := by
    simp [HalClientManager.isNewTransactionAllowed, ht, hto]
  exact ⟨registerPendingTransaction_of_allowed cfg s pid c _ _ nowMs hc hn,
    registerPendingTransaction_of_allowed cfg s pid c _ _ nowMs hc hn⟩

set_option maxRecDepth 100000 in
theorem registerPending_supersedes_after_timeout_witness :
    loadPendingManager.getClientByProcessId kSystemServerPid =
      some { systemClient with
        pendingTransaction := some (PendingTransaction.mk 1 TransactionKind.load 0) } ∧
    testConfig.kTransactionTimeoutThresholdMs ≤ (5000 : Int) - 0 ∧
    (loadPendingManager.registerPendingLoadTransaction testConfig kSystemServerPid
      (createLoadTransaction 3) 5000).1 = true ∧
    (loadPendingManager.registerPendingLoadTransaction testConfig kSystemServerPid
      (createLoadTransaction 3) 5000).2.getClientByProcessId kSystemServerPid =
      some { systemClient with
        pendingTransaction := some (PendingTransaction.mk 3 TransactionKind.load 5000) } :=
  ⟨by decide, by decide,
    (registerPending_supersedes_after_timeout testConfig loadPendingManager kSystemServerPid
      { systemClient with
        pendingTransaction := some (PendingTransaction.mk 1 TransactionKind.load 0) }
      (PendingTransaction.mk 1 TransactionKind.load 0) (createLoadTransaction 3) 3 5000
      (by decide) rfl (by decide)).1⟩

theorem getClientByProcessId_resetPending (cfg : HalClientManagerConfig)
    (s : HalClientManager) (pid : Int) (c : HalClient) (t : PendingTransaction)
    (h : s.WellFormed cfg) (hc : s.getClientByProcessId pid = some c)
    (ht : c.pendingTransaction = some t) :
    (s.resetPending c.clientId t.transactionId).getClientByProcessId pid =
      some { c with pendingTransaction := none } := by
  have hpc : (c.pid == some pid) = true :=
    @List.find?_some _ (fun (c : HalClient) => c.pid == some pid) _ _ hc
  have hi := getClientByClientId_of_mem cfg s c h (List.mem_of_find?_eq_some hc)
  have := find?_modifyFirst (fun (x : HalClient) => x.clientId == c.clientId)
    (fun (x : HalClient) => x.pid == some pid)
    (fun (c : HalClient) => match c.pendingTransaction with
      | some t' =>
        if t'.transactionId == t.transactionId then { c with pendingTransaction := none } else c
      | none => c) s.mClients c hi hc (by simp only [ht]; simpa using hpc)
  simp only [ht, beq_self_eq_true, if_true] at this
  exact this

theorem getClientByProcessId_resetPendingUnloadTransaction (cfg : HalClientManagerConfig)
    (s : HalClientManager) (pid : Int) (c : HalClient) (t : PendingTransaction)
    (h : s.WellFormed cfg) (hc : s.getClientByProcessId pid = some c)
    (ht : c.pendingTransaction = some t) (hk : t.kind = TransactionKind.unload) :
    (s.resetPendingUnloadTransaction c.clientId t.transactionId).getClientByProcessId pid =
      some { c with pendingTransaction := none } := by
  have hpc : (c.pid == some pid) = true :=
    @List.find?_some _ (fun (c : HalClient) => c.pid == some pid) _ _ hc
  have hi := getClientByClientId_of_mem cfg s c h (List.mem_of_find?_eq_some hc)
  have := find?_modifyFirst (fun (x : HalClient) => x.clientId == c.clientId)
    (fun (x : HalClient) => x.pid == some pid)
    (fun (c : HalClient) => match c.pendingTransaction with
      | some t' =>
        if t'.kind == TransactionKind.unload && t'.transactionId == t.transactionId then
          { c with pendingTransaction := none }
        else c
      | none => c) s.mClients c hi hc (by simp only [ht]; simpa [hk] using hpc)
  simp only [ht, hk, beq_self_eq_true, Bool.and_self, if_true] at this
  exact this

/-- C8: in a well-formed manager state, when the client found by `pid` has a pending
transaction with id `T`, then after `resetPending(clientId, T)`, and for a pending
unload also after `resetPendingUnloadTransaction(clientId, T)`, a registration of either
kind made at any time `nowMs` returns true. -/
theorem registerPending_succeeds_after_reset (cfg : HalClientManagerConfig)
    (s : HalClientManager) (pid : Int) (c : HalClient) (t : PendingTransaction)
    (transaction : FragmentedLoadTransaction) (transactionId : Nat) (nowMs : Int)
    (h : s.WellFormed cfg) (hc : s.getClientByProcessId pid = some c)
    (ht : c.pendingTransaction = some t) :
    (((s.resetPending c.clientId t.transactionId).registerPendingLoadTransaction cfg pid
        transaction nowMs).1 = true ∧
      ((s.resetPending c.clientId t.transactionId).registerPendingUnloadTransaction cfg pid
        transactionId nowMs).1 = true) ∧
    (t.kind = TransactionKind.unload →
      ((s.resetPendingUnloadTransaction c.clientId t.transactionId).registerPendingLoadTransaction
          cfg pid transaction nowMs).1 = true ∧
      ((s.resetPendingUnloadTransaction
          c.clientId t.transactionId).registerPendingUnloadTransaction
          cfg pid transactionId nowMs).1 = true) := by
  have h1 := getClientByProcessId_resetPending cfg s pid c t h hc ht
  refine ⟨⟨(registerPendingTransaction_of_allowed cfg _ pid _ _ _ nowMs h1 rfl).1,
    (registerPendingTransaction_of_allowed cfg _ pid _ _ _ nowMs h1 rfl).1⟩, fun hk => ?_⟩
  have h2 := getClientByProcessId_resetPendingUnloadTransaction cfg s pid c t h hc ht hk
  exact ⟨(registerPendingTransaction_of_allowed cfg _ pid _ _ _ nowMs h2 rfl).1,
    (registerPendingTransaction_of_allowed cfg _ pid _ _ _ nowMs h2 rfl).1⟩

set_option maxRecDepth 100000 in
theorem registerPending_succeeds_after_reset_witness :
    unloadPendingManager.WellFormed testConfig ∧
    unloadPendingManager.getClientByProcessId kSystemServerPid =
      some { systemClient with
        pendingTransaction := some (PendingTransaction.mk 1 TransactionKind.unload 0) } ∧
    ((unloadPendingManager.resetPendingUnloadTransaction 1 1).registerPendingLoadTransaction
      testConfig kSystemServerPid (createLoadTransaction 2) 0).1 = true ∧
    ((unloadPendingManager.resetPending 1 1).registerPendingLoadTransaction
      testConfig kSystemServerPid (createLoadTransaction 2) 0).1 = true :=
  ⟨by decide, by decide,
    ((registerPending_succeeds_after_reset testConfig unloadPendingManager kSystemServerPid
      { systemClient with
        pendingTransaction := some (PendingTransaction.mk 1 TransactionKind.unload 0) }
      (PendingTransaction.mk 1 TransactionKind.unload 0) (createLoadTransaction 2) 2 0
      (by decide) (by decide) rfl).2 rfl).1,
    (registerPending_succeeds_after_reset testConfig unloadPendingManager kSystemServerPid
      { systemClient with
        pendingTransaction := some (PendingTransaction.mk 1 TransactionKind.unload 0) }
      (PendingTransaction.mk 1 TransactionKind.unload 0) (createLoadTransaction 2) 2 0
      (by decide) (by decide) rfl).1.1⟩

/-! ## Transaction tracker -/

open TransactionTracker AppReqRespTest

theorem slotOfResponse_timeoutResponse (k : Slot) (transaction : Nat) :
    slotOfResponse (timeoutResponse k transaction) = some k := by
  obtain ⟨kind, handle, command⟩ := k
  cases kind <;> rfl

theorem dispatchResponse_txQueue (s : TransactionTracker) (response : ChppAppHeader) :
    (s.dispatchResponse response).txQueue = s.txQueue := by
  unfold TransactionTracker.dispatchResponse
  split <;> rfl

theorem dispatchResponse_dropped (s : TransactionTracker) (response : ChppAppHeader) :
    (s.dispatchResponse response).dropped = s.dropped := by
  unfold TransactionTracker.dispatchResponse
  split <;> rfl

theorem dispatchResponse_of_slot (s : TransactionTracker) (response : ChppAppHeader)
    (j : Slot) (h : slotOfResponse response = some j) :
    s.dispatchResponse response =
      { s with
        outReqStates := Function.update s.outReqStates j
          (chppTimestampIncomingResponse (s.outReqStates j) response).2
        delivered := s.delivered ++
          [Delivery.mk response (chppTimestampIncomingResponse (s.outReqStates j) response).1] } := by
  simp only [TransactionTracker.dispatchResponse, h]

theorem dispatchResponse_other (s : TransactionTracker) (response : ChppAppHeader)
    (k : Slot) (h : slotOfResponse response ≠ some k) :
    (s.dispatchResponse response).outReqStates k = s.outReqStates k ∧
    (s.dispatchResponse response).deliveriesOf k = s.deliveriesOf k := by
  cases hj : slotOfResponse response with
  | none => simp [TransactionTracker.dispatchResponse, hj]
  | some j =>
    have hjk : k ≠ j := fun e => h (by rw [hj, e])
    rw [dispatchResponse_of_slot s response j hj]
    refine ⟨Function.update_noteq hjk _ _, ?_⟩
    have hb : (slotOfResponse response == some k) = false := by simpa using h
    simp [TransactionTracker.deliveriesOf, List.filter_append, hb]

theorem scanSlot_txQueue (nowNs : Nat) (s : TransactionTracker) (j : Slot) :
    (scanSlot nowNs s j).txQueue = s.txQueue := by
  unfold TransactionTracker.scanSlot
  dsimp only
  split
  · exact dispatchResponse_txQueue _ _
  · rfl

theorem scanSlot_dropped (nowNs : Nat) (s : TransactionTracker) (j : Slot) :
    (scanSlot nowNs s j).dropped = s.dropped := by
  unfold TransactionTracker.scanSlot
  dsimp only
  split
  · exact dispatchResponse_dropped _ _
  · rfl

theorem scanSlot_of_not_expired (nowNs : Nat) (s : TransactionTracker) (j : Slot)
    (h : ((s.outReqStates j).pending &&
      decide (nowNs - (s.outReqStates j).requestTimeNs > (s.outReqStates j).timeoutNs)) = false) :
    scanSlot nowNs s j = s := by
  simp only [TransactionTracker.scanSlot, h]
  rfl

theorem scanSlot_of_expired (nowNs : Nat) (s : TransactionTracker) (j : Slot)
    (hp : (s.outReqStates j).pending = true)
    (he : nowNs - (s.outReqStates j).requestTimeNs > (s.outReqStates j).timeoutNs) :
    scanSlot nowNs s j =
      { s with
        outReqStates := Function.update s.outReqStates j
          { s.outReqStates j with pending := false }
        delivered := s.delivered ++
          [Delivery.mk (timeoutResponse j (s.outReqStates j).transaction) true] } := by
  have hc : chppTimestampIncomingResponse (s.outReqStates j)
      (timeoutResponse j (s.outReqStates j).transaction) =
      (true, { s.outReqStates j with pending := false }) := by
    simp [TransactionTracker.chppTimestampIncomingResponse, hp,
      TransactionTracker.timeoutResponse]
  simp only [TransactionTracker.scanSlot, hp, he, decide_True, Bool.and_self, if_true]
  rw [dispatchResponse_of_slot s _ j (slotOfResponse_timeoutResponse j _), hc]
  simp

theorem scanSlot_other (nowNs : Nat) (s : TransactionTracker) (j k : Slot) (hjk : j ≠ k) :
    (scanSlot nowNs s j).outReqStates k = s.outReqStates k ∧
    (scanSlot nowNs s j).deliveriesOf k = s.deliveriesOf k := by
  by_cases hx : ((s.outReqStates j).pending &&
      decide (nowNs - (s.outReqStates j).requestTimeNs > (s.outReqStates j).timeoutNs)) = true
  · simp only [Bool.and_eq_true, decide_eq_true_eq] at hx
    rw [scanSlot_of_expired nowNs s j hx.1 hx.2]
    refine ⟨Function.update_noteq (Ne.symm hjk) _ _, ?_⟩
    have hb : (slotOfResponse (timeoutResponse j (s.outReqStates j).transaction) == some k)
        = false := by
      rw [slotOfResponse_timeoutResponse]; simpa using hjk
    simp [TransactionTracker.deliveriesOf, List.filter_append, hb]
  · simp only [Bool.not_eq_true] at hx
    rw [scanSlot_of_not_expired nowNs s j hx]
    exact ⟨rfl, rfl⟩


theorem request_matches_slot (j k : Slot) :
    (j.handle == k.handle && requestType j.kind == requestType k.kind &&
      j.command == k.command) = decide (j = k) := by
  obtain ⟨jk, jh, jc⟩ := j
  obtain ⟨kk, kh, kc⟩ := k
  rw [Bool.eq_iff_iff]
  cases jk <;> cases kk <;> simp [TransactionTracker.requestType]

theorem sendRequest_balanced (s : TransactionTracker) (j k : Slot) (timeoutNs nowNs : Nat)
    (h : Balanced s k) : Balanced (s.sendRequest j timeoutNs nowNs).2 k := by
  unfold TransactionTracker.sendRequest
  by_cases hp : (s.outReqStates j).pending = true
  · simpa [hp] using h
  · simp only [Bool.not_eq_true] at hp
    simp only [hp, Bool.false_eq_true, if_false]
    unfold Balanced at h ⊢
    by_cases hjk : j = k
    · subst hjk
      simp only [TransactionTracker.requestsOf, TransactionTracker.deliveriesOf,
        List.filter_append, Function.update_same, if_true, List.length_append] at h ⊢
      simp only [hp, Bool.false_eq_true, if_false] at h
      simp [request_matches_slot, h]
    · have hb := request_matches_slot j k
      simp only [TransactionTracker.requestsOf, TransactionTracker.deliveriesOf,
        List.filter_append, Function.update_noteq (Ne.symm hjk)] at h ⊢
      simp [hb, hjk, h]

theorem dispatchResponse_balanced (s : TransactionTracker) (response : ChppAppHeader)
    (k : Slot) (h : Balanced s k) : Balanced (s.dispatchResponse response) k := by
  by_cases hk : slotOfResponse response = some k
  · rw [dispatchResponse_of_slot s response k hk]
    unfold Balanced at h ⊢
    simp only [TransactionTracker.requestsOf, TransactionTracker.deliveriesOf,
      List.filter_append, Function.update_same, List.length_append] at h ⊢
    by_cases hp : (s.outReqStates k).pending = true
    · by_cases ht : response.transaction = (s.outReqStates k).transaction
      · simp [TransactionTracker.chppTimestampIncomingResponse, hp, ht, hk] at h ⊢
        omega
      · simp [TransactionTracker.chppTimestampIncomingResponse, hp, ht, hk] at h ⊢
        omega
    · simp only [Bool.not_eq_true] at hp
      simp [TransactionTracker.chppTimestampIncomingResponse, hp, hk] at h ⊢
      omega
  · obtain ⟨h1, h2⟩ := dispatchResponse_other s response k hk
    unfold Balanced at h ⊢
    rw [h1, h2]
    simpa [TransactionTracker.requestsOf, dispatchResponse_txQueue,
      dispatchResponse_dropped] using h


theorem scanSlot_balanced (nowNs : Nat) (s : TransactionTracker) (j k : Slot)
    (h : Balanced s k) : Balanced (scanSlot nowNs s j) k := by
  by_cases hx : ((s.outReqStates j).pending &&
      decide (nowNs - (s.outReqStates j).requestTimeNs > (s.outReqStates j).timeoutNs)) = true
  · simp only [Bool.and_eq_true, decide_eq_true_eq] at hx
    by_cases hjk : j = k
    · subst hjk
      rw [scanSlot_of_expired nowNs s j hx.1 hx.2]
      unfold Balanced at h ⊢
      simp only [TransactionTracker.requestsOf, TransactionTracker.deliveriesOf,
        List.filter_append, Function.update_same, List.length_append] at h ⊢
      simp [hx.1, slotOfResponse_timeoutResponse] at h ⊢
      omega
    · obtain ⟨h1, h2⟩ := scanSlot_other nowNs s j k hjk
      unfold Balanced at h ⊢
      rw [h1, h2]
      simpa [TransactionTracker.requestsOf, scanSlot_txQueue, scanSlot_dropped] using h
  · simp only [Bool.not_eq_true] at hx
    rw [scanSlot_of_not_expired nowNs s j hx]
    exact h

theorem resetSlot_balanced (s : TransactionTracker) (j k : Slot) (h : Balanced s k) :
    Balanced (resetSlot s j) k := by
  unfold TransactionTracker.resetSlot
  by_cases hp : (s.outReqStates j).pending = true
  · simp only [hp, if_true]
    unfold Balanced at h ⊢
    by_cases hjk : j = k
    · subst hjk
      simp only [TransactionTracker.requestsOf, TransactionTracker.deliveriesOf,
        List.filter_append, Function.update_same, List.length_append] at h ⊢
      simp [hp] at h ⊢
      omega
    · simp only [TransactionTracker.requestsOf, TransactionTracker.deliveriesOf,
        List.filter_append, Function.update_noteq (Ne.symm hjk), List.length_append] at h ⊢
      simp [hjk, h]
  · simpa [hp] using h

theorem step_balanced (s : TransactionTracker) (e : Event) (k : Slot) (h : Balanced s k) :
    Balanced (s.step e) k := by
  cases e with
  | sendRequest j timeoutNs nowNs => exact sendRequest_balanced s j k timeoutNs nowNs h
  | responseReceived response => exact dispatchResponse_balanced s response k h
  | scanForTimeouts nowNs =>
    show Balanced (s.registered.foldl (scanSlot nowNs) s) k
    generalize s.registered = l
    induction l generalizing s with
    | nil => exact h
    | cons x xs ih => exact ih _ (scanSlot_balanced nowNs s x k h)
  | reset =>
    show Balanced (s.registered.foldl resetSlot s) k
    generalize s.registered = l
    induction l generalizing s with
    | nil => exact h
    | cons x xs ih => exact ih _ (resetSlot_balanced s x k h)

theorem run_balanced (events : List Event) (s : TransactionTracker) (k : Slot)
    (h : Balanced s k) : Balanced (s.run events) k := by
  induction events generalizing s with
  | nil => exact h
  | cons e es ih => exact ih _ (step_balanced s e k h)

theorem init_balanced (registered : List Slot) (k : Slot) :
    Balanced (TransactionTracker.init registered) k := by
  simp [Balanced, TransactionTracker.init, TransactionTracker.requestsOf,
    TransactionTracker.deliveriesOf]

/-- C10: in every state the tracker reaches from its initial state, each (endpoint,
command) slot holds at most one outstanding request (a request accepted and not yet
completed by a correlated response): the count is 1 when the slot is pending and 0 when
it is idle; and a `sendRequest` on a pending slot is rejected with Busy and leaves the
whole tracker state unchanged. The events are requests, responses, timeout checks and
resets. -/
theorem sendRequest_at_most_one_outstanding (registered : List Slot) (events : List Event)
    (k : Slot) :
    ((TransactionTracker.init registered).run events).outstanding k ≤ 1 ∧
    ((TransactionTracker.init registered).run events).outstanding k =
      (if (((TransactionTracker.init registered).run events).outReqStates k).pending
        then 1 else 0) ∧
    ((((TransactionTracker.init registered).run events).outReqStates k).pending = true →
      ∀ timeoutNs nowNs : Nat,
        ((TransactionTracker.init registered).run events).sendRequest k timeoutNs nowNs =
          (Except.error SendError.busy, (TransactionTracker.init registered).run events)) := by
  have hb := run_balanced events _ k (init_balanced registered k)
  unfold Balanced at hb
  refine ⟨?_, ?_, ?_⟩
  · unfold TransactionTracker.outstanding
    split at hb <;> omega
  · unfold TransactionTracker.outstanding
    by_cases hp : (((TransactionTracker.init registered).run events).outReqStates k).pending = true
    · rw [if_pos hp] at hb ⊢
      omega
    · rw [if_neg hp] at hb ⊢
      omega
  · intro hp timeoutNs nowNs
    simp [TransactionTracker.sendRequest, hp]

theorem sendRequest_at_most_one_outstanding_witness :
    (((TransactionTracker.init testTracker.registered).run
        [Event.sendRequest (clientSlot kOk) kTestTimeoutNs 0]).outReqStates
          (clientSlot kOk)).pending = true ∧
    ((TransactionTracker.init testTracker.registered).run
        [Event.sendRequest (clientSlot kOk) kTestTimeoutNs 0]).outstanding (clientSlot kOk) ≤ 1 ∧
    ((TransactionTracker.init testTracker.registered).run
        [Event.sendRequest (clientSlot kOk) kTestTimeoutNs 0]).sendRequest (clientSlot kOk)
          kTestTimeoutNs 5 =
      (Except.error SendError.busy, (TransactionTracker.init testTracker.registered).run
        [Event.sendRequest (clientSlot kOk) kTestTimeoutNs 0]) :=
  ⟨by decide,
    (sendRequest_at_most_one_outstanding testTracker.registered
      [Event.sendRequest (clientSlot kOk) kTestTimeoutNs 0] (clientSlot kOk)).1,
    (sendRequest_at_most_one_outstanding testTracker.registered
      [Event.sendRequest (clientSlot kOk) kTestTimeoutNs 0] (clientSlot kOk)).2.2 (by decide)
      kTestTimeoutNs 5⟩

/-! ## Client death, restart broadcast, endpoint registry, re-registration -/

theorem modifyFirst_eq_map {α : Type} [DecidableEq α] (p : α → Bool) (f : α → α)
    (l : List α) (c : α) (hnd : l.Nodup) (hc : l.find? p = some c) :
    modifyFirst p f l = l.map (fun d => if d = c then f c else d) := by
  induction l with
  | nil => simp at hc
  | cons x xs ih =>
    rw [List.nodup_cons] at hnd
    unfold modifyFirst
    by_cases hpx : p x = true
    · have hx : x = c := by simpa [List.find?, hpx] using hc
      subst hx
      have htail : xs.map (fun d => if d = x then f x else d) = xs := by
        conv_rhs => rw [← List.map_id xs]
        apply List.map_congr_left
        intro d hd
        have : d ≠ x := fun e => hnd.1 (e ▸ hd)
        simp [this]
      simp [hpx, htail]
    · have hc2 : xs.find? p = some c := by simpa [List.find?, hpx] using hc
      have hpc : p c = true := List.find?_some hc2
      have hxc : x ≠ c := fun e => hpx (e ▸ hpc)
      simp [hpx, hxc, ih hnd.2 hc2]

theorem mClients_nodup (cfg : HalClientManagerConfig) (s : HalClientManager)
    (h : s.WellFormed cfg) : s.mClients.Nodup :=
  List.Nodup.of_map _ h.2.1

theorem count_handleChreRestart (s : HalClientManager) (x : Nat) :
    s.handleChreRestart.count x = s.mClients.countP (fun d => d.callback == some x) := by
  unfold HalClientManager.handleChreRestart
  induction s.mClients with
  | nil => rfl
  | cons d ds ih =>
    cases hd : d.callback with
    | none => simp [List.filterMap_cons, hd, ih]
    | some y =>
      by_cases hy : y = x
      · simp [List.filterMap_cons, hd, ih, hy]
      · simp [List.filterMap_cons, hd, ih, hy, List.count_cons]

/-- C12: `handleChreRestart` delivers the RESTARTED event once per client entry that
holds a callback (the number of deliveries to a callback is the number of entries
holding it). In a well-formed state, a connected client whose callback no other entry
holds is notified exactly once; after `handleClientDeath` of its pid cleared the
callback it is never notified, while every other callback is still notified as often
as before. -/
theorem handleChreRestart_connected_only (cfg : HalClientManagerConfig)
    (s : HalClientManager) (pid : Int) (c : HalClient) (cb : Nat) (h : s.WellFormed cfg)
    (hc : s.getClientByProcessId pid = some c) (hcb : c.callback = some cb)
    (huniq : ∀ d ∈ s.mClients, d.callback = some cb → d = c) :
    (∀ x, s.handleChreRestart.count x =
      s.mClients.countP (fun d => d.callback == some x)) ∧
    s.handleChreRestart.count cb = 1 ∧
    (s.handleClientDeath pid).handleChreRestart.count cb = 0 ∧
    (∀ x, x ≠ cb →
      (s.handleClientDeath pid).handleChreRestart.count x = s.handleChreRestart.count x) := by
  have hmem : c ∈ s.mClients := List.mem_of_find?_eq_some hc
  have hnd := mClients_nodup cfg s h
  have hmap : (s.handleClientDeath pid).mClients = s.mClients.map (fun d =>
      if d = c then { c with callback := none, pid := none, endpointIds := [] } else d) :=
    modifyFirst_eq_map _ _ _ c hnd hc
  refine ⟨count_handleChreRestart s, ?_, ?_, ?_⟩
  · rw [count_handleChreRestart, ← List.count_eq_one_of_mem hnd hmem, List.count_eq_countP]
    apply List.countP_congr
    intro d hd
    constructor
    · intro hdc
      have := huniq d hd (by simpa using hdc)
      simp [this]
    · intro hdc
      have : d = c := by simpa using hdc
      simp [this, hcb]
  · rw [count_handleChreRestart, hmap, List.countP_eq_zero]
    intro d hd
    obtain ⟨d0, hd0, rfl⟩ := List.mem_map.mp hd
    by_cases hdc : d0 = c
    · simp [hdc]
    · simp only [hdc, if_false]
      intro hx
      exact hdc (huniq d0 hd0 (by simpa using hx))
  · intro x hx
    rw [count_handleChreRestart, count_handleChreRestart, hmap, List.countP_map]
    apply List.countP_congr
    intro d _
    by_cases hdc : d = c
    · subst hdc
      simp [hcb, Ne.symm hx]
    · simp [hdc]

set_option maxRecDepth 100000 in
theorem handleChreRestart_connected_only_witness :
    twoClientManager.WellFormed testConfig ∧
    twoClientManager.getClientByProcessId kVendorPid = some vendorClient ∧
    vendorClient.callback = some 8 ∧
    (∀ d ∈ twoClientManager.mClients, d.callback = some 8 → d = vendorClient) ∧
    (twoClientManager.handleClientDeath kVendorPid).handleChreRestart.count 8 = 0 ∧
    (twoClientManager.handleClientDeath kVendorPid).handleChreRestart.count 7 =
      twoClientManager.handleChreRestart.count 7 ∧
    (twoClientManager.handleClientDeath kVendorPid).handleChreRestart = [7] :=
  ⟨by decide, by decide, by decide, by decide,
    (handleChreRestart_connected_only testConfig twoClientManager kVendorPid vendorClient 8
      (by decide) (by decide) (by decide) (by decide)).2.2.1,
    (handleChreRestart_connected_only testConfig twoClientManager kVendorPid vendorClient 8
      (by decide) (by decide) (by decide) (by decide)).2.2.2 7 (by decide),
    by decide⟩

theorem registerCallback_eq_of_known (cfg : HalClientManagerConfig) (s : HalClientManager)
    (pid : Int) (callback : Nat) (uuid : String) (persistOk : Bool) (clientId : Nat)
    (h : s.WellFormed cfg) (hm : (uuid, clientId) ∈ s.mappingFile) :
    s.registerCallback cfg pid callback uuid persistOk =
      (true, HalClientManager.mk (modifyFirst (fun c => c.uuid == uuid)
        (fun c => { c with pid := some pid, callback := some callback })
        (HalClientManager.detachOldCallback pid uuid s.mClients)) s.mappingFile) := by
  have hf := find?_mappingFile cfg s uuid clientId h hm
  have hdet := detachOldCallback_wellFormed cfg s.mClients s.mappingFile pid uuid h
  obtain ⟨x, hx, _⟩ := getClientByUuid_of_persisted cfg _ uuid clientId hdet hm
  have hx2 : (HalClientManager.detachOldCallback pid uuid s.mClients).find?
      (fun c => c.uuid == uuid) = some x := hx
  have hany : (HalClientManager.detachOldCallback pid uuid s.mClients).any
      (fun c => c.uuid == uuid) = true := by
    have hxu : (x.uuid == uuid) = true :=
      @List.find?_some _ (fun (c : HalClient) => c.uuid == uuid) _ _ hx2
    rw [List.any_eq_true]
    exact ⟨x, List.mem_of_find?_eq_some hx2, hxu⟩
  simp only [HalClientManager.registerCallback, hf, attachClient_of_known _ _ _ _ _ hany]

/-- C15: in a well-formed manager state, for a client already registered with uuid `U`
(entry `c`), a further `registerCallback` with the same uuid returns true, keeps the
number of client entries, leaves exactly one entry for `U`, and that entry holds the new
callback and pid under the unchanged client id. -/
theorem registerCallback_twice_same_client (cfg : HalClientManagerConfig)
    (s : HalClientManager) (pid : Int) (callback : Nat) (uuid : String) (persistOk : Bool)
    (c : HalClient) (h : s.WellFormed cfg) (hc : s.getClientByUuid uuid = some c) :
    (s.registerCallback cfg pid callback uuid persistOk).1 = true ∧
    (s.registerCallback cfg pid callback uuid persistOk).2.mClients.length =
      s.mClients.length ∧
    ((s.registerCallback cfg pid callback uuid persistOk).2.mClients.map
      fun d => d.uuid).count uuid = 1 ∧
    ∃ e, (s.registerCallback cfg pid callback uuid persistOk).2.getClientByUuid uuid = some e ∧
      e.callback = some callback ∧ e.pid = some pid ∧ e.clientId = c.clientId := by
  have hcu : (c.uuid == uuid) = true :=
    @List.find?_some _ (fun (c : HalClient) => c.uuid == uuid) _ _ hc
  have hu : c.uuid = uuid := by simpa using hcu
  have hm : (uuid, c.clientId) ∈ s.mappingFile := by
    rw [← h.1, ← hu]
    exact List.mem_map_of_mem (fun (c : HalClient) => (c.uuid, c.clientId))
      (List.mem_of_find?_eq_some hc)
  have hwf := registerCallback_wellFormed cfg s pid callback uuid persistOk h
  obtain ⟨h1, e, he, hid, hpid, hcb⟩ :=
    registerCallback_of_persisted cfg s pid callback uuid persistOk c.clientId h hm
  refine ⟨h1, ?_, ?_, e, he, hcb, hpid, hid⟩
  · rw [registerCallback_eq_of_known cfg s pid callback uuid persistOk c.clientId h hm]
    show (modifyFirst _ _ _).length = _
    rw [length_modifyFirst]
    exact length_modifyFirst _ _ _
  · apply List.count_eq_one_of_mem hwf.2.2.1
    have heu : (e.uuid == uuid) = true :=
      @List.find?_some _ (fun (c : HalClient) => c.uuid == uuid) _ _ he
    have heq : e.uuid = uuid := by simpa using heu
    have hmem := List.mem_map_of_mem (fun (d : HalClient) => d.uuid)
      (List.mem_of_find?_eq_some he)
    simp only [heq] at hmem
    exact hmem

theorem registerCallback_twice_same_client_witness :
    systemManager.WellFormed testConfig ∧
    systemManager.getClientByUuid kSystemServerUuid = some systemClient ∧
    (systemManager.registerCallback testConfig kSystemServerPid 9 kSystemServerUuid true).1 =
      true ∧
    (systemManager.registerCallback testConfig kSystemServerPid 9 kSystemServerUuid
      true).2.mClients.length = systemManager.mClients.length ∧
    (systemManager.registerCallback testConfig kSystemServerPid 9 kSystemServerUuid
      true).2.mClients = [{ systemClient with callback := some 9 }] :=
  ⟨by decide, by decide,
    (registerCallback_twice_same_client testConfig systemManager kSystemServerPid 9
      kSystemServerUuid true systemClient (by decide) (by decide)).1,
    (registerCallback_twice_same_client testConfig systemManager kSystemServerPid 9
      kSystemServerUuid true systemClient (by decide) (by decide)).2.1,
    by decide⟩

/-! ## WWAN service -/

theorem chppDispatchWwanRequestSwitch_of_command (env : WwanEnv) (ctx : WwanContext)
    (rxHeader : ChppAppHeader) (k : WwanRequestState)
    (hk : wwanRequestStateOfCommand env.commands rxHeader.command = some k) :
    chppDispatchWwanRequestSwitch env ctx rxHeader =
      { inReqState := some k
        error := (wwanHandler env (chppTimestampIncomingRequest env ctx k rxHeader) rxHeader k).1
        dispatched := true
        ctx := (wwanHandler env (chppTimestampIncomingRequest env ctx k rxHeader) rxHeader
          k).2 } := by
  unfold wwanRequestStateOfCommand at hk
  unfold chppDispatchWwanRequestSwitch
  split at hk
  · rename_i h1
    cases hk
    rw [if_pos h1]
    rfl
  · rename_i h1
    rw [if_neg h1]
    split at hk
    · rename_i h2
      cases hk
      rw [if_pos h2]
      rfl
    · rename_i h2
      rw [if_neg h2]
      split at hk
      · rename_i h3
        cases hk
        rw [if_pos h3]
        rfl
      · rename_i h3
        rw [if_neg h3]
        split at hk
        · rename_i h4
          cases hk
          rw [if_pos h4]
          rfl
        · cases hk

theorem wwanRequestStateOfCommand_wwanCommandOf (commands : ChppWwanCommands)
    (k : WwanRequestState) :
    wwanRequestStateOfCommand commands (wwanCommandOf commands k) = some k := by
  have hd := commands.distinct
  simp only [List.nodup_cons, List.mem_cons, List.mem_singleton, not_or, List.not_mem_nil,
    not_false_eq_true, and_true, List.nodup_nil] at hd
  obtain ⟨⟨h12, h13, h14⟩, ⟨h23, h24⟩, h34⟩ := hd
  cases k with
  | open_ => simp [wwanRequestStateOfCommand, wwanCommandOf]
  | close => simp [wwanRequestStateOfCommand, wwanCommandOf, Ne.symm h12]
  | getCapabilities =>
    simp [wwanRequestStateOfCommand, wwanCommandOf, Ne.symm h13, Ne.symm h23]
  | getCellInfoAsync =>
    simp [wwanRequestStateOfCommand, wwanCommandOf, Ne.symm h14, Ne.symm h24, Ne.symm h34]

theorem wwanRequestStateOfCommand_eq_none (commands : ChppWwanCommands) (command : Nat)
    (h : ∀ k, command ≠ wwanCommandOf commands k) :
    wwanRequestStateOfCommand commands command = none := by
  have h1 := h WwanRequestState.open_
  have h2 := h WwanRequestState.close
  have h3 := h WwanRequestState.getCapabilities
  have h4 := h WwanRequestState.getCellInfoAsync
  simp only [wwanCommandOf] at h1 h2 h3 h4
  simp [wwanRequestStateOfCommand, h1, h2, h3, h4]

theorem wwanHandler_of_error (env : WwanEnv) (ctx : WwanContext) (requestHeader : ChppAppHeader)
    (k : WwanRequestState)
    (herr : (wwanHandler env ctx requestHeader k).1 ≠ ChppAppErrorCode.CHPP_APP_ERROR_NONE) :
    ∃ palCalls, (∀ c ∈ palCalls, c.isPal = true) ∧
      (wwanHandler env ctx requestHeader k).2.calls = ctx.calls ++ palCalls ∧
      (wwanHandler env ctx requestHeader k).2.get k = ctx.get k := by
  cases k with
  | open_ =>
    simp only [wwanHandler, chppWwanServiceOpen] at herr ⊢
    split
    · exact ⟨[], by simp, by simp, rfl⟩
    · split
      · exact ⟨[WwanCall.palOpen], by simp [WwanCall.isPal], rfl, rfl⟩
      · split
        · exact ⟨[WwanCall.palOpen], by simp [WwanCall.isPal], rfl, rfl⟩
        · rename_i h1 h2 _ _ h3
          simp [h1, h2, h3] at herr
  | close =>
    simp only [wwanHandler, chppWwanServiceClose] at herr ⊢
    split
    · exact ⟨[WwanCall.palClose], by simp [WwanCall.isPal], rfl, rfl⟩
    · rename_i h3
      simp [h3] at herr
  | getCapabilities =>
    simp only [wwanHandler, chppWwanServiceGetCapabilities] at herr ⊢
    split
    · exact ⟨[], by simp, by simp, rfl⟩
    · rename_i h3
      simp [h3] at herr
  | getCellInfoAsync =>
    simp only [wwanHandler, chppWwanServiceGetCellInfoAsync] at herr ⊢
    split
    · exact ⟨[WwanCall.palRequestCellInfo], by simp [WwanCall.isPal], rfl, rfl⟩
    · rename_i h3
      simp [h3] at herr


theorem WwanContext.get_set (ctx : WwanContext) (k : WwanRequestState)
    (value : ChppIncomingRequestState) : (ctx.set k value).get k = value := by
  cases k <;> rfl

theorem WwanContext.calls_set (ctx : WwanContext) (k : WwanRequestState)
    (value : ChppIncomingRequestState) : (ctx.set k value).calls = ctx.calls := by
  cases k <;> rfl

theorem WwanContext.get_call (ctx : WwanContext) (k : WwanRequestState) (c : WwanCall) :
    (ctx.call c).get k = ctx.get k := by
  cases k <;> rfl

/-- C16: when `chppDispatchWwanRequest` receives a request whose command is one of
`CHPP_WWAN_OPEN`, `CHPP_WWAN_CLOSE`, `CHPP_WWAN_GET_CAPABILITIES` and
`CHPP_WWAN_GET_CELLINFO_ASYNC`, and the handler of the command returns an error other than
`CHPP_APP_ERROR_NONE`, then the dispatch returns that error; the calls it makes are
`chppTimestampIncomingRequest` on the state of the command, then calls into the PAL only
(no response is sent), then `chppTimestampOutgoingResponse` on the same state, once; and
the state of the command ends closed out, holding the transaction id of the request. -/
theorem chppDispatchWwanRequest_closes_out_on_error (env : WwanEnv) (ctx : WwanContext)
    (rxHeader : ChppAppHeader) (k : WwanRequestState)
    (hcmd : rxHeader.command = wwanCommandOf env.commands k)
    (herr : (wwanHandler env (chppTimestampIncomingRequest env ctx k rxHeader) rxHeader k).1 ≠
      ChppAppErrorCode.CHPP_APP_ERROR_NONE) :
    (chppDispatchWwanRequest env ctx rxHeader).1 =
      (wwanHandler env (chppTimestampIncomingRequest env ctx k rxHeader) rxHeader k).1 ∧
    (∃ palCalls, (∀ c ∈ palCalls, c.isPal = true) ∧
      (chppDispatchWwanRequest env ctx rxHeader).2.calls =
        ctx.calls ++ [WwanCall.chppTimestampIncomingRequest k rxHeader] ++ palCalls ++
          [WwanCall.chppTimestampOutgoingResponse (some k)]) ∧
    (chppDispatchWwanRequest env ctx rxHeader).2.get k =
      { transaction := rxHeader.transaction, requestTimeNs := env.nowNs, pending := false } := by
  have hk : wwanRequestStateOfCommand env.commands rxHeader.command = some k := by
    rw [hcmd]; exact wwanRequestStateOfCommand_wwanCommandOf env.commands k
  have hsw := chppDispatchWwanRequestSwitch_of_command env ctx rxHeader k hk
  obtain ⟨palCalls, hpal, hcalls, hget⟩ :=
    wwanHandler_of_error env (chppTimestampIncomingRequest env ctx k rxHeader) rxHeader k herr
  have hb : ((wwanHandler env (chppTimestampIncomingRequest env ctx k rxHeader) rxHeader k).1 !=
      ChppAppErrorCode.CHPP_APP_ERROR_NONE) = true := by simpa using herr
  have hd : chppDispatchWwanRequest env ctx rxHeader =
      ((wwanHandler env (chppTimestampIncomingRequest env ctx k rxHeader) rxHeader k).1,
        chppTimestampOutgoingResponse
          (wwanHandler env (chppTimestampIncomingRequest env ctx k rxHeader) rxHeader k).2
          (some k)) := by
    simp only [chppDispatchWwanRequest, hsw, hb, beq_self_eq_true, Bool.and_self, if_true]
  rw [hd]
  refine ⟨rfl, ⟨palCalls, hpal, ?_⟩, ?_⟩
  · have hin : (chppTimestampIncomingRequest env ctx k rxHeader).calls =
        ctx.calls ++ [WwanCall.chppTimestampIncomingRequest k rxHeader] := by
      simp only [chppTimestampIncomingRequest, WwanContext.call, WwanContext.calls_set]
    rw [hin] at hcalls
    simp only [chppTimestampOutgoingResponse, WwanContext.call, WwanContext.calls_set, hcalls]
  · have hin : (chppTimestampIncomingRequest env ctx k rxHeader).get k =
        { transaction := rxHeader.transaction, requestTimeNs := env.nowNs, pending := true } := by
      simp only [chppTimestampIncomingRequest, WwanContext.get_call, WwanContext.get_set]
    rw [hin] at hget
    simp only [chppTimestampOutgoingResponse, WwanContext.get_call, WwanContext.get_set, hget]

theorem chppDispatchWwanRequest_closes_out_on_error_witness :
    (wwanRequest 0).command = wwanCommandOf palOpenFailsEnv.commands WwanRequestState.open_ ∧
    (wwanHandler palOpenFailsEnv
      (chppTimestampIncomingRequest palOpenFailsEnv
        (wwanContext ChppOpenState.CHPP_OPEN_STATE_CLOSED) WwanRequestState.open_
        (wwanRequest 0))
      (wwanRequest 0) WwanRequestState.open_).1 ≠ ChppAppErrorCode.CHPP_APP_ERROR_NONE ∧
    (chppDispatchWwanRequest palOpenFailsEnv (wwanContext ChppOpenState.CHPP_OPEN_STATE_CLOSED)
      (wwanRequest 0)).1 = ChppAppErrorCode.CHPP_APP_ERROR_BEYOND_CHPP ∧
    (chppDispatchWwanRequest palOpenFailsEnv (wwanContext ChppOpenState.CHPP_OPEN_STATE_CLOSED)
      (wwanRequest 0)).2.get WwanRequestState.open_ =
      { transaction := 5, requestTimeNs := 1000, pending := false } :=
  ⟨by decide, by decide,
    (chppDispatchWwanRequest_closes_out_on_error palOpenFailsEnv
      (wwanContext ChppOpenState.CHPP_OPEN_STATE_CLOSED) (wwanRequest 0)
      WwanRequestState.open_ (by decide) (by decide)).1,
    (chppDispatchWwanRequest_closes_out_on_error palOpenFailsEnv
      (wwanContext ChppOpenState.CHPP_OPEN_STATE_CLOSED) (wwanRequest 0)
      WwanRequestState.open_ (by decide) (by decide)).2.2⟩

/-- C17: for a request whose command is none of the four WWAN commands,
`chppDispatchWwanRequest` returns `CHPP_APP_ERROR_INVALID_COMMAND` and leaves the service
state and the calls made so far as they were: it calls no PAL function, timestamps and
closes out no incoming request (in particular `chppTimestampOutgoingResponse` is not
reached with the null `inReqState`), and the open state is unchanged. -/
theorem chppDispatchWwanRequest_invalid_command (env : WwanEnv) (ctx : WwanContext)
    (rxHeader : ChppAppHeader)
    (h : ∀ k, rxHeader.command ≠ wwanCommandOf env.commands k) :
    chppDispatchWwanRequest env ctx rxHeader =
      (ChppAppErrorCode.CHPP_APP_ERROR_INVALID_COMMAND, ctx) := by
  have h1 := h WwanRequestState.open_
  have h2 := h WwanRequestState.close
  have h3 := h WwanRequestState.getCapabilities
  have h4 := h WwanRequestState.getCellInfoAsync
  simp only [wwanCommandOf] at h1 h2 h3 h4
  simp [chppDispatchWwanRequest, chppDispatchWwanRequestSwitch, h1, h2, h3, h4]

theorem chppDispatchWwanRequest_invalid_command_witness :
    (∀ k, (wwanRequest 99).command ≠ wwanCommandOf palOpenFailsEnv.commands k) ∧
    chppDispatchWwanRequest palOpenFailsEnv (wwanContext ChppOpenState.CHPP_OPEN_STATE_OPENED)
      (wwanRequest 99) =
      (ChppAppErrorCode.CHPP_APP_ERROR_INVALID_COMMAND,
        wwanContext ChppOpenState.CHPP_OPEN_STATE_OPENED) :=
  ⟨fun k => by cases k <;> decide,
    chppDispatchWwanRequest_invalid_command palOpenFailsEnv
      (wwanContext ChppOpenState.CHPP_OPEN_STATE_OPENED) (wwanRequest 99)
      (fun k => by cases k <;> decide)⟩

/-- C20: after `chppWwanServiceNotifyReset` the open state of the WWAN service is not
`CHPP_OPEN_STATE_OPENED`: if it was `CHPP_OPEN_STATE_OPENED` it becomes
`CHPP_OPEN_STATE_CLOSED` and the PAL `close()` is called exactly once, nothing else
changing; if it was not, the state is unchanged and nothing is called. -/
theorem chppWwanServiceNotifyReset_closes (ctx : WwanContext) :
    (chppWwanServiceNotifyReset ctx).state.service.openState ≠
      ChppOpenState.CHPP_OPEN_STATE_OPENED ∧
    (ctx.state.service.openState = ChppOpenState.CHPP_OPEN_STATE_OPENED →
      chppWwanServiceNotifyReset ctx =
        { state := { ctx.state with service :=
            { ctx.state.service with openState := ChppOpenState.CHPP_OPEN_STATE_CLOSED } }
          calls := ctx.calls ++ [WwanCall.palClose] }) ∧
    (ctx.state.service.openState ≠ ChppOpenState.CHPP_OPEN_STATE_OPENED →
      chppWwanServiceNotifyReset ctx = ctx) := by
  refine ⟨?_, ?_, ?_⟩
  · unfold chppWwanServiceNotifyReset
    split
    · rename_i h; exact h
    · simp [WwanContext.call]
  · intro h
    simp [chppWwanServiceNotifyReset, h, WwanContext.call]
  · intro h
    simp [chppWwanServiceNotifyReset, h]

theorem chppWwanServiceNotifyReset_closes_witness :
    (wwanContext ChppOpenState.CHPP_OPEN_STATE_OPENED).state.service.openState =
      ChppOpenState.CHPP_OPEN_STATE_OPENED ∧
    chppWwanServiceNotifyReset (wwanContext ChppOpenState.CHPP_OPEN_STATE_OPENED) =
      { state := (wwanContext ChppOpenState.CHPP_OPEN_STATE_CLOSED).state
        calls := [WwanCall.palClose] } ∧
    (wwanContext (ChppOpenState.CHPP_OPEN_STATE_OTHER 2)).state.service.openState ≠
      ChppOpenState.CHPP_OPEN_STATE_OPENED ∧
    chppWwanServiceNotifyReset (wwanContext (ChppOpenState.CHPP_OPEN_STATE_OTHER 2)) =
      wwanContext (ChppOpenState.CHPP_OPEN_STATE_OTHER 2) :=
  ⟨rfl,
    (chppWwanServiceNotifyReset_closes
      (wwanContext ChppOpenState.CHPP_OPEN_STATE_OPENED)).2.1 rfl,
    by decide,
    (chppWwanServiceNotifyReset_closes
      (wwanContext (ChppOpenState.CHPP_OPEN_STATE_OTHER 2))).2.2 (by decide)⟩

/-! ## Callback boundary of the generic AIDL context hub -/

/-- C18: in a state of `ContextHub` where no callback is registered, `onNanoappMessage`,
`onNanoappListResponse`, `onTransactionResult` and `onContextHubRestarted` call no method
of `IContextHubCallback`; in a state where the callback `cb` is registered each of them
makes exactly one call, of the corresponding handler, on `cb`. None of the four changes
the registration. No callback is registered initially, after `registerCallback` with a
null callback (for the hub id `kDefaultHubId`; for another hub id the call fails with
`EX_ILLEGAL_ARGUMENT` and changes nothing) and after `handleServiceDeath`. -/
theorem contextHub_callbacks_need_registration
    (chreToAndroidPermissions : Nat → List String) (s : ContextHub)
    (message : NanoappMessageT) (nanoapps : List (Option NanoappListEntryT))
    (transactionId : Nat) (success : Bool) :
    (s.mCallback = none →
      (s.onNanoappMessage chreToAndroidPermissions message).2 = [] ∧
      (s.onNanoappListResponse chreToAndroidPermissions nanoapps).2 = [] ∧
      (s.onTransactionResult transactionId success).2 = [] ∧
      s.onContextHubRestarted.2 = []) ∧
    (∀ cb, s.mCallback = some cb →
      (∃ outMessage perms, (s.onNanoappMessage chreToAndroidPermissions message).2 =
        [CallbackCall.handleContextHubMessage cb outMessage perms]) ∧
      (∃ appInfo, (s.onNanoappListResponse chreToAndroidPermissions nanoapps).2 =
        [CallbackCall.handleNanoappInfo cb appInfo]) ∧
      (s.onTransactionResult transactionId success).2 =
        [CallbackCall.handleTransactionResult cb (ContextHub.toInt32 transactionId) success] ∧
      s.onContextHubRestarted.2 =
        [CallbackCall.handleContextHubAsyncEvent cb AsyncEventType.RESTARTED]) ∧
    ((s.onNanoappMessage chreToAndroidPermissions message).1.mCallback = s.mCallback ∧
      (s.onNanoappListResponse chreToAndroidPermissions nanoapps).1.mCallback = s.mCallback ∧
      (s.onTransactionResult transactionId success).1.mCallback = s.mCallback ∧
      s.onContextHubRestarted.1.mCallback = s.mCallback) ∧
    (ContextHub.initial.mCallback = none ∧
      (s.registerCallback kDefaultHubId none).2.mCallback = none ∧
      (∀ contextHubId cb, contextHubId ≠ kDefaultHubId →
        s.registerCallback contextHubId cb = (ScopedAStatus.EX_ILLEGAL_ARGUMENT, s)) ∧
      s.handleServiceDeath.mCallback = none) := by
  refine ⟨fun h => ?_, fun cb h => ?_, ?_, rfl, ?_, fun i cb hi => ?_, rfl⟩
  · simp [ContextHub.onNanoappMessage, ContextHub.onNanoappListResponse,
      ContextHub.onTransactionResult, ContextHub.onContextHubRestarted, h]
  · simp [ContextHub.onNanoappMessage, ContextHub.onNanoappListResponse,
      ContextHub.onTransactionResult, ContextHub.onContextHubRestarted, h]
  · cases h : s.mCallback <;>
      simp [ContextHub.onNanoappMessage, ContextHub.onNanoappListResponse,
        ContextHub.onTransactionResult, ContextHub.onContextHubRestarted, h]
  · simp [ContextHub.registerCallback]
  · simp [ContextHub.registerCallback, hi]

theorem contextHub_callbacks_need_registration_witness :
    registeredContextHub.mCallback = some 7 ∧
    (registeredContextHub.onTransactionResult 3 true).2 =
      [CallbackCall.handleTransactionResult 7 3 true] ∧
    registeredContextHub.onContextHubRestarted.2 =
      [CallbackCall.handleContextHubAsyncEvent 7 AsyncEventType.RESTARTED] ∧
    registeredContextHub.handleServiceDeath.mCallback = none ∧
    (registeredContextHub.handleServiceDeath.onNanoappMessage (fun _ => []) nanoappMessage).2 =
      [] ∧
    (registeredContextHub.handleServiceDeath.onTransactionResult 3 true).2 = [] :=
  ⟨rfl,
    ((contextHub_callbacks_need_registration (fun _ => []) registeredContextHub nanoappMessage
      [] 3 true).2.1 7 rfl).2.2.1,
    ((contextHub_callbacks_need_registration (fun _ => []) registeredContextHub nanoappMessage
      [] 3 true).2.1 7 rfl).2.2.2,
    rfl,
    ((contextHub_callbacks_need_registration (fun _ => [])
      registeredContextHub.handleServiceDeath nanoappMessage [] 3 true).1 rfl).1,
    ((contextHub_callbacks_need_registration (fun _ => [])
      registeredContextHub.handleServiceDeath nanoappMessage [] 3 true).1 rfl).2.2.1⟩

/-! ## Sensor configuration with a batch interval -/

/-- C19: `chreSensorConfigureWithBatchInterval` on `uint64_t` intervals: for
`sampleInterval = CHRE_SENSOR_INTERVAL_DEFAULT` it returns false and does not call
`chreSensorConfigure`; otherwise it calls `chreSensorConfigure(handle, mode,
sampleInterval, L)` once and returns its result, where `L` is
`CHRE_SENSOR_LATENCY_DEFAULT` if `batchInterval = CHRE_SENSOR_BATCH_INTERVAL_DEFAULT`,
else `batchInterval - sampleInterval` if `batchInterval > sampleInterval` (the
subtraction does not wrap: `sampleInterval + L = batchInterval`), else
`CHRE_SENSOR_LATENCY_ASAP = 0`. -/
theorem chreSensorConfigureWithBatchInterval_latency
    (chreSensorConfigure : SensorConfigureCall → Bool)
    (sensorHandle mode sampleInterval batchInterval : Nat)
    (hs : sampleInterval < 2 ^ 64) (hb : batchInterval < 2 ^ 64) :
    (sampleInterval = CHRE_SENSOR_INTERVAL_DEFAULT →
      chreSensorConfigureWithBatchInterval chreSensorConfigure sensorHandle mode
        sampleInterval batchInterval = (false, [])) ∧
    (sampleInterval ≠ CHRE_SENSOR_INTERVAL_DEFAULT →
      ∃ L, L < 2 ^ 64 ∧
        chreSensorConfigureWithBatchInterval chreSensorConfigure sensorHandle mode
          sampleInterval batchInterval =
          (chreSensorConfigure (SensorConfigureCall.mk sensorHandle mode sampleInterval L),
            [SensorConfigureCall.mk sensorHandle mode sampleInterval L]) ∧
        (batchInterval = CHRE_SENSOR_BATCH_INTERVAL_DEFAULT →
          L = CHRE_SENSOR_LATENCY_DEFAULT) ∧
        (batchInterval ≠ CHRE_SENSOR_BATCH_INTERVAL_DEFAULT → batchInterval > sampleInterval →
          L = batchInterval - sampleInterval ∧ sampleInterval + L = batchInterval) ∧
        (batchInterval ≠ CHRE_SENSOR_BATCH_INTERVAL_DEFAULT → ¬ batchInterval > sampleInterval →
          L = CHRE_SENSOR_LATENCY_ASAP ∧ L = 0)) := by
  refine ⟨fun h => by simp [chreSensorConfigureWithBatchInterval, h], fun h => ?_⟩
  by_cases hd : batchInterval = CHRE_SENSOR_BATCH_INTERVAL_DEFAULT
  · refine ⟨CHRE_SENSOR_LATENCY_DEFAULT, by decide, ?_, fun _ => rfl, fun hn => absurd hd hn,
      fun hn => absurd hd hn⟩
    simp [chreSensorConfigureWithBatchInterval, h, hd]
  · by_cases hgt : batchInterval > sampleInterval
    · have hL : (batchInterval + 2 ^ 64 - sampleInterval) % 2 ^ 64 =
          batchInterval - sampleInterval := by omega
      refine ⟨batchInterval - sampleInterval, by omega, ?_, fun hn => absurd hn hd,
        fun _ _ => ⟨rfl, by omega⟩, fun _ hn => absurd hgt hn⟩
      simp only [chreSensorConfigureWithBatchInterval, if_pos h, if_neg hd, if_pos hgt, hL]
    · refine ⟨CHRE_SENSOR_LATENCY_ASAP, by decide, ?_, fun hn => absurd hn hd,
        fun _ hn => absurd hn hgt, fun _ _ => ⟨rfl, rfl⟩⟩
      simp [chreSensorConfigureWithBatchInterval, h, hd, hgt]

theorem chreSensorConfigureWithBatchInterval_latency_witness :
    (1000 : Nat) < 2 ^ 64 ∧ (5000 : Nat) < 2 ^ 64 ∧
    (1000 ≠ CHRE_SENSOR_INTERVAL_DEFAULT →
      ∃ L, L < 2 ^ 64 ∧
        chreSensorConfigureWithBatchInterval acceptingSensorConfigure 1 3 1000 5000 =
          (acceptingSensorConfigure (SensorConfigureCall.mk 1 3 1000 L),
            [SensorConfigureCall.mk 1 3 1000 L]) ∧
        (5000 = CHRE_SENSOR_BATCH_INTERVAL_DEFAULT → L = CHRE_SENSOR_LATENCY_DEFAULT) ∧
        (5000 ≠ CHRE_SENSOR_BATCH_INTERVAL_DEFAULT → 5000 > 1000 →
          L = 5000 - 1000 ∧ 1000 + L = 5000) ∧
        (5000 ≠ CHRE_SENSOR_BATCH_INTERVAL_DEFAULT → ¬ 5000 > 1000 →
          L = CHRE_SENSOR_LATENCY_ASAP ∧ L = 0)) ∧
    chreSensorConfigureWithBatchInterval acceptingSensorConfigure 1 3 1000 5000 =
      (true, [SensorConfigureCall.mk 1 3 1000 4000]) :=
  ⟨by decide, by decide,
    (chreSensorConfigureWithBatchInterval_latency acceptingSensorConfigure 1 3 1000 5000
      (by decide) (by decide)).2,
    by decide⟩

/-! ## Open state of the WWAN service after an open request -/

/-- C26, as stated, fails: when the PAL opens and the allocation of the response fails,
`chppWwanServiceOpen` returns `CHPP_APP_ERROR_OOM` and the open state, which was
`CHPP_OPEN_STATE_CLOSED`, is `CHPP_OPEN_STATE_OPENED`; so an error return does not always
leave the open state as it was. -/
theorem chppWwanServiceOpen_oom_leaves_opened :
    (chppWwanServiceOpen allocFailsEnv (wwanContext ChppOpenState.CHPP_OPEN_STATE_CLOSED)
      (wwanRequest 0)).1 = ChppAppErrorCode.CHPP_APP_ERROR_OOM ∧
    (chppWwanServiceOpen allocFailsEnv (wwanContext ChppOpenState.CHPP_OPEN_STATE_CLOSED)
      (wwanRequest 0)).2.state.service.openState = ChppOpenState.CHPP_OPEN_STATE_OPENED ∧
    ¬ (∀ (env : WwanEnv) (ctx : WwanContext) (requestHeader : ChppAppHeader),
      (chppWwanServiceOpen env ctx requestHeader).1 ≠ ChppAppErrorCode.CHPP_APP_ERROR_NONE →
      (chppWwanServiceOpen env ctx requestHeader).2.state.service.openState =
        ctx.state.service.openState) := by
  refine ⟨by decide, by decide, fun h => ?_⟩
  have h1 := h allocFailsEnv (wwanContext ChppOpenState.CHPP_OPEN_STATE_CLOSED)
    (wwanRequest 0) (by decide)
  revert h1
  decide

/-- C26, amended: for every open request, `chppWwanServiceOpen` returns one of
`CHPP_APP_ERROR_NONE`, `CHPP_APP_ERROR_INVALID_COMMAND`, `CHPP_APP_ERROR_BEYOND_CHPP` and
`CHPP_APP_ERROR_OOM`. With `CHPP_APP_ERROR_INVALID_COMMAND` (service already open) nothing
changes and nothing is called; with `CHPP_APP_ERROR_BEYOND_CHPP` (PAL open failure) the
service state is as before the call. With `CHPP_APP_ERROR_OOM` (response allocation
failure) the PAL has been opened, the open state is `CHPP_OPEN_STATE_OPENED` and no
response is sent. With `CHPP_APP_ERROR_NONE` the open state is `CHPP_OPEN_STATE_OPENED`
and exactly one response is sent. The open state becomes `CHPP_OPEN_STATE_OPENED` only
together with a successful PAL open and a returned `CHPP_APP_ERROR_NONE` or
`CHPP_APP_ERROR_OOM`. -/
theorem chppWwanServiceOpen_open_state (env : WwanEnv) (ctx : WwanContext)
    (requestHeader : ChppAppHeader) :
    ((chppWwanServiceOpen env ctx requestHeader).1 = ChppAppErrorCode.CHPP_APP_ERROR_NONE ∨
      (chppWwanServiceOpen env ctx requestHeader).1 =
        ChppAppErrorCode.CHPP_APP_ERROR_INVALID_COMMAND ∨
      (chppWwanServiceOpen env ctx requestHeader).1 =
        ChppAppErrorCode.CHPP_APP_ERROR_BEYOND_CHPP ∨
      (chppWwanServiceOpen env ctx requestHeader).1 = ChppAppErrorCode.CHPP_APP_ERROR_OOM) ∧
    ((chppWwanServiceOpen env ctx requestHeader).1 =
        ChppAppErrorCode.CHPP_APP_ERROR_INVALID_COMMAND →
      ctx.state.service.openState = ChppOpenState.CHPP_OPEN_STATE_OPENED ∧
      (chppWwanServiceOpen env ctx requestHeader).2 = ctx) ∧
    ((chppWwanServiceOpen env ctx requestHeader).1 =
        ChppAppErrorCode.CHPP_APP_ERROR_BEYOND_CHPP →
      env.palOpen = false ∧
      (chppWwanServiceOpen env ctx requestHeader).2.state = ctx.state ∧
      (chppWwanServiceOpen env ctx requestHeader).2.calls = ctx.calls ++ [WwanCall.palOpen]) ∧
    ((chppWwanServiceOpen env ctx requestHeader).1 = ChppAppErrorCode.CHPP_APP_ERROR_OOM →
      ctx.state.service.openState ≠ ChppOpenState.CHPP_OPEN_STATE_OPENED ∧
      env.palOpen = true ∧
      (chppWwanServiceOpen env ctx requestHeader).2.state.service.openState =
        ChppOpenState.CHPP_OPEN_STATE_OPENED ∧
      (chppWwanServiceOpen env ctx requestHeader).2.calls = ctx.calls ++ [WwanCall.palOpen]) ∧
    ((chppWwanServiceOpen env ctx requestHeader).1 = ChppAppErrorCode.CHPP_APP_ERROR_NONE →
      ctx.state.service.openState ≠ ChppOpenState.CHPP_OPEN_STATE_OPENED ∧
      env.palOpen = true ∧
      (chppWwanServiceOpen env ctx requestHeader).2.state.service.openState =
        ChppOpenState.CHPP_OPEN_STATE_OPENED ∧
      ∃ response, env.chppAllocResponseFixed requestHeader = some response ∧
        (chppWwanServiceOpen env ctx requestHeader).2.calls =
          ctx.calls ++ [WwanCall.palOpen,
            WwanCall.chppSendTimestampedResponseOrFail WwanRequestState.open_
              { header := response, params := [] } env.sizeofChppAppHeader]) ∧
    ((chppWwanServiceOpen env ctx requestHeader).2.state.service.openState =
        ChppOpenState.CHPP_OPEN_STATE_OPENED →
      ctx.state.service.openState ≠ ChppOpenState.CHPP_OPEN_STATE_OPENED →
      env.palOpen = true ∧
      ((chppWwanServiceOpen env ctx requestHeader).1 = ChppAppErrorCode.CHPP_APP_ERROR_NONE ∨
        (chppWwanServiceOpen env ctx requestHeader).1 =
          ChppAppErrorCode.CHPP_APP_ERROR_OOM)) := by
  unfold chppWwanServiceOpen
  by_cases ho : ctx.state.service.openState = ChppOpenState.CHPP_OPEN_STATE_OPENED
  · simp [ho]
  · cases hp : env.palOpen
    · simp [ho, hp, WwanContext.call]
    · cases ha : env.chppAllocResponseFixed requestHeader with
      | none => simp [ho, hp, ha, WwanContext.call]
      | some response =>
        simp [ho, hp, ha, WwanContext.call, chppSendTimestampedResponseOrFail,
          WwanContext.set]

theorem chppWwanServiceOpen_open_state_witness :
    (chppWwanServiceOpen palOpensEnv (wwanContext ChppOpenState.CHPP_OPEN_STATE_CLOSED)
      (wwanRequest 0)).1 = ChppAppErrorCode.CHPP_APP_ERROR_NONE ∧
    (chppWwanServiceOpen palOpensEnv (wwanContext ChppOpenState.CHPP_OPEN_STATE_CLOSED)
      (wwanRequest 0)).2.state.service.openState = ChppOpenState.CHPP_OPEN_STATE_OPENED ∧
    (chppWwanServiceOpen palOpenFailsEnv (wwanContext ChppOpenState.CHPP_OPEN_STATE_CLOSED)
      (wwanRequest 0)).1 = ChppAppErrorCode.CHPP_APP_ERROR_BEYOND_CHPP ∧
    (chppWwanServiceOpen palOpenFailsEnv (wwanContext ChppOpenState.CHPP_OPEN_STATE_CLOSED)
      (wwanRequest 0)).2.state = (wwanContext ChppOpenState.CHPP_OPEN_STATE_CLOSED).state :=
  ⟨by decide,
    ((chppWwanServiceOpen_open_state palOpensEnv
      (wwanContext ChppOpenState.CHPP_OPEN_STATE_CLOSED) (wwanRequest 0)).2.2.2.2.1
      (by decide)).2.2.1,
    by decide,
    ((chppWwanServiceOpen_open_state palOpenFailsEnv
      (wwanContext ChppOpenState.CHPP_OPEN_STATE_CLOSED) (wwanRequest 0)).2.2.1
      (by decide)).2.1⟩

/-! ## WiFi availability of the generic AIDL context hub -/

theorem updateBleAvailable_frame (s : ContextHub) :
    s.updateBleAvailable.1.mSettingEnabled = s.mSettingEnabled ∧
    s.updateBleAvailable.1.mIsWifiAvailable = s.mIsWifiAvailable ∧
    ∀ n ∈ s.updateBleAvailable.2, n.fbsSetting = FbsSetting.BLE_AVAILABLE := by
  unfold ContextHub.updateBleAvailable
  simp only []
  split <;> simp

theorem forwardSetting_not_wifi (setting : Setting) (enabled : Bool) :
    ∀ n ∈ ContextHub.forwardSetting setting enabled,
      n.fbsSetting ≠ FbsSetting.WIFI_AVAILABLE := by
  cases setting <;> simp [ContextHub.forwardSetting, getFbsSetting]

theorem updateWifiAvailable_spec (s : ContextHub) (avail : Bool)
    (havail : avail = (if s.isSettingEnabled Setting.AIRPLANE_MODE
      then s.isSettingEnabled Setting.WIFI_MAIN
      else (s.isSettingEnabled Setting.WIFI_MAIN ||
        s.isSettingEnabled Setting.WIFI_SCANNING))) :
    s.updateWifiAvailable.1.mSettingEnabled = s.mSettingEnabled ∧
    s.updateWifiAvailable.1.mIsWifiAvailable = some avail ∧
    s.updateWifiAvailable.2 =
      (if s.mIsWifiAvailable = none ∨ s.mIsWifiAvailable ≠ some avail then
        [{ fbsSetting := FbsSetting.WIFI_AVAILABLE, enabled := avail }] else []) := by
  subst havail
  unfold ContextHub.updateWifiAvailable
  simp only []
  cases hw : s.mIsWifiAvailable with
  | none => simp
  | some b =>
    by_cases hb : b = (if s.isSettingEnabled Setting.AIRPLANE_MODE
      then s.isSettingEnabled Setting.WIFI_MAIN
      else (s.isSettingEnabled Setting.WIFI_MAIN ||
        s.isSettingEnabled Setting.WIFI_SCANNING))
    · simp [← hb, hw]
    · simp [hb, hw]

theorem isSettingEnabled_congr (s t : ContextHub) (h : s.mSettingEnabled = t.mSettingEnabled)
    (setting : Setting) : s.isSettingEnabled setting = t.isSettingEnabled setting := by
  simp only [ContextHub.isSettingEnabled, h]

theorem onSettingChanged_wifi (s : ContextHub) (setting : Setting) (enabled : Bool) :
    (s.onSettingChanged setting enabled).1.mSettingEnabled =
      (s.setSettingEnabled setting enabled).mSettingEnabled ∧
    (s.onSettingChanged setting enabled).1.mIsWifiAvailable =
      (s.setSettingEnabled setting enabled).updateWifiAvailable.1.mIsWifiAvailable ∧
    (s.onSettingChanged setting enabled).2.filter
        (fun n => n.fbsSetting = FbsSetting.WIFI_AVAILABLE) =
      (s.setSettingEnabled setting enabled).updateWifiAvailable.2 := by
  have hb := updateBleAvailable_frame (s.setSettingEnabled setting enabled).updateWifiAvailable.1
  have hw := updateWifiAvailable_spec (s.setSettingEnabled setting enabled) _ rfl
  refine ⟨hb.1.trans hw.1, hb.2.1, ?_⟩
  have h1 : (ContextHub.forwardSetting setting enabled).filter
      (fun n => n.fbsSetting = FbsSetting.WIFI_AVAILABLE) = [] := by
    rw [List.filter_eq_nil_iff]
    intro n hn
    simpa using forwardSetting_not_wifi setting enabled n hn
  have h3 : (s.setSettingEnabled setting enabled).updateWifiAvailable.1.updateBleAvailable.2.filter
      (fun n => n.fbsSetting = FbsSetting.WIFI_AVAILABLE) = [] := by
    rw [List.filter_eq_nil_iff]
    intro n hn
    simp [hb.2.2 n hn]
  have h2 : (s.setSettingEnabled setting enabled).updateWifiAvailable.2.filter
      (fun n => n.fbsSetting = FbsSetting.WIFI_AVAILABLE) =
      (s.setSettingEnabled setting enabled).updateWifiAvailable.2 := by
    rw [hw.2.2]
    split <;> simp
  simp only [ContextHub.onSettingChanged, List.filter_append, h1, h2, h3, List.nil_append,
    List.append_nil]

theorem onSettingChanged_wifi_of_isSettingEnabled (s : ContextHub) (setting : Setting)
    (enabled : Bool) (W : Bool)
    (hW : W = (if (s.onSettingChanged setting enabled).1.isSettingEnabled
        Setting.AIRPLANE_MODE
      then (s.onSettingChanged setting enabled).1.isSettingEnabled Setting.WIFI_MAIN
      else ((s.onSettingChanged setting enabled).1.isSettingEnabled Setting.WIFI_MAIN ||
        (s.onSettingChanged setting enabled).1.isSettingEnabled Setting.WIFI_SCANNING))) :
    (s.onSettingChanged setting enabled).1.mSettingEnabled =
      (fun x => if x = setting then some enabled else s.mSettingEnabled x) ∧
    (s.onSettingChanged setting enabled).1.mIsWifiAvailable = some W ∧
    (s.onSettingChanged setting enabled).2.filter
        (fun n => n.fbsSetting = FbsSetting.WIFI_AVAILABLE) =
      (if s.mIsWifiAvailable = none ∨ s.mIsWifiAvailable ≠ some W then
        [{ fbsSetting := FbsSetting.WIFI_AVAILABLE, enabled := W }] else []) ∧
    (s.onContextHubRestarted.1.onSettingChanged setting enabled).2.filter
        (fun n => n.fbsSetting = FbsSetting.WIFI_AVAILABLE) =
      [{ fbsSetting := FbsSetting.WIFI_AVAILABLE, enabled := W }] := by
  have hmain := onSettingChanged_wifi s setting enabled
  have hW1 : W = (if (s.setSettingEnabled setting enabled).isSettingEnabled
        Setting.AIRPLANE_MODE
      then (s.setSettingEnabled setting enabled).isSettingEnabled Setting.WIFI_MAIN
      else ((s.setSettingEnabled setting enabled).isSettingEnabled Setting.WIFI_MAIN ||
        (s.setSettingEnabled setting enabled).isSettingEnabled Setting.WIFI_SCANNING)) := by
    rw [hW]
    simp only [isSettingEnabled_congr _ _ hmain.1]
  have hw := updateWifiAvailable_spec (s.setSettingEnabled setting enabled) W hW1
  have hmain2 := onSettingChanged_wifi s.onContextHubRestarted.1 setting enabled
  have hset : (s.onContextHubRestarted.1.setSettingEnabled setting enabled).mSettingEnabled =
      (s.setSettingEnabled setting enabled).mSettingEnabled := by
    cases h : s.mCallback <;> simp [ContextHub.onContextHubRestarted, h,
      ContextHub.setSettingEnabled]
  have hnone : (s.onContextHubRestarted.1.setSettingEnabled setting enabled).mIsWifiAvailable =
      none := by
    cases h : s.mCallback <;> simp [ContextHub.onContextHubRestarted, h,
      ContextHub.setSettingEnabled]
  have hW2 : W = (if (s.onContextHubRestarted.1.setSettingEnabled setting enabled).isSettingEnabled
        Setting.AIRPLANE_MODE
      then (s.onContextHubRestarted.1.setSettingEnabled setting enabled).isSettingEnabled
        Setting.WIFI_MAIN
      else ((s.onContextHubRestarted.1.setSettingEnabled setting enabled).isSettingEnabled
          Setting.WIFI_MAIN ||
        (s.onContextHubRestarted.1.setSettingEnabled setting enabled).isSettingEnabled
          Setting.WIFI_SCANNING)) := by
    rw [hW1]
    simp only [isSettingEnabled_congr _ _ hset]
  have hw2 := updateWifiAvailable_spec
    (s.onContextHubRestarted.1.setSettingEnabled setting enabled) W hW2
  refine ⟨hmain.1, hmain.2.1.trans hw.2.1, ?_, ?_⟩
  · rw [hmain.2.2, hw.2.2]
    rfl
  · rw [hmain2.2.2, hw2.2.2, hnone]
    simp

theorem isSettingEnabled_eq (s : ContextHub) (setting : Setting) :
    s.isSettingEnabled setting = decide (s.mSettingEnabled setting = some true) := by
  unfold ContextHub.isSettingEnabled
  cases h : s.mSettingEnabled setting with
  | none => simp
  | some b => cases b <;> simp

/-- C22: a setting counts as enabled when the settings map `mSettingEnabled` holds true
for it. After every call `onSettingChanged(setting, enabled)` the settings map holds
`enabled` for `setting` and its other entries as before, the cached WiFi availability is
`W`, the value of (AIRPLANE_MODE enabled ? WIFI_MAIN enabled : (WIFI_MAIN enabled or
WIFI_SCANNING enabled)) read from the settings map after the update, and the
WIFI_AVAILABLE notifications sent during the call are: exactly one, carrying `W`, if no
value was cached before or the cached value differs from `W`; none otherwise. After
`onContextHubRestarted` no value is cached, so the next call sends one. -/
theorem onSettingChanged_wifi_available (s : ContextHub) (setting : Setting)
    (enabled : Bool) (W : Bool)
    (hW : W = (if (s.onSettingChanged setting enabled).1.mSettingEnabled
        Setting.AIRPLANE_MODE = some true
      then decide ((s.onSettingChanged setting enabled).1.mSettingEnabled
        Setting.WIFI_MAIN = some true)
      else decide ((s.onSettingChanged setting enabled).1.mSettingEnabled
          Setting.WIFI_MAIN = some true ∨
        (s.onSettingChanged setting enabled).1.mSettingEnabled
          Setting.WIFI_SCANNING = some true))) :
    (s.onSettingChanged setting enabled).1.mSettingEnabled =
      (fun x => if x = setting then some enabled else s.mSettingEnabled x) ∧
    (s.onSettingChanged setting enabled).1.mIsWifiAvailable = some W ∧
    (s.onSettingChanged setting enabled).2.filter
        (fun n => n.fbsSetting = FbsSetting.WIFI_AVAILABLE) =
      (if s.mIsWifiAvailable = none ∨ s.mIsWifiAvailable ≠ some W then
        [{ fbsSetting := FbsSetting.WIFI_AVAILABLE, enabled := W }] else []) ∧
    (s.onContextHubRestarted.1.onSettingChanged setting enabled).2.filter
        (fun n => n.fbsSetting = FbsSetting.WIFI_AVAILABLE) =
      [{ fbsSetting := FbsSetting.WIFI_AVAILABLE, enabled := W }] := by
  refine onSettingChanged_wifi_of_isSettingEnabled s setting enabled W ?_
  rw [hW]
  simp only [isSettingEnabled_eq]
  simp

theorem onSettingChanged_wifi_available_witness :
    (ContextHub.initial.onSettingChanged Setting.WIFI_MAIN true).1.mSettingEnabled
      Setting.WIFI_MAIN = some true ∧
    (ContextHub.initial.onSettingChanged Setting.WIFI_MAIN true).1.mIsWifiAvailable =
      some true ∧
    (ContextHub.initial.onSettingChanged Setting.WIFI_MAIN true).2.filter
        (fun n => n.fbsSetting = FbsSetting.WIFI_AVAILABLE) =
      [{ fbsSetting := FbsSetting.WIFI_AVAILABLE, enabled := true }] ∧
    airplaneModeContextHub.mSettingEnabled Setting.AIRPLANE_MODE = some true ∧
    airplaneModeContextHub.mIsWifiAvailable = some false ∧
    (airplaneModeContextHub.onSettingChanged Setting.WIFI_SCANNING true).1.mIsWifiAvailable =
      some false ∧
    (airplaneModeContextHub.onSettingChanged Setting.WIFI_SCANNING true).2.filter
        (fun n => n.fbsSetting = FbsSetting.WIFI_AVAILABLE) = [] ∧
    (airplaneModeContextHub.onContextHubRestarted.1.onSettingChanged Setting.WIFI_SCANNING
        true).2.filter (fun n => n.fbsSetting = FbsSetting.WIFI_AVAILABLE) =
      [{ fbsSetting := FbsSetting.WIFI_AVAILABLE, enabled := false }] :=
  ⟨by decide,
    (onSettingChanged_wifi_available ContextHub.initial Setting.WIFI_MAIN true true
      (by decide)).2.1,
    (onSettingChanged_wifi_available ContextHub.initial Setting.WIFI_MAIN true true
      (by decide)).2.2.1.trans (by decide),
    by decide, by decide,
    (onSettingChanged_wifi_available airplaneModeContextHub Setting.WIFI_SCANNING true false
      (by decide)).2.1,
    (onSettingChanged_wifi_available airplaneModeContextHub Setting.WIFI_SCANNING true false
      (by decide)).2.2.1.trans (by decide),
    (onSettingChanged_wifi_available airplaneModeContextHub Setting.WIFI_SCANNING true false
      (by decide)).2.2.2⟩
/-! ## CHRE API version packing -/

/-- C28, as stated, fails: for the major version 1 and the minor version -1 (an 8-bit
value of the field's type `int8_t`), the sign extension of the promoted minor version
sets the upper bits of `targetApiVersion`, which is `0xFFFF0000`, and
`extractChreApiMajorVersion` yields -1, not 1. -/
theorem extractChreApiMajorVersion_negative_minor :
    targetApiVersion 1 (-1) = 0xFFFF0000 ∧
    extractChreApiMajorVersion (targetApiVersion 1 (-1)) = -1 ∧
    extractChreApiMajorVersion (targetApiVersion 1 (-1)) ≠ 1 := by
  decide

theorem targetApiVersion_eq (M m : Int) (hM : -128 ≤ M ∧ M ≤ 127) (hm : 0 ≤ m ∧ m ≤ 127) :
    targetApiVersion M m = (M % 256).toNat * 2 ^ 24 + m.toNat * 2 ^ 16 := by
  have h1 : int32Bits (M * 2 ^ 24) = 2 ^ 24 * (M % 256).toNat := by
    unfold int32Bits
    omega
  have h2 : int32Bits (m * 2 ^ 16) = m.toNat * 2 ^ 16 := by
    unfold int32Bits
    omega
  have hlt : m.toNat * 2 ^ 16 < 2 ^ 24 := by omega
  unfold targetApiVersion
  rw [h1, h2, ← Nat.mul_add_lt_is_or hlt]
  ring

/-- C28, amended: for every major version `M` of type `int8_t` and every minor version
`m` with `0 ≤ m ≤ 127`, the `targetApiVersion` `v` computed by `loadNanoapp` satisfies
`extractChreApiMajorVersion(v) = M`, `extractChreApiMinorVersion(v) = m` and
`extractChrePatchVersion(v) = 0`. -/
theorem targetApiVersion_round_trip (M m : Int) (hM : -128 ≤ M ∧ M ≤ 127)
    (hm : 0 ≤ m ∧ m ≤ 127) :
    extractChreApiMajorVersion (targetApiVersion M m) = M ∧
    extractChreApiMinorVersion (targetApiVersion M m) = m ∧
    extractChrePatchVersion (targetApiVersion M m) = 0 := by
  rw [targetApiVersion_eq M m hM hm]
  unfold extractChreApiMajorVersion extractChreApiMinorVersion extractChrePatchVersion toInt8
  simp only [Nat.shiftRight_eq_div_pow]
  refine ⟨?_, ?_, ?_⟩
  · split <;> omega
  · split <;> omega
  · omega

theorem targetApiVersion_round_trip_witness :
    ((-128 : Int) ≤ 1 ∧ (1 : Int) ≤ 127) ∧ ((0 : Int) ≤ 8 ∧ (8 : Int) ≤ 127) ∧
    targetApiVersion 1 8 = 0x01080000 ∧
    extractChreApiMajorVersion (targetApiVersion 1 8) = 1 ∧
    extractChreApiMinorVersion (targetApiVersion 1 8) = 8 ∧
    extractChrePatchVersion (targetApiVersion 1 8) = 0 :=
  ⟨by decide, by decide, by decide, targetApiVersion_round_trip 1 8 (by decide) (by decide)⟩

/-! ## Bound on the nanoapp binary buffer -/

/-- C27, as stated, fails: from a fresh object, `reserveBuffer` with length 100,
`copyNanoappFragment` of 50 bytes and a second `reserveBuffer` with length 10 (the
asserted `!isLoaded()` holds at each call) reach a state with `mBytesLoaded = 50` and
`mAppBinaryLen = 10`. -/
theorem reserveBuffer_after_fragment_breaks_bound :
    PlatformNanoappBase.runNotLoaded 32 PlatformNanoappBase.fresh reserveTwiceCalls = true ∧
    (PlatformNanoappBase.run 32 PlatformNanoappBase.fresh reserveTwiceCalls).mBytesLoaded = 50 ∧
    (PlatformNanoappBase.run 32 PlatformNanoappBase.fresh reserveTwiceCalls).mAppBinaryLen = 10 ∧
    ¬ ((PlatformNanoappBase.run 32 PlatformNanoappBase.fresh reserveTwiceCalls).mBytesLoaded ≤
      (PlatformNanoappBase.run 32 PlatformNanoappBase.fresh reserveTwiceCalls).mAppBinaryLen) := by
  decide

/-- The length check of `copyNanoappFragment` wraps around: with a 32-bit `size_t`, one
byte loaded into a buffer of 100 bytes and `bufferLen = 2 ^ 32 - 1`, the call returns
true, records a `memcpy` of `2 ^ 32 - 1` bytes and leaves `mBytesLoaded = 0`. -/
theorem copyNanoappFragment_wraps :
    ((PlatformNanoappBase.run 32 PlatformNanoappBase.fresh oneByteCalls).copyNanoappFragment 32
      (2 ^ 32 - 1)).1 = true ∧
    ((PlatformNanoappBase.run 32 PlatformNanoappBase.fresh oneByteCalls).copyNanoappFragment 32
      (2 ^ 32 - 1)).2.mBytesLoaded = 0 ∧
    ((PlatformNanoappBase.run 32 PlatformNanoappBase.fresh oneByteCalls).copyNanoappFragment 32
      (2 ^ 32 - 1)).2.memcpys = [(0, 1), (1, 2 ^ 32 - 1)] := by
  decide

theorem nanoapp_step_bound (w : Nat) (s : PlatformNanoappBase) (c : PlatformNanoappBase.Call)
    (hc : c.inOrder w s = true)
    (h : s.mBytesLoaded ≤ s.mAppBinaryLen ∧ s.mAppBinaryLen ≤ kMaxAppSize) :
    (PlatformNanoappBase.step w s c).mBytesLoaded ≤
      (PlatformNanoappBase.step w s c).mAppBinaryLen ∧
    (PlatformNanoappBase.step w s c).mAppBinaryLen ≤ kMaxAppSize := by
  cases c with
  | reserveBuffer a appId appVersion appBinaryLen =>
    have h0 : s.mBytesLoaded = 0 := by simpa [PlatformNanoappBase.Call.inOrder] using hc
    simp only [PlatformNanoappBase.step, PlatformNanoappBase.reserveBuffer]
    split
    · exact h
    · split
      · exact h
      · simp only [h0]
        omega
  | copyNanoappFragment bufferLen =>
    simp only [PlatformNanoappBase.step, PlatformNanoappBase.copyNanoappFragment]
    split
    · exact h
    · simp only
      omega

theorem nanoapp_run_bound (w : Nat) (calls : List PlatformNanoappBase.Call) :
    ∀ s : PlatformNanoappBase, PlatformNanoappBase.runInOrder w s calls = true →
      s.mBytesLoaded ≤ s.mAppBinaryLen ∧ s.mAppBinaryLen ≤ kMaxAppSize →
      (PlatformNanoappBase.run w s calls).mBytesLoaded ≤
        (PlatformNanoappBase.run w s calls).mAppBinaryLen ∧
      (PlatformNanoappBase.run w s calls).mAppBinaryLen ≤ kMaxAppSize := by
  induction calls with
  | nil => intro s _ h; exact h
  | cons c cs ih =>
    intro s hr h
    simp only [PlatformNanoappBase.runInOrder, Bool.and_eq_true] at hr
    exact ih _ hr.2 (nanoapp_step_bound w s c hr.1 h)

/-- C27, amended: in every state reachable from a freshly constructed
`PlatformNanoappBase` through a sequence of `reserveBuffer` and `copyNanoappFragment`
calls in which `reserveBuffer` is called only while `mBytesLoaded = 0` and in which
`mBytesLoaded + bufferLen` does not exceed the largest `size_t` value at any
`copyNanoappFragment` call, `mBytesLoaded ≤ mAppBinaryLen ≤ 2 MiB` holds. In every state,
a `copyNanoappFragment` call with such a length and `mBytesLoaded + bufferLen >
mAppBinaryLen` returns false and changes nothing, a successful one increases
`mBytesLoaded` by exactly `bufferLen`, and `reserveBuffer` with `appBinaryLen > 2 MiB`
returns false and changes nothing. -/
theorem nanoapp_buffer_bound (w : Nat) (calls : List PlatformNanoappBase.Call)
    (h : PlatformNanoappBase.runInOrder w PlatformNanoappBase.fresh calls = true) :
    ((PlatformNanoappBase.run w PlatformNanoappBase.fresh calls).mBytesLoaded ≤
        (PlatformNanoappBase.run w PlatformNanoappBase.fresh calls).mAppBinaryLen ∧
      (PlatformNanoappBase.run w PlatformNanoappBase.fresh calls).mAppBinaryLen ≤
        2 * 1024 * 1024) ∧
    (∀ (s : PlatformNanoappBase) (bufferLen : Nat), s.mBytesLoaded + bufferLen < 2 ^ w →
      (s.mBytesLoaded + bufferLen > s.mAppBinaryLen →
        s.copyNanoappFragment w bufferLen = (false, s)) ∧
      ((s.copyNanoappFragment w bufferLen).1 = true →
        (s.copyNanoappFragment w bufferLen).2.mBytesLoaded = s.mBytesLoaded + bufferLen ∧
        s.mBytesLoaded + bufferLen ≤ s.mAppBinaryLen)) ∧
    (∀ (s : PlatformNanoappBase) (memoryAllocBigImage : Option Nat)
      (appId appVersion appBinaryLen : Nat), appBinaryLen > 2 * 1024 * 1024 →
      s.reserveBuffer memoryAllocBigImage appId appVersion appBinaryLen = (false, s)) := by
  refine ⟨nanoapp_run_bound w calls _ h ⟨Nat.le_refl _, by decide⟩, ?_, ?_⟩
  · intro s bufferLen hlt
    have hmod : (s.mBytesLoaded + bufferLen) % 2 ^ w = s.mBytesLoaded + bufferLen :=
      Nat.mod_eq_of_lt hlt
    unfold PlatformNanoappBase.copyNanoappFragment
    rw [hmod]
    refine ⟨fun hgt => by rw [if_pos hgt], fun hok => ?_⟩
    split at hok
    · cases hok
    · rename_i hle
      rw [if_neg hle]
      exact ⟨rfl, Nat.le_of_not_gt hle⟩
  · intro s a appId appVersion appBinaryLen hgt
    have : appBinaryLen > kMaxAppSize := hgt
    simp [PlatformNanoappBase.reserveBuffer, this]

theorem nanoapp_buffer_bound_witness :
    PlatformNanoappBase.runInOrder 32 PlatformNanoappBase.fresh loadCalls = true ∧
    (PlatformNanoappBase.run 32 PlatformNanoappBase.fresh loadCalls).mBytesLoaded = 100 ∧
    ((PlatformNanoappBase.run 32 PlatformNanoappBase.fresh loadCalls).mBytesLoaded ≤
      (PlatformNanoappBase.run 32 PlatformNanoappBase.fresh loadCalls).mAppBinaryLen ∧
      (PlatformNanoappBase.run 32 PlatformNanoappBase.fresh loadCalls).mAppBinaryLen ≤ 2 * 1024 * 1024) :=
  ⟨by decide, by decide,
    (nanoapp_buffer_bound 32 loadCalls (by decide)).1⟩

/-! ## Audio PAL: a request that cannot be scheduled -/

theorem requestAudioDataEvent_of_other_handle (addTask : Option Nat) (s : PalAudio)
    (handle numSamples eventDelayNs : Nat) (h : handle ≠ 0) :
    PalAudio.chrePalAudioApiRequestAudioDataEvent addTask s handle numSamples eventDelayNs =
      (false, s) := by
  simp [PalAudio.chrePalAudioApiRequestAudioDataEvent, h]

/-- C29 at the failing input: from the initial state (handle 0 not enabled),
`requestAudioDataEvent(0, 1, 0)` whose task cannot be scheduled returns false, and
`chrePalAudioIsHandle0Enabled()` is true after the call although it was false before
it. -/
theorem requestAudioDataEvent_unscheduled_enables :
    PalAudio.initial.chrePalAudioIsHandle0Enabled = false ∧
    (PalAudio.chrePalAudioApiRequestAudioDataEvent none PalAudio.initial 0 1 0).1 = false ∧
    (PalAudio.chrePalAudioApiRequestAudioDataEvent none PalAudio.initial 0 1
      0).2.chrePalAudioIsHandle0Enabled = true := by
  decide

/-! ## WWAN cell info conversion -/

/-- C25 at the failing input: for an input with `cellInfoCount = 1` and
`cells.length = 0` (in a buffer as large as a `ChppWwanCellInfoResult`),
`chppWwanCellInfoResultToChre` returns a non-null result with `cellInfoCount = 1` and
a null `cells`. -/
theorem chppWwanCellInfoResultToChre_count_without_cells :
    (chppWwanCellInfoResultToChre wwanTypes mallocSucceeds 16 countWithoutCells).out =
      some { version := 1, errorCode := 0, cellInfoCount := 1, reserved := 0, cookie := 0
             cells := none } := by
  decide

theorem chppWwanCellInfoResultToChre_of_small (T : WwanTypes) (chppMalloc : Nat → Bool)
    (sizeofChreWwanCellInfoResult : Nat) (input : CellInfoResultInput)
    (h : input.inSize < T.sizeofChppWwanCellInfoResult) :
    chppWwanCellInfoResultToChre T chppMalloc sizeofChreWwanCellInfoResult input =
      { out := none, reads := [] } := by
  simp [chppWwanCellInfoResultToChre, Nat.not_le.mpr h]

theorem chppWwanCellInfoResultToChre_of_oom (T : WwanTypes) (chppMalloc : Nat → Bool)
    (sizeofChreWwanCellInfoResult : Nat) (input : CellInfoResultInput)
    (h : chppMalloc sizeofChreWwanCellInfoResult = false) :
    chppWwanCellInfoResultToChre T chppMalloc sizeofChreWwanCellInfoResult input =
      { out := none, reads := [] } := by
  simp [chppWwanCellInfoResultToChre, h]

theorem chppWwanCellInfoResultToChre_of_alloc (T : WwanTypes) (chppMalloc : Nat → Bool)
    (sizeofChreWwanCellInfoResult : Nat) (input : CellInfoResultInput)
    (h : T.sizeofChppWwanCellInfoResult ≤ input.inSize)
    (hm : chppMalloc sizeofChreWwanCellInfoResult = true) :
    chppWwanCellInfoResultToChre T chppMalloc sizeofChreWwanCellInfoResult input =
      chppWwanConvertCellInfoResultToChre T chppMalloc input := by
  simp [chppWwanCellInfoResultToChre, h, hm]

theorem chppWwanConvertCellInfoResultToChre_of_empty (T : WwanTypes)
    (chppMalloc : Nat → Bool) (input : CellInfoResultInput)
    (h : input.in_.cells.length = 0) :
    chppWwanConvertCellInfoResultToChre T chppMalloc input =
      { out := some
          { version := T.CHRE_WWAN_CELL_INFO_RESULT_VERSION
            errorCode := input.in_.errorCode
            cellInfoCount := input.in_.cellInfoCount
            reserved := 0
            cookie := 0
            cells := none }
        reads := [] } := by
  simp [chppWwanConvertCellInfoResultToChre, h]

theorem chppWwanConvertCellInfoResultToChre_of_malformed (T : WwanTypes)
    (chppMalloc : Nat → Bool) (input : CellInfoResultInput)
    (h0 : input.in_.cells.length ≠ 0)
    (hbad : input.in_.cells.offset + input.in_.cells.length > input.inSize ∨
      input.in_.cells.length ≠ input.in_.cellInfoCount * T.sizeofChreWwanCellInfo) :
    chppWwanConvertCellInfoResultToChre T chppMalloc input = { out := none, reads := [] } := by
  unfold chppWwanConvertCellInfoResultToChre
  simp only [if_neg h0, if_pos hbad]

theorem chppWwanConvertCellInfoResultToChre_of_oom (T : WwanTypes)
    (chppMalloc : Nat → Bool) (input : CellInfoResultInput)
    (h0 : input.in_.cells.length ≠ 0)
    (hm : chppMalloc (input.in_.cellInfoCount * T.sizeofChreWwanCellInfo) = false) :
    chppWwanConvertCellInfoResultToChre T chppMalloc input = { out := none, reads := [] } := by
  unfold chppWwanConvertCellInfoResultToChre
  simp only [if_neg h0, hm]
  split <;> rfl

theorem chppWwanConvertCellInfoResultToChre_of_cells (T : WwanTypes)
    (chppMalloc : Nat → Bool) (input : CellInfoResultInput)
    (h0 : input.in_.cells.length ≠ 0)
    (hin : input.in_.cells.offset + input.in_.cells.length ≤ input.inSize)
    (hlen : input.in_.cells.length = input.in_.cellInfoCount * T.sizeofChreWwanCellInfo)
    (hm : chppMalloc (input.in_.cellInfoCount * T.sizeofChreWwanCellInfo) = true) :
    chppWwanConvertCellInfoResultToChre T chppMalloc input =
      { out := some
          { version := T.CHRE_WWAN_CELL_INFO_RESULT_VERSION
            errorCode := input.in_.errorCode
            cellInfoCount := input.in_.cellInfoCount
            reserved := 0
            cookie := 0
            cells := some (((List.range input.in_.cellInfoCount).map fun i =>
              input.in_.cells.offset + i * T.sizeofChppWwanCellInfo).map fun o =>
                chppWwanConvertCellInfoToChre T (input.mem o)) }
        reads := (List.range input.in_.cellInfoCount).map fun i =>
          input.in_.cells.offset + i * T.sizeofChppWwanCellInfo } := by
  have hok : ¬ (input.in_.cells.offset + input.in_.cells.length > input.inSize ∨
      input.in_.cells.length ≠ input.in_.cellInfoCount * T.sizeofChreWwanCellInfo) := by
    intro h
    cases h with
    | inl h => exact Nat.not_lt.mpr hin h
    | inr h => exact h hlen
  unfold chppWwanConvertCellInfoResultToChre
  simp only [if_neg h0, if_neg hok, hm]
  rfl

theorem chppWwanConvertCellInfoResultToChre_cases (T : WwanTypes)
    (chppMalloc : Nat → Bool) (input : CellInfoResultInput) :
    (∃ out, chppWwanConvertCellInfoResultToChre T chppMalloc input =
        { out := some out, reads := [] } ∧ out.cells = none ∧
        out.cellInfoCount = input.in_.cellInfoCount ∧ input.in_.cells.length = 0) ∨
    chppWwanConvertCellInfoResultToChre T chppMalloc input = { out := none, reads := [] } ∨
    (input.in_.cells.length ≠ 0 ∧
      input.in_.cells.offset + input.in_.cells.length ≤ input.inSize ∧
      input.in_.cells.length = input.in_.cellInfoCount * T.sizeofChreWwanCellInfo ∧
      ∃ out, chppWwanConvertCellInfoResultToChre T chppMalloc input =
        { out := some out
          reads := (List.range input.in_.cellInfoCount).map fun i =>
            input.in_.cells.offset + i * T.sizeofChppWwanCellInfo } ∧
        out.cellInfoCount = input.in_.cellInfoCount ∧
        out.cells = some (((List.range input.in_.cellInfoCount).map fun i =>
          input.in_.cells.offset + i * T.sizeofChppWwanCellInfo).map fun o =>
            chppWwanConvertCellInfoToChre T (input.mem o))) := by
  by_cases h0 : input.in_.cells.length = 0
  · exact Or.inl ⟨_, chppWwanConvertCellInfoResultToChre_of_empty T chppMalloc input h0,
      rfl, rfl, h0⟩
  · by_cases hin : input.in_.cells.offset + input.in_.cells.length ≤ input.inSize
    · by_cases hlen : input.in_.cells.length =
          input.in_.cellInfoCount * T.sizeofChreWwanCellInfo
      · cases hm : chppMalloc (input.in_.cellInfoCount * T.sizeofChreWwanCellInfo)
        · exact Or.inr (Or.inl
            (chppWwanConvertCellInfoResultToChre_of_oom T chppMalloc input h0 hm))
        · exact Or.inr (Or.inr ⟨h0, hin, hlen, _,
            chppWwanConvertCellInfoResultToChre_of_cells T chppMalloc input h0 hin hlen hm,
            rfl, rfl⟩)
      · exact Or.inr (Or.inl (chppWwanConvertCellInfoResultToChre_of_malformed T chppMalloc
          input h0 (Or.inr hlen)))
    · exact Or.inr (Or.inl (chppWwanConvertCellInfoResultToChre_of_malformed T chppMalloc
        input h0 (Or.inl (Nat.lt_of_not_le hin))))

theorem chppWwanCellInfoResultToChre_cases (T : WwanTypes) (chppMalloc : Nat → Bool)
    (sizeofChreWwanCellInfoResult : Nat) (input : CellInfoResultInput) :
    chppWwanCellInfoResultToChre T chppMalloc sizeofChreWwanCellInfoResult input =
      { out := none, reads := [] } ∨
    chppWwanCellInfoResultToChre T chppMalloc sizeofChreWwanCellInfoResult input =
      chppWwanConvertCellInfoResultToChre T chppMalloc input := by
  by_cases h : T.sizeofChppWwanCellInfoResult ≤ input.inSize
  · cases hm : chppMalloc sizeofChreWwanCellInfoResult
    · exact Or.inl (chppWwanCellInfoResultToChre_of_oom T chppMalloc _ input hm)
    · exact Or.inr (chppWwanCellInfoResultToChre_of_alloc T chppMalloc _ input h hm)
  · exact Or.inl (chppWwanCellInfoResultToChre_of_small T chppMalloc _ input
      (Nat.lt_of_not_le h))

/-- C24: `chppWwanCellInfoResultToChre` returns a null pointer, without reading a cell,
for every input with `inSize < sizeof(struct ChppWwanCellInfoResult)`, and for every
input with `cells.length ≠ 0` where `cells.offset + cells.length > inSize` or
`cells.length` differs from `cellInfoCount * sizeof(struct chreWwanCellInfo)`. When a
`ChppWwanCellInfo` is not larger than a `chreWwanCellInfo`, every cell it reads starts at
or after `cells.offset` and ends within the first `inSize` bytes of the input; and the
cells of a result are the conversions of the cells read. -/
theorem chppWwanCellInfoResultToChre_rejects_malformed (T : WwanTypes)
    (chppMalloc : Nat → Bool) (sizeofChreWwanCellInfoResult : Nat)
    (input : CellInfoResultInput)
    (hsize : T.sizeofChppWwanCellInfo ≤ T.sizeofChreWwanCellInfo) :
    (input.inSize < T.sizeofChppWwanCellInfoResult →
      chppWwanCellInfoResultToChre T chppMalloc sizeofChreWwanCellInfoResult input =
        { out := none, reads := [] }) ∧
    (input.in_.cells.length ≠ 0 →
      (input.in_.cells.offset + input.in_.cells.length > input.inSize ∨
        input.in_.cells.length ≠ input.in_.cellInfoCount * T.sizeofChreWwanCellInfo) →
      chppWwanCellInfoResultToChre T chppMalloc sizeofChreWwanCellInfoResult input =
        { out := none, reads := [] }) ∧
    (∀ o ∈ (chppWwanCellInfoResultToChre T chppMalloc sizeofChreWwanCellInfoResult
        input).reads,
      input.in_.cells.offset ≤ o ∧ o + T.sizeofChppWwanCellInfo ≤ input.inSize) ∧
    (∀ out cells,
      (chppWwanCellInfoResultToChre T chppMalloc sizeofChreWwanCellInfoResult input).out =
        some out → out.cells = some cells →
      cells = (chppWwanCellInfoResultToChre T chppMalloc sizeofChreWwanCellInfoResult
        input).reads.map fun o => chppWwanConvertCellInfoToChre T (input.mem o)) := by
  refine ⟨chppWwanCellInfoResultToChre_of_small T chppMalloc _ input, ?_, ?_, ?_⟩
  · intro h0 hbad
    cases chppWwanCellInfoResultToChre_cases T chppMalloc sizeofChreWwanCellInfoResult
      input with
    | inl h => exact h
    | inr h =>
      rw [h]
      exact chppWwanConvertCellInfoResultToChre_of_malformed T chppMalloc input h0 hbad
  · intro o ho
    cases chppWwanCellInfoResultToChre_cases T chppMalloc sizeofChreWwanCellInfoResult
      input with
    | inl h => rw [h] at ho; cases ho
    | inr h =>
      rw [h] at ho
      rcases chppWwanConvertCellInfoResultToChre_cases T chppMalloc input with
        ⟨out, h1, _⟩ | h1 | ⟨_, hin, hlen, out, h1, _⟩
      · rw [h1] at ho; cases ho
      · rw [h1] at ho; cases ho
      · rw [h1] at ho
        simp only [List.mem_map, List.mem_range] at ho
        obtain ⟨i, hi, rfl⟩ := ho
        have h1 : (i + 1) * T.sizeofChppWwanCellInfo ≤
            input.in_.cellInfoCount * T.sizeofChppWwanCellInfo :=
          Nat.mul_le_mul_right _ hi
        have h2 : input.in_.cellInfoCount * T.sizeofChppWwanCellInfo ≤
            input.in_.cellInfoCount * T.sizeofChreWwanCellInfo :=
          Nat.mul_le_mul_left _ hsize
        have h3 : (i + 1) * T.sizeofChppWwanCellInfo =
            i * T.sizeofChppWwanCellInfo + T.sizeofChppWwanCellInfo := by ring
        omega
  · intro out cells hout hcells
    cases chppWwanCellInfoResultToChre_cases T chppMalloc sizeofChreWwanCellInfoResult
      input with
    | inl h => rw [h] at hout; cases hout
    | inr h =>
      rw [h] at hout ⊢
      rcases chppWwanConvertCellInfoResultToChre_cases T chppMalloc input with
        ⟨out1, h1, hc, _⟩ | h1 | ⟨_, _, _, out1, h1, _, hc⟩
      · rw [h1] at hout
        cases hout
        rw [hc] at hcells
        cases hcells
      · rw [h1] at hout; cases hout
      · rw [h1] at hout ⊢
        cases hout
        rw [hc] at hcells
        cases hcells
        rfl

theorem chppWwanCellInfoResultToChre_rejects_malformed_witness :
    wwanTypes.sizeofChppWwanCellInfo ≤ wwanTypes.sizeofChreWwanCellInfo ∧
    chppWwanCellInfoResultToChre wwanTypes mallocSucceeds 16 (twoCellInput 100) =
      { out := none, reads := [] } ∧
    (chppWwanCellInfoResultToChre wwanTypes mallocSucceeds 16 (twoCellInput 140)).reads =
      [12, 76] ∧
    (∀ o ∈ (chppWwanCellInfoResultToChre wwanTypes mallocSucceeds 16
        (twoCellInput 140)).reads,
      (twoCellInput 140).in_.cells.offset ≤ o ∧
        o + wwanTypes.sizeofChppWwanCellInfo ≤ (twoCellInput 140).inSize) :=
  ⟨by decide,
    (chppWwanCellInfoResultToChre_rejects_malformed wwanTypes mallocSucceeds 16
      (twoCellInput 100) (by decide)).2.1 (by decide) (Or.inl (by decide)),
    by decide,
    (chppWwanCellInfoResultToChre_rejects_malformed wwanTypes mallocSucceeds 16
      (twoCellInput 140) (by decide)).2.2.1⟩

theorem chppWwanCellInfoResultToChre_count_of_cells (T : WwanTypes) (chppMalloc : Nat → Bool)
    (sizeofChreWwanCellInfoResult : Nat) (input : CellInfoResultInput)
    (out : chreWwanCellInfoResult) (h0 : input.in_.cells.length ≠ 0)
    (hout : (chppWwanCellInfoResultToChre T chppMalloc sizeofChreWwanCellInfoResult
      input).out = some out) :
    ∃ cells, out.cells = some cells ∧ cells.length = out.cellInfoCount := by
  cases chppWwanCellInfoResultToChre_cases T chppMalloc sizeofChreWwanCellInfoResult
    input with
  | inl h => rw [h] at hout; cases hout
  | inr h =>
    rw [h] at hout
    rcases chppWwanConvertCellInfoResultToChre_cases T chppMalloc input with
      ⟨_, _, _, _, hz⟩ | h1 | ⟨_, _, _, out1, h1, hn, hc⟩
    · exact absurd hz h0
    · rw [h1] at hout; cases hout
    · rw [h1] at hout
      cases hout
      exact ⟨_, hc, by simp [hn]⟩

theorem chppWwanConvertCellInfo_round_trip (T : WwanTypes) (c : chreWwanCellInfo) :
    (chppWwanConvertCellInfoToChre T (chppWwanConvertCellInfoFromChre T c)).timeStamp =
      c.timeStamp ∧
    (chppWwanConvertCellInfoToChre T (chppWwanConvertCellInfoFromChre T c)).cellInfoType =
      c.cellInfoType ∧
    (chppWwanConvertCellInfoToChre T (chppWwanConvertCellInfoFromChre T c)).timeStampType =
      c.timeStampType ∧
    (chppWwanConvertCellInfoToChre T (chppWwanConvertCellInfoFromChre T c)).registered =
      c.registered ∧
    (c.cellInfoType = T.CHRE_WWAN_CELL_INFO_TYPE_GSM →
      (chppWwanConvertCellInfoToChre T (chppWwanConvertCellInfoFromChre T c)).CellInfo.gsm =
        { cellIdentityGsm := { c.CellInfo.gsm.cellIdentityGsm with reserved := 0 }
          signalStrengthGsm := c.CellInfo.gsm.signalStrengthGsm }) ∧
    (c.cellInfoType = T.CHRE_WWAN_CELL_INFO_TYPE_CDMA →
      (chppWwanConvertCellInfoToChre T (chppWwanConvertCellInfoFromChre T c)).CellInfo.cdma =
        c.CellInfo.cdma) ∧
    (c.cellInfoType = T.CHRE_WWAN_CELL_INFO_TYPE_LTE →
      (chppWwanConvertCellInfoToChre T (chppWwanConvertCellInfoFromChre T c)).CellInfo.lte =
        c.CellInfo.lte) ∧
    (c.cellInfoType = T.CHRE_WWAN_CELL_INFO_TYPE_WCDMA →
      (chppWwanConvertCellInfoToChre T (chppWwanConvertCellInfoFromChre T c)).CellInfo.wcdma =
        c.CellInfo.wcdma) ∧
    (c.cellInfoType = T.CHRE_WWAN_CELL_INFO_TYPE_TD_SCDMA →
      (chppWwanConvertCellInfoToChre T
        (chppWwanConvertCellInfoFromChre T c)).CellInfo.tdscdma = c.CellInfo.tdscdma) ∧
    (c.cellInfoType = T.CHRE_WWAN_CELL_INFO_TYPE_NR →
      (chppWwanConvertCellInfoToChre T (chppWwanConvertCellInfoFromChre T c)).CellInfo.nr =
        c.CellInfo.nr) := by
  have hd := T.distinct
  simp only [List.nodup_cons, List.mem_cons, List.mem_singleton, not_or, List.not_mem_nil,
    not_false_eq_true, and_true, List.nodup_nil] at hd
  obtain ⟨⟨h12, h13, h14, h15, h16⟩, ⟨h23, h24, h25, h26⟩, ⟨h34, h35, h36⟩, ⟨h45, h46⟩,
    h56⟩ := hd
  refine ⟨rfl, rfl, rfl, rfl, ?_, ?_, ?_, ?_, ?_, ?_⟩
  · intro h
    simp [chppWwanConvertCellInfoToChre, chppWwanConvertCellInfoFromChre, h,
      chppWwanConvertCellInfoGsmToChre, chppWwanConvertCellInfoGsmFromChre,
      chppWwanConvertCellIdentityGsmToChre, chppWwanConvertCellIdentityGsmFromChre,
      chppWwanConvertSignalStrengthGsmToChre, chppWwanConvertSignalStrengthGsmFromChre]
  · intro h
    simp [chppWwanConvertCellInfoToChre, chppWwanConvertCellInfoFromChre, h, Ne.symm h12,
      chppWwanConvertCellInfoCdmaToChre, chppWwanConvertCellInfoCdmaFromChre,
      chppWwanConvertCellIdentityCdmaToChre, chppWwanConvertCellIdentityCdmaFromChre,
      chppWwanConvertSignalStrengthCdmaToChre, chppWwanConvertSignalStrengthCdmaFromChre,
      chppWwanConvertSignalStrengthEvdoToChre, chppWwanConvertSignalStrengthEvdoFromChre]
  · intro h
    simp [chppWwanConvertCellInfoToChre, chppWwanConvertCellInfoFromChre, h, Ne.symm h13,
      Ne.symm h23,
      chppWwanConvertCellInfoLteToChre, chppWwanConvertCellInfoLteFromChre,
      chppWwanConvertCellIdentityLteToChre, chppWwanConvertCellIdentityLteFromChre,
      chppWwanConvertSignalStrengthLteToChre, chppWwanConvertSignalStrengthLteFromChre]
  · intro h
    simp [chppWwanConvertCellInfoToChre, chppWwanConvertCellInfoFromChre, h, Ne.symm h14,
      Ne.symm h24, Ne.symm h34,
      chppWwanConvertCellInfoWcdmaToChre, chppWwanConvertCellInfoWcdmaFromChre,
      chppWwanConvertCellIdentityWcdmaToChre, chppWwanConvertCellIdentityWcdmaFromChre,
      chppWwanConvertSignalStrengthWcdmaToChre, chppWwanConvertSignalStrengthWcdmaFromChre]
  · intro h
    simp [chppWwanConvertCellInfoToChre, chppWwanConvertCellInfoFromChre, h, Ne.symm h15,
      Ne.symm h25, Ne.symm h35, Ne.symm h45,
      chppWwanConvertCellInfoTdscdmaToChre, chppWwanConvertCellInfoTdscdmaFromChre,
      chppWwanConvertCellIdentityTdscdmaToChre, chppWwanConvertCellIdentityTdscdmaFromChre,
      chppWwanConvertSignalStrengthTdscdmaToChre,
      chppWwanConvertSignalStrengthTdscdmaFromChre]
  · intro h
    simp [chppWwanConvertCellInfoToChre, chppWwanConvertCellInfoFromChre, h, Ne.symm h16,
      Ne.symm h26, Ne.symm h36, Ne.symm h46, Ne.symm h56,
      chppWwanConvertCellInfoNrToChre, chppWwanConvertCellInfoNrFromChre,
      chppWwanConvertCellIdentityNrToChre, chppWwanConvertCellIdentityNrFromChre,
      chppWwanConvertSignalStrengthNrToChre, chppWwanConvertSignalStrengthNrFromChre]

theorem chppWwanCellInfoResultFromChre_of_empty (T : WwanTypes) (chppMalloc : Nat → Bool)
    (r : chreWwanCellInfoResult)
    (hm : chppMalloc (chppWwanSizeOfCellInfoResultFromChre T r) = true)
    (h0 : r.cellInfoCount = 0) :
    chppWwanCellInfoResultFromChre T chppMalloc r =
      some
        { payload :=
            { version := T.CHRE_WWAN_CELL_INFO_RESULT_VERSION
              errorCode := r.errorCode
              cellInfoCount := r.cellInfoCount
              reserved := 0
              cookie := 0
              cells := { offset := 0, length := 0 } }
          cells := []
          outSize := chppWwanSizeOfCellInfoResultFromChre T r } := by
  simp [chppWwanCellInfoResultFromChre, hm, chppWwanConvertCellInfoResultFromChre, h0]

theorem chppWwanCellInfoResultFromChre_of_cells (T : WwanTypes) (chppMalloc : Nat → Bool)
    (r : chreWwanCellInfoResult)
    (hm : chppMalloc (chppWwanSizeOfCellInfoResultFromChre T r) = true)
    (hn : 0 < r.cellInfoCount) (hcount : r.cellInfoCount < 2 ^ 8)
    (hcells : (r.cells.getD []).length = r.cellInfoCount)
    (hpos : 0 < T.sizeofChppWwanCellInfo)
    (hfit : T.sizeofChppWwanCellInfoResult + 255 * T.sizeofChppWwanCellInfo < 2 ^ 16)
    (hhdr : T.sizeofChppWwanCellInfoResult ≤ T.sizeofChppWwanCellInfoResultWithHeader) :
    chppWwanCellInfoResultFromChre T chppMalloc r =
      some
        { payload :=
            { version := T.CHRE_WWAN_CELL_INFO_RESULT_VERSION
              errorCode := r.errorCode
              cellInfoCount := r.cellInfoCount
              reserved := 0
              cookie := 0
              cells := { offset := T.sizeofChppWwanCellInfoResult
                         length := r.cellInfoCount * T.sizeofChppWwanCellInfo } }
          cells := ((r.cells.getD []).enum).map fun ic =>
            (T.sizeofChppWwanCellInfoResult + ic.1 * T.sizeofChppWwanCellInfo,
              chppWwanConvertCellInfoFromChre T ic.2)
          outSize := chppWwanSizeOfCellInfoResultFromChre T r } := by
  have h1 : r.cellInfoCount * T.sizeofChppWwanCellInfo ≤ 255 * T.sizeofChppWwanCellInfo :=
    Nat.mul_le_mul_right _ (by omega)
  have h2 : 0 < r.cellInfoCount * T.sizeofChppWwanCellInfo := Nat.mul_pos hn hpos
  have hlen : (r.cellInfoCount * T.sizeofChppWwanCellInfo) % 2 ^ 16 =
      r.cellInfoCount * T.sizeofChppWwanCellInfo := Nat.mod_eq_of_lt (by omega)
  have hoff : T.sizeofChppWwanCellInfoResult % 2 ^ 16 = T.sizeofChppWwanCellInfoResult :=
    Nat.mod_eq_of_lt (by omega)
  have htake : (r.cells.getD []).take r.cellInfoCount = r.cells.getD [] :=
    List.take_of_length_le (by omega)
  have hcond : r.cellInfoCount * T.sizeofChppWwanCellInfo > 0 ∧
      T.sizeofChppWwanCellInfoResult + r.cellInfoCount * T.sizeofChppWwanCellInfo ≤
        chppWwanSizeOfCellInfoResultFromChre T r := by
    unfold chppWwanSizeOfCellInfoResultFromChre
    omega
  unfold chppWwanCellInfoResultFromChre chppWwanConvertCellInfoResultFromChre
  simp only [hm, if_true, hlen, hoff, if_pos hcond, htake]

/-- C23: for a `chreWwanCellInfoResult` `r` with `cellInfoCount` (a `uint8_t`) cells, all
of a supported type, `chppWwanCellInfoResultFromChre` succeeds when the allocation does,
and `chppWwanCellInfoResultToChre`, applied to the payload it produced (an input whose
memory holds the cells written, of a size that covers them: `*outSize` is one) returns a
result with the same `errorCode` and `cellInfoCount` and with `cellInfoCount` cells, each
with the `timeStamp`, `cellInfoType`, `timeStampType` and `registered` of the
corresponding cell of `r` and with the identity and signal strength fields of the view
its type selects (the reserved bytes of a GSM identity zeroed). The structure sizes are
parameters: a cell info is taken to have the same positive size on both sides, to fit,
255 times over, with the result structure into the `uint16_t` offsets, and the result
structure to fit into the structure with header. -/
theorem chppWwanCellInfoResult_round_trip (T : WwanTypes) (mallocFrom mallocTo : Nat → Bool)
    (sizeofChreWwanCellInfoResult : Nat) (r : chreWwanCellInfoResult)
    (hcount : r.cellInfoCount < 2 ^ 8)
    (hcells : (r.cells.getD []).length = r.cellInfoCount)
    (hsupported : ∀ c ∈ r.cells.getD [], c.cellInfoType ∈
      [T.CHRE_WWAN_CELL_INFO_TYPE_GSM, T.CHRE_WWAN_CELL_INFO_TYPE_CDMA,
        T.CHRE_WWAN_CELL_INFO_TYPE_LTE, T.CHRE_WWAN_CELL_INFO_TYPE_WCDMA,
        T.CHRE_WWAN_CELL_INFO_TYPE_TD_SCDMA, T.CHRE_WWAN_CELL_INFO_TYPE_NR])
    (hpos : 0 < T.sizeofChppWwanCellInfo)
    (hsame : T.sizeofChppWwanCellInfo = T.sizeofChreWwanCellInfo)
    (hfit : T.sizeofChppWwanCellInfoResult + 255 * T.sizeofChppWwanCellInfo < 2 ^ 16)
    (hhdr : T.sizeofChppWwanCellInfoResult ≤ T.sizeofChppWwanCellInfoResultWithHeader)
    (hfrom : ∀ size, mallocFrom size = true) (hto : ∀ size, mallocTo size = true) :
    ∃ enc, chppWwanCellInfoResultFromChre T mallocFrom r = some enc ∧
      enc.outSize = T.sizeofChppWwanCellInfoResultWithHeader +
        r.cellInfoCount * T.sizeofChppWwanCellInfo ∧
      T.sizeofChppWwanCellInfoResult + r.cellInfoCount * T.sizeofChppWwanCellInfo ≤
        enc.outSize ∧
      ∀ (mem : Nat → ChppWwanCellInfo) (inSize : Nat),
        (∀ p ∈ enc.cells, mem p.1 = p.2) →
        T.sizeofChppWwanCellInfoResult + r.cellInfoCount * T.sizeofChppWwanCellInfo ≤
          inSize →
        ∃ d, (chppWwanCellInfoResultToChre T mallocTo sizeofChreWwanCellInfoResult
            { in_ := enc.payload, mem := mem, inSize := inSize }).out = some d ∧
          d.errorCode = r.errorCode ∧ d.cellInfoCount = r.cellInfoCount ∧
          (d.cells.getD []).length = r.cellInfoCount ∧
          (0 < r.cellInfoCount → d.cells ≠ none) ∧
          ∀ (i : Nat) (c : chreWwanCellInfo), (r.cells.getD [])[i]? = some c →
            ∃ e : chreWwanCellInfo, (d.cells.getD [])[i]? = some e ∧
              e.timeStamp = c.timeStamp ∧ e.cellInfoType = c.cellInfoType ∧
              e.timeStampType = c.timeStampType ∧ e.registered = c.registered ∧
              (c.cellInfoType = T.CHRE_WWAN_CELL_INFO_TYPE_GSM →
                e.CellInfo.gsm =
                  { cellIdentityGsm := { c.CellInfo.gsm.cellIdentityGsm with reserved := 0 }
                    signalStrengthGsm := c.CellInfo.gsm.signalStrengthGsm }) ∧
              (c.cellInfoType = T.CHRE_WWAN_CELL_INFO_TYPE_CDMA →
                e.CellInfo.cdma = c.CellInfo.cdma) ∧
              (c.cellInfoType = T.CHRE_WWAN_CELL_INFO_TYPE_LTE →
                e.CellInfo.lte = c.CellInfo.lte) ∧
              (c.cellInfoType = T.CHRE_WWAN_CELL_INFO_TYPE_WCDMA →
                e.CellInfo.wcdma = c.CellInfo.wcdma) ∧
              (c.cellInfoType = T.CHRE_WWAN_CELL_INFO_TYPE_TD_SCDMA →
                e.CellInfo.tdscdma = c.CellInfo.tdscdma) ∧
              (c.cellInfoType = T.CHRE_WWAN_CELL_INFO_TYPE_NR →
                e.CellInfo.nr = c.CellInfo.nr) := by
  have _ := hsupported
  by_cases hn : r.cellInfoCount = 0
  · refine ⟨_, chppWwanCellInfoResultFromChre_of_empty T mallocFrom r (hfrom _) hn, rfl, ?_,
      ?_⟩
    · simp only [chppWwanSizeOfCellInfoResultFromChre]
      omega
    · intro mem inSize _ hin
      have hnil : r.cells.getD [] = [] := List.length_eq_zero.mp (by omega)
      rw [chppWwanCellInfoResultToChre_of_alloc T mallocTo _ _ (by simp only; omega) (hto _),
        chppWwanConvertCellInfoResultToChre_of_empty T mallocTo _ rfl]
      refine ⟨_, rfl, rfl, rfl, ?_, fun h => absurd hn (by omega), ?_⟩
      · simp [hn]
      · intro i c hc
        simp [hnil] at hc
  · have hn0 : 0 < r.cellInfoCount := Nat.pos_of_ne_zero hn
    refine ⟨_, chppWwanCellInfoResultFromChre_of_cells T mallocFrom r (hfrom _) hn0 hcount
      hcells hpos hfit hhdr, rfl, ?_, ?_⟩
    · simp only [chppWwanSizeOfCellInfoResultFromChre]
      omega
    · intro mem inSize hmem hin
      have h0 : r.cellInfoCount * T.sizeofChppWwanCellInfo ≠ 0 :=
        Nat.pos_iff_ne_zero.mp (Nat.mul_pos hn0 hpos)
      rw [chppWwanCellInfoResultToChre_of_alloc T mallocTo _ _ (by simp only; omega) (hto _),
        chppWwanConvertCellInfoResultToChre_of_cells T mallocTo _ h0 hin
          (by simp only [hsame]) (hto _)]
      refine ⟨_, rfl, rfl, rfl, ?_, fun _ => by simp, ?_⟩
      · simp
      · intro i c hc
        have hi : i < r.cellInfoCount := by
          have := (List.getElem?_eq_some_iff.mp hc).1
          omega
        have hp : (T.sizeofChppWwanCellInfoResult + i * T.sizeofChppWwanCellInfo,
            chppWwanConvertCellInfoFromChre T c) ∈
            ((r.cells.getD []).enum).map fun ic =>
              (T.sizeofChppWwanCellInfoResult + ic.1 * T.sizeofChppWwanCellInfo,
                chppWwanConvertCellInfoFromChre T ic.2) :=
          List.mem_map.mpr ⟨(i, c), List.mk_mem_enum_iff_getElem?.mpr hc, rfl⟩
        have hread := hmem _ hp
        simp only at hread
        refine ⟨chppWwanConvertCellInfoToChre T (chppWwanConvertCellInfoFromChre T c), ?_,
          chppWwanConvertCellInfo_round_trip T c⟩
        simp [hi, hread]

theorem chppWwanCellInfoResult_round_trip_witness :
    twoCellResult.cellInfoCount < 2 ^ 8 ∧
    (twoCellResult.cells.getD []).length = twoCellResult.cellInfoCount ∧
    wwanTypes.sizeofChppWwanCellInfo = wwanTypes.sizeofChreWwanCellInfo ∧
    (∃ enc, chppWwanCellInfoResultFromChre wwanTypes mallocSucceeds twoCellResult = some enc ∧
      enc.outSize = wwanTypes.sizeofChppWwanCellInfoResultWithHeader +
        twoCellResult.cellInfoCount * wwanTypes.sizeofChppWwanCellInfo ∧
      wwanTypes.sizeofChppWwanCellInfoResult +
          twoCellResult.cellInfoCount * wwanTypes.sizeofChppWwanCellInfo ≤
        enc.outSize ∧
      ∀ (mem : Nat → ChppWwanCellInfo) (inSize : Nat),
        (∀ p ∈ enc.cells, mem p.1 = p.2) →
        wwanTypes.sizeofChppWwanCellInfoResult +
          twoCellResult.cellInfoCount * wwanTypes.sizeofChppWwanCellInfo ≤
          inSize →
        ∃ d, (chppWwanCellInfoResultToChre wwanTypes mallocSucceeds 16
            { in_ := enc.payload, mem := mem, inSize := inSize }).out = some d ∧
          d.errorCode = twoCellResult.errorCode ∧ d.cellInfoCount = twoCellResult.cellInfoCount ∧
          (d.cells.getD []).length = twoCellResult.cellInfoCount ∧
          (0 < twoCellResult.cellInfoCount → d.cells ≠ none) ∧
          ∀ (i : Nat) (c : chreWwanCellInfo), (twoCellResult.cells.getD [])[i]? = some c →
            ∃ e : chreWwanCellInfo, (d.cells.getD [])[i]? = some e ∧
              e.timeStamp = c.timeStamp ∧ e.cellInfoType = c.cellInfoType ∧
              e.timeStampType = c.timeStampType ∧ e.registered = c.registered ∧
              (c.cellInfoType = wwanTypes.CHRE_WWAN_CELL_INFO_TYPE_GSM →
                e.CellInfo.gsm =
                  { cellIdentityGsm := { c.CellInfo.gsm.cellIdentityGsm with reserved := 0 }
                    signalStrengthGsm := c.CellInfo.gsm.signalStrengthGsm }) ∧
              (c.cellInfoType = wwanTypes.CHRE_WWAN_CELL_INFO_TYPE_CDMA →
                e.CellInfo.cdma = c.CellInfo.cdma) ∧
              (c.cellInfoType = wwanTypes.CHRE_WWAN_CELL_INFO_TYPE_LTE →
                e.CellInfo.lte = c.CellInfo.lte) ∧
              (c.cellInfoType = wwanTypes.CHRE_WWAN_CELL_INFO_TYPE_WCDMA →
                e.CellInfo.wcdma = c.CellInfo.wcdma) ∧
              (c.cellInfoType = wwanTypes.CHRE_WWAN_CELL_INFO_TYPE_TD_SCDMA →
                e.CellInfo.tdscdma = c.CellInfo.tdscdma) ∧
              (c.cellInfoType = wwanTypes.CHRE_WWAN_CELL_INFO_TYPE_NR →
                e.CellInfo.nr = c.CellInfo.nr)) :=
  ⟨by decide, by decide, by decide,
    chppWwanCellInfoResult_round_trip wwanTypes mallocSucceeds mallocSucceeds 16 twoCellResult
      (by decide) (by decide) (by decide) (by decide) (by decide) (by decide) (by decide)
      (fun _ => rfl) (fun _ => rfl)⟩

/-! ## Response of the cell info result callback -/

theorem outSize_of_chppWwanCellInfoResultFromChre (T : WwanTypes) (chppMalloc : Nat → Bool)
    (r : chreWwanCellInfoResult) (enc : ChppWwanCellInfoResultWithHeader)
    (h : chppWwanCellInfoResultFromChre T chppMalloc r = some enc) :
    enc.outSize = T.sizeofChppWwanCellInfoResultWithHeader +
      r.cellInfoCount * T.sizeofChppWwanCellInfo := by
  simp only [chppWwanCellInfoResultFromChre] at h
  split at h
  · simp only [Option.some.injEq] at h
    rw [← h]
    rfl
  · cases h

/-- C21: `chppWwanServiceCellInfoResultCallback` sends at most one response and then
releases the result. The response it sends goes out on the `getCellInfoAsync` request
state, with handle = the service handle, type = `CHPP_MESSAGE_TYPE_SERVICE_RESPONSE`,
command = `CHPP_WWAN_GET_CELLINFO_ASYNC`, transaction = the transaction stored in the
`getCellInfoAsync` request state, and error = `CHPP_APP_ERROR_NONE` if and only if the
response length exceeds `sizeof(struct ChppAppHeader)`; that is the case exactly when the
conversion succeeded (the response then is the converted result, of its size), and
otherwise the error is `CHPP_APP_ERROR_CONVERSION_FAILED` and the response is the header
alone. No response is sent only when the conversion and the allocation of the header
both fail. The size of the result structure with header is a parameter, taken to exceed
the size of the header. -/
theorem chppWwanServiceCellInfoResultCallback_response (T : WwanTypes) (env : WwanEnv)
    (chppMalloc : Nat → Bool) (ctx : WwanContext) (result : chreWwanCellInfoResult)
    (hhdr : env.sizeofChppAppHeader < T.sizeofChppWwanCellInfoResultWithHeader) :
    ((chppWwanServiceCellInfoResultCallback T env chppMalloc ctx result).calls =
        ctx.calls ++ [WwanCall.palReleaseCellInfoResult] ∧
      chppWwanCellInfoResultFromChre T chppMalloc result = none ∧
      chppMalloc env.sizeofChppAppHeader = false) ∨
    (∃ (response : WwanResponse) (len : Nat),
      (chppWwanServiceCellInfoResultCallback T env chppMalloc ctx result).calls =
        ctx.calls ++ [WwanCall.chppSendTimestampedResponseOrFail
          WwanRequestState.getCellInfoAsync response len,
          WwanCall.palReleaseCellInfoResult] ∧
      response.header.handle = ctx.state.service.handle ∧
      response.header.type = ChppMessageType.CHPP_MESSAGE_TYPE_SERVICE_RESPONSE ∧
      response.header.command = env.commands.CHPP_WWAN_GET_CELLINFO_ASYNC ∧
      response.header.transaction = ctx.state.getCellInfoAsync.transaction ∧
      (response.header.error = ChppAppErrorCode.CHPP_APP_ERROR_NONE ↔
        len > env.sizeofChppAppHeader) ∧
      ((len > env.sizeofChppAppHeader ∧
          response.header.error = ChppAppErrorCode.CHPP_APP_ERROR_NONE ∧
          ∃ converted, chppWwanCellInfoResultFromChre T chppMalloc result = some converted ∧
            response.cellInfoResult = some converted ∧ len = converted.outSize) ∨
        (len = env.sizeofChppAppHeader ∧
          response.header.error = ChppAppErrorCode.CHPP_APP_ERROR_CONVERSION_FAILED ∧
          response.cellInfoResult = none ∧ response.params = [] ∧
          chppWwanCellInfoResultFromChre T chppMalloc result = none))) := by
  cases hconv : chppWwanCellInfoResultFromChre T chppMalloc result with
  | none =>
    cases hm : chppMalloc env.sizeofChppAppHeader
    · left
      simp [chppWwanServiceCellInfoResultCallback, hconv, hm, WwanContext.call]
    · right
      refine ⟨WwanResponse.mk
        (ChppAppHeader.mk ctx.state.service.handle
          ChppMessageType.CHPP_MESSAGE_TYPE_SERVICE_RESPONSE
          ctx.state.getCellInfoAsync.transaction
          ChppAppErrorCode.CHPP_APP_ERROR_CONVERSION_FAILED
          env.commands.CHPP_WWAN_GET_CELLINFO_ASYNC) [] none, env.sizeofChppAppHeader, ?_, ?_⟩
      · simp only [chppWwanServiceCellInfoResultCallback, hconv, hm, if_true,
          chppSendTimestampedResponseOrFail, WwanContext.call, WwanContext.calls_set,
          List.append_assoc, List.singleton_append, WwanContext.get, Nat.lt_irrefl, if_false,
          gt_iff_lt]
      · simp
  | some converted =>
    have hsize := outSize_of_chppWwanCellInfoResultFromChre T chppMalloc result converted hconv
    have hgt : converted.outSize > env.sizeofChppAppHeader := by omega
    right
    refine ⟨WwanResponse.mk
      (ChppAppHeader.mk ctx.state.service.handle
        ChppMessageType.CHPP_MESSAGE_TYPE_SERVICE_RESPONSE
        ctx.state.getCellInfoAsync.transaction
        ChppAppErrorCode.CHPP_APP_ERROR_NONE
        env.commands.CHPP_WWAN_GET_CELLINFO_ASYNC) [] (some converted), converted.outSize, ?_,
      ?_⟩
    · simp only [chppWwanServiceCellInfoResultCallback, hconv,
        chppSendTimestampedResponseOrFail, WwanContext.call, WwanContext.calls_set,
        List.append_assoc, List.singleton_append, WwanContext.get, if_pos hgt]
    · simp [hgt]

theorem chppWwanServiceCellInfoResultCallback_response_witness :
    palOpensEnv.sizeofChppAppHeader < wwanTypes.sizeofChppWwanCellInfoResultWithHeader ∧
    (((chppWwanServiceCellInfoResultCallback wwanTypes palOpensEnv mallocSucceeds
        cellInfoRequestedContext twoCellResult).calls =
        cellInfoRequestedContext.calls ++ [WwanCall.palReleaseCellInfoResult] ∧
      chppWwanCellInfoResultFromChre wwanTypes mallocSucceeds twoCellResult = none ∧
      mallocSucceeds palOpensEnv.sizeofChppAppHeader = false) ∨
    (∃ (response : WwanResponse) (len : Nat),
      (chppWwanServiceCellInfoResultCallback wwanTypes palOpensEnv mallocSucceeds
        cellInfoRequestedContext twoCellResult).calls =
        cellInfoRequestedContext.calls ++ [WwanCall.chppSendTimestampedResponseOrFail
          WwanRequestState.getCellInfoAsync response len,
          WwanCall.palReleaseCellInfoResult] ∧
      response.header.handle = cellInfoRequestedContext.state.service.handle ∧
      response.header.type = ChppMessageType.CHPP_MESSAGE_TYPE_SERVICE_RESPONSE ∧
      response.header.command = palOpensEnv.commands.CHPP_WWAN_GET_CELLINFO_ASYNC ∧
      response.header.transaction = cellInfoRequestedContext.state.getCellInfoAsync.transaction ∧
      (response.header.error = ChppAppErrorCode.CHPP_APP_ERROR_NONE ↔
        len > palOpensEnv.sizeofChppAppHeader) ∧
      ((len > palOpensEnv.sizeofChppAppHeader ∧
          response.header.error = ChppAppErrorCode.CHPP_APP_ERROR_NONE ∧
          ∃ converted,
            chppWwanCellInfoResultFromChre wwanTypes mallocSucceeds twoCellResult =
              some converted ∧
            response.cellInfoResult = some converted ∧ len = converted.outSize) ∨
        (len = palOpensEnv.sizeofChppAppHeader ∧
          response.header.error = ChppAppErrorCode.CHPP_APP_ERROR_CONVERSION_FAILED ∧
          response.cellInfoResult = none ∧ response.params = [] ∧
          chppWwanCellInfoResultFromChre wwanTypes mallocSucceeds twoCellResult = none)))) :=
  ⟨by decide, chppWwanServiceCellInfoResultCallback_response wwanTypes palOpensEnv
    mallocSucceeds cellInfoRequestedContext twoCellResult (by decide)⟩

end Chre
